import Mathlib

/-!
# DeferredShader: the host application and the scene manager

A shallow embedding of `DeferredShaderDemo.cpp` (class `DeferredShaderApp`) and
`Renderer/SceneManager.cpp` (class `SceneManager`).

Modelling conventions.

* `float` values are rationals; a source literal such as `0.02f` is the rational `0.02`.
* A pointer is an `Option`: `none` is `NULL`.  Dereferencing `NULL` is the fault
  `Fault.nullDeref`.
* Every call the code issues is appended to `State.trace`.  Calls on the device context that
  the code under study issues itself act on the explicit pipeline state `Ctx`.  Calls into
  collaborators whose code is not part of the two files (light manager, GBuffer, camera, mesh,
  GUI library, base class) act on an abstract world `W` and on `Ctx` through `Env.effect`, and
  their return values come from `Env`.
* The `while` loop of `Render` is driven by fuel; running out of fuel is `Fault.outOfFuel`.
-/

namespace DeferredShader

/-! ## Plain data -/

/-- Identity of a heap or COM object. -/
abbrev Handle := Nat

/-- Three packed floats. -/
structure XMFLOAT3 where
  x : ℚ
  y : ℚ
  z : ℚ
deriving DecidableEq

/-- Four float lanes. -/
structure XMVECTOR where
  x : ℚ
  y : ℚ
  z : ℚ
  w : ℚ
deriving DecidableEq

/-- `XMVectorSet(x, y, z, w)`. -/
def XMVectorSet (x y z w : ℚ) : XMVECTOR := ⟨x, y, z, w⟩

/-- `XMLoadFloat3`: the fourth lane is zero. -/
def XMLoadFloat3 (f : XMFLOAT3) : XMVECTOR := ⟨f.x, f.y, f.z, 0⟩

/-- `XMStoreFloat3`: the first three lanes. -/
def XMStoreFloat3 (v : XMVECTOR) : XMFLOAT3 := ⟨v.x, v.y, v.z⟩

/-- Lane-wise `operator-`. -/
def XMVECTOR.sub (a b : XMVECTOR) : XMVECTOR := ⟨a.x - b.x, a.y - b.y, a.z - b.z, a.w - b.w⟩

/-- Lane-wise `operator+`. -/
def XMVECTOR.add (a b : XMVECTOR) : XMVECTOR := ⟨a.x + b.x, a.y + b.y, a.z + b.z, a.w + b.w⟩

/-- Vector times scalar, `operator*`. -/
def XMVECTOR.scale (a : XMVECTOR) (k : ℚ) : XMVECTOR := ⟨a.x * k, a.y * k, a.z * k, a.w * k⟩

/-- Square of the Euclidean length of the xyz part. -/
def XMVECTOR.lengthSq3 (a : XMVECTOR) : ℚ := a.x * a.x + a.y * a.y + a.z * a.z

/-- The viewport record of the rasterizer stage. -/
structure D3D11_VIEWPORT where
  TopLeftX : ℚ
  TopLeftY : ℚ
  Width : ℚ
  Height : ℚ
  MinDepth : ℚ
  MaxDepth : ℚ
deriving DecidableEq

/-- Values of `enum RENDER_STATE`; an unscoped enum is an integer. -/
abbrev RENDER_STATE := Int

/-- First enumerator. -/
def BACKBUFFERRT : RENDER_STATE := 0
/-- Second enumerator. -/
def DEPTHRT : RENDER_STATE := 1
/-- Third enumerator. -/
def COLSPECRT : RENDER_STATE := 2
/-- Fourth enumerator. -/
def NORMALRT : RENDER_STATE := 3
/-- Fifth enumerator. -/
def SPECPOWRT : RENDER_STATE := 4

/-- Depth-stencil views the host binds. -/
inductive DSV where
  | GetDepthDSV
  | GetDepthReadOnlyDSV
  | other (h : Handle)
deriving DecidableEq

/-- Shader resource views the code binds to pixel-shader slots. -/
inductive SRV where
  | GetDepthView
  | GetColorView
  | GetNormalView
  | GetSpecPowerView
  | texture (h : Handle)
deriving DecidableEq

/-- Camera lens arguments: the vertical field of view is given as a multiple of pi. -/
structure Lens where
  fovYOverPi : ℚ
  aspect : ℚ
  zn : ℚ
  zf : ℚ
deriving DecidableEq

/-! ## Calls -/

/-- Calls on `ID3D11DeviceContext` that the two files issue themselves. -/
inductive CtxCall where
  | RSGetViewports (vp : D3D11_VIEWPORT)
  | RSGetState (rs : Option Handle)
  | RSSetViewports (vp : D3D11_VIEWPORT)
  | RSSetState (rs : Option Handle)
  | VSSetShader (s : Option Handle)
  | GSSetShader (s : Option Handle)
  | PSSetShader (s : Option Handle)
  | ClearRenderTargetView (rtv : Option Handle)
  | ClearDepthStencilView (dsv : Option Handle)
  | OMGetDepthStencilState (st : Option Handle) (ref : Nat)
  | OMSetDepthStencilState (st : Option Handle) (ref : Nat)
  | OMSetRenderTargets (rtv : Option Handle) (dsv : Option DSV)
  | PSSetSamplers (start : Nat) (samplers : List (Option Handle))
  | PSSetShaderResources (start : Nat) (views : List (Option SRV))
  | IASetInputLayout (layout : Option Handle)
  | IASetVertexBuffers
  | IASetPrimitiveTopologyTriangleStrip
  | Draw (vertexCount : Nat) (start : Nat)
  | Map (cb : Option Handle)
  | Unmap (cb : Option Handle)
  | VSSetConstantBuffers (cb : Option Handle)
  | PSSetConstantBuffers (cb : Option Handle)
deriving DecidableEq

/-- Calls into `LightManager`. -/
inductive LightCall where
  | Init (ret : Int)
  | Release
  | SetAmbient (lower upper : XMVECTOR)
  | SetDirectional (dir color : XMVECTOR) (castShadows antiFlicker : Bool)
  | ClearLights
  | AddPointLight (pos : XMFLOAT3) (range : ℚ) (color : XMFLOAT3) (castShadows : Bool)
  | AddSpotLight (pos dir : XMFLOAT3) (range outer inner : ℚ) (color : XMFLOAT3)
      (castShadows : Bool)
  | PrepareNextShadowLight (ret : Bool)
  | DoLighting
  | DoDebugLightVolume
  | DoDebugCascadedShadows
  | VisualizeShadowMap
  | Destructor
deriving DecidableEq

/-- Calls into `GBuffer`. -/
inductive GBufferCall where
  | Init (width height : Int) (ret : Bool)
  | Release
  | PreRender
  | PostRender
  | PrepareForUnpack
  | Destructor
deriving DecidableEq

/-- Calls into `Camera`. -/
inductive CameraCall where
  | LookAt (pos target up : XMFLOAT3)
  | SetLens (lens : Lens)
  | UpdateViewMatrix
  | Walk (d : ℚ)
  | Pitch (degrees : ℚ)
  | RotateY (degrees : ℚ)
  | View
  | Proj
  | ViewProj
  | GetPosition
  | SetPosition (p : XMFLOAT3)
deriving DecidableEq

/-- Calls into `SceneManager` and `Mesh`. -/
inductive SceneCall where
  | Init
  | Release
  | Render
  | RenderSceneNoShaders
  | MeshRender (mesh : Handle)
  | MeshDestroy (mesh : Handle)
deriving DecidableEq

/-- Calls on the device, the shader compiler, the loaders and the allocator during start-up. -/
inductive DeviceCall where
  | NewCamera
  | BaseInit (ret : Bool)
  | CompileShader (entry : String) (target : String) (ret : Int)
  | MessageBox
  | CreateVertexShader (blob : Handle) (hr : Int)
  | CreatePixelShader (blob : Handle) (hr : Int)
  | CreateInputLayout (blob : Handle) (hr : Int)
  | CreateSamplerStateLinear (hr : Int)
  | CreateSamplerStatePoint (hr : Int)
  | CreateBuffer (byteWidth : Nat) (hr : Int)
  | LoadToMesh (path : String) (ret : Bool)
  | NewMesh (mesh : Handle)
  | MeshCreate (mesh : Handle)
deriving DecidableEq

/-- Member functions of the host, the base class, the swap chain and the GUI library. -/
inductive HostCall where
  | BaseOnResize
  | SnapScreenshot
  | VisualizeGBuffer
  | VisualizeFullScreenGBufferTexture
  | RenderGUI
  | ImGuiNewFrame
  | ImGuiFramerateWindow
  | ImGuiSettingsWindow
  | ImGuiRender
  | ImGuiRenderDrawData
  | Present
  | Release (h : Option Handle)
  | Run
  | Delete (h : Option Handle)
  | BaseDestructor
deriving DecidableEq

/-- Every call that can appear in a trace. -/
inductive Call where
  | ctx (c : CtxCall)
  | light (c : LightCall)
  | gbuffer (c : GBufferCall)
  | camera (c : CameraCall)
  | scene (c : SceneCall)
  | host (c : HostCall)
  | device (c : DeviceCall)
deriving DecidableEq

/-! ## Pipeline state -/

/-- The part of the device-context state that the two files set or read. -/
structure Ctx where
  viewport : D3D11_VIEWPORT
  rsState : Option Handle
  depthStencilState : Option Handle
  stencilRef : Nat
  rtv : Option Handle
  dsv : Option DSV
  vs : Option Handle
  gs : Option Handle
  ps : Option Handle
  psSRV : Nat → Option SRV
  psSamplers : Nat → Option Handle
  inputLayout : Option Handle
  triangleStrip : Bool
  vsCB : Option Handle
  psCB : Option Handle

/-- Write `xs` into consecutive slots from `start` on. -/
def setSlots {α : Type} (f : Nat → Option α) (start : Nat) (xs : List (Option α)) :
    Nat → Option α :=
  fun i => if start ≤ i ∧ i < start + xs.length then (xs.getD (i - start) none) else f i

/-- Effect of a device-context call on the pipeline state. -/
def CtxCall.apply : CtxCall → Ctx → Ctx
  | .RSSetViewports vp, c => { c with viewport := vp }
  | .RSSetState rs, c => { c with rsState := rs }
  | .VSSetShader s, c => { c with vs := s }
  | .GSSetShader s, c => { c with gs := s }
  | .PSSetShader s, c => { c with ps := s }
  | .OMSetDepthStencilState st ref, c => { c with depthStencilState := st, stencilRef := ref }
  | .OMSetRenderTargets rtv dsv, c => { c with rtv := rtv, dsv := dsv }
  | .PSSetSamplers start xs, c => { c with psSamplers := setSlots c.psSamplers start xs }
  | .PSSetShaderResources start xs, c => { c with psSRV := setSlots c.psSRV start xs }
  | .IASetInputLayout l, c => { c with inputLayout := l }
  | .IASetPrimitiveTopologyTriangleStrip, c => { c with triangleStrip := true }
  | .VSSetConstantBuffers cb, c => { c with vsCB := cb }
  | .PSSetConstantBuffers cb, c => { c with psCB := cb }
  | _, c => c

/-! ## Collaborators outside the two files -/

/-- Behaviour of everything the two files call but do not define.  `effect` is what a call does
to the world and to the pipeline state; the other fields are the values that calls return. -/
structure Env (W : Type) where
  /-- Effect of a call into a collaborator on the world and on the pipeline state. -/
  effect : Call → W → Ctx → W × Ctx
  /-- Value returned by `LightManager::PrepareNextShadowLight`. -/
  PrepareNextShadowLight : W → Ctx → Bool
  /-- Modelled from the spec: `GBuffer::Init(device, width, height)` is outside the two files;
  it fails when the device cannot allocate.  The value is `true` on success. -/
  GBufferInit : Int → Int → W → Bool
  /-- Value of `D3DRendererApp::AspectRatio()` for a client width and height. -/
  AspectRatio : Int → Int → ℚ
  /-- Value of `TextureManager::GetTexture` for the diffuse texture of a mesh. -/
  GetTexture : Handle → W → Option SRV
  /-- First row of the inverse of `mCamera->View()`. -/
  viewInvRight : W → XMFLOAT3
  /-- Second row of the inverse of `mCamera->View()`. -/
  viewInvUp : W → XMFLOAT3
  /-- Third row of the inverse of `mCamera->View()`. -/
  viewInvForward : W → XMFLOAT3
  /-- Value of `mCamera->GetPosition()`. -/
  GetPosition : W → XMFLOAT3
  /-- The library function `XMVector3Normalize`. -/
  XMVector3Normalize : XMVECTOR → XMVECTOR
  /-- Value returned by `D3DRendererApp::Init`. -/
  BaseInit : W → Bool
  /-- Value returned by `CompileShader` for an entry point, as an integer, and the blob pointer
  it leaves. -/
  CompileShader : String → Int × Option Handle
  /-- The `HRESULT` of `CreateVertexShader` for a blob, and the shader it stores. -/
  CreateVertexShader : Handle → Int × Option Handle
  /-- The `HRESULT` of `CreatePixelShader` for a blob, and the shader it stores. -/
  CreatePixelShader : Handle → Int × Option Handle
  /-- The `HRESULT` of `CreateInputLayout` for a blob, and the layout it stores. -/
  CreateInputLayout : Handle → Int × Option Handle
  /-- The `HRESULT` of `CreateSamplerState` for the linear filter, and the sampler. -/
  CreateSamplerStateLinear : Int × Option Handle
  /-- The `HRESULT` of `CreateSamplerState` for the point filter, and the sampler. -/
  CreateSamplerStatePoint : Int × Option Handle
  /-- The `HRESULT` of `CreateBuffer` for a byte width, and the buffer. -/
  CreateBuffer : Nat → Int × Option Handle
  /-- Value returned by `ObjLoader::LoadToMesh` for a path. -/
  LoadToMesh : String → Bool
  /-- The object `new Mesh()` yields. -/
  NewMesh : W → Handle
  /-- The object `new Camera()` yields. -/
  NewCamera : W → Handle
  /-- Value returned by `LightManager::Init`, as an integer. -/
  LightManagerInit : W → Int
  /-- The macro `V_RETURN`, defined outside the two files: applied to the value `hr` of its
  argument it gives `some b` when it returns `b` from the enclosing function and `none` when
  control falls through. -/
  V_RETURN : Int → Option Bool
  /-- The macro `SAFE_RELEASE`, defined outside the two files: applied to a pointer variable
  that holds `p` it leaves this value in the variable. -/
  SAFE_RELEASE : Option Handle → Option Handle
  /-- The macro `SAFE_DELETE`, defined outside the two files: applied to a pointer variable
  that holds `p` it leaves this value in the variable. -/
  SAFE_DELETE : Option Handle → Option Handle

/-- The `FAILED` test on an `HRESULT`: negative values are failures. -/
def FAILED (hr : Int) : Bool := decide (hr < 0)

/-- Conversion of an integer to `bool`. -/
def toBool (v : Int) : Bool := decide (v ≠ 0)

/-- The usual definition of the macro: `hr = (x); if (FAILED(hr)) return hr;`, where the
returned `HRESULT` converts to the `bool` return type of the enclosing function. -/
def dxutVReturn (hr : Int) : Option Bool := if FAILED hr then some (toBool hr) else none

/-- Ways a run can go wrong. -/
inductive Fault where
  | nullDeref
  | outOfFuel
deriving DecidableEq

/-! ## Objects -/

/-- Members of the base class `D3DRendererApp` that the host reads or writes. -/
structure D3DRendererApp where
  mClientWidth : Int
  mClientHeight : Int
  mScreenViewport : D3D11_VIEWPORT
  mRenderTargetView : Option Handle
  mDepthStencilView : Option Handle
  mShowRenderStats : Bool

/-- Members of `DeferredShaderApp`, followed by the function-local statics of `RenderGUI`. -/
structure DeferredShaderApp extends D3DRendererApp where
  mLastMousePos : Int × Int
  mCamera : Option Handle
  mSampPoint : Option Handle
  mSampLinear : Option Handle
  mGBufferVisVertexShader : Option Handle
  mGBufferVisPixelShader : Option Handle
  mTextureVisVS : Option Handle
  mTextureVisDepthPS : Option Handle
  mTextureVisCSpecPS : Option Handle
  mTextureVisNormalPS : Option Handle
  mTextureVisSpecPowPS : Option Handle
  mVisualizeGBuffer : Bool
  mVisualizeLightVolume : Bool
  mAmbientLowerColor : XMVECTOR
  mAmbientUpperColor : XMVECTOR
  mDirLightDir : XMVECTOR
  mDirLightColor : XMVECTOR
  mDirCastShadows : Bool
  mAntiFlickerOn : Bool
  mVisualizeCascades : Bool
  mSpotDirection : XMFLOAT3
  mSpotRange : ℚ
  mSpotOuterAngle : ℚ
  mSpotInnerAngle : ℚ
  mSpotCastShadows : Bool
  mPointCastShadows : Bool
  mNumLights : Int
  mLightPositions : List XMFLOAT3
  mLightRange : ℚ
  mLightColor : List XMFLOAT3
  mLightType : Int
  mShowSettings : Bool
  mShowShadowMap : Bool
  mRenderState : RENDER_STATE
  staticColor : Option XMFLOAT3
  staticColorAUp : Option XMFLOAT3
  staticColorALower : Option XMFLOAT3

/-- Members of `SceneManager`. -/
structure SceneManager where
  mMeshes : List (Option Handle)
  mSceneVertexShaderCB : Option Handle
  mScenePixelShaderCB : Option Handle
  mSceneVertexShader : Option Handle
  mSceneVSLayout : Option Handle
  mScenePixelShader : Option Handle
  mCamera : Option Handle

/-- The whole machine: both objects, the pipeline state, the outside world, and the calls
issued so far. -/
structure State (W : Type) where
  app : DeferredShaderApp
  scene : SceneManager
  ctx : Ctx
  world : W
  trace : List Call

variable {W : Type}

/-- Issue a device-context call. -/
def State.ctxCall (c : CtxCall) (s : State W) : State W :=
  { s with ctx := c.apply s.ctx, trace := s.trace ++ [Call.ctx c] }

/-- Issue a call into a collaborator. -/
def State.extCall (E : Env W) (c : Call) (s : State W) : State W :=
  { s with world := (E.effect c s.world s.ctx).1, ctx := (E.effect c s.world s.ctx).2,
           trace := s.trace ++ [c] }

/-- Record entry into a member function of the two files. -/
def State.enter (c : Call) (s : State W) : State W :=
  { s with trace := s.trace ++ [c] }

/-- Dereference a pointer. -/
def deref {α : Type} : Option α → Except Fault α
  | some a => .ok a
  | none => .error .nullDeref

/-- Replace the host object. -/
def State.setApp (f : DeferredShaderApp → DeferredShaderApp) (s : State W) : State W :=
  { s with app := f s.app }

/-- Replace the scene manager. -/
def State.setScene (f : SceneManager → SceneManager) (s : State W) : State W :=
  { s with scene := f s.scene }

/-! ## SceneManager.cpp -/

/-- The constructor of `SceneManager`: every pointer is `NULL`, no meshes. -/
def SceneManager.new : SceneManager :=
  { mMeshes := [], mSceneVertexShaderCB := none, mScenePixelShaderCB := none,
    mSceneVertexShader := none, mSceneVSLayout := none, mScenePixelShader := none,
    mCamera := none }

/-- Body of the loop of `RenderSceneNoShaders`, over the remaining meshes. -/
def SceneManager.renderMeshesNoShaders (E : Env W) :
    List (Option Handle) → State W → Except Fault (State W)
  | [], s => .ok s
  | none :: _, _ => .error .nullDeref
  | some m :: ms, s =>
      SceneManager.renderMeshesNoShaders E ms (s.extCall E (.scene (.MeshRender m)))

/-- `SceneManager::RenderSceneNoShaders`. -/
def SceneManager.RenderSceneNoShaders (E : Env W) (s : State W) : Except Fault (State W) :=
  SceneManager.renderMeshesNoShaders E s.scene.mMeshes (s.enter (.scene .RenderSceneNoShaders))

/-- One iteration of the loop of `SceneManager::Render`, for mesh `m`. -/
def SceneManager.renderMesh (E : Env W) (m : Handle) (s : State W) : State W :=
  let s := s.ctxCall (.Map s.scene.mSceneVertexShaderCB)
  let s := s.ctxCall (.Unmap s.scene.mSceneVertexShaderCB)
  let s := s.ctxCall (.VSSetConstantBuffers s.scene.mSceneVertexShaderCB)
  let s := s.ctxCall (.Map s.scene.mScenePixelShaderCB)
  let s := match E.GetTexture m s.world with
    | some srv => s.ctxCall (.PSSetShaderResources 0 [some srv])
    | none => s
  let s := s.ctxCall (.Unmap s.scene.mScenePixelShaderCB)
  let s := s.ctxCall (.PSSetConstantBuffers s.scene.mScenePixelShaderCB)
  let s := s.ctxCall (.IASetInputLayout s.scene.mSceneVSLayout)
  let s := s.ctxCall (.VSSetShader s.scene.mSceneVertexShader)
  let s := s.ctxCall (.PSSetShader s.scene.mScenePixelShader)
  s.extCall E (.scene (.MeshRender m))

/-- The loop of `SceneManager::Render`, over the remaining meshes. -/
def SceneManager.renderMeshes (E : Env W) :
    List (Option Handle) → State W → Except Fault (State W)
  | [], s => .ok s
  | none :: _, _ => .error .nullDeref
  | some m :: ms, s => SceneManager.renderMeshes E ms (SceneManager.renderMesh E m s)

/-- `SceneManager::Render`: renders the scene to the GBuffer. -/
def SceneManager.Render (E : Env W) (s : State W) : Except Fault (State W) := do
  let s := s.enter (.scene .Render)
  let _ ← deref s.scene.mCamera
  let s := s.extCall E (.camera .View)
  let s := s.extCall E (.camera .Proj)
  SceneManager.renderMeshes E s.scene.mMeshes s

/-! ## DeferredShaderDemo.cpp: construction -/

/-- The constructor of `DeferredShaderApp`.  `base` is what the base-class constructor left,
`lastMouse` the indeterminate initial value of `mLastMousePos`. -/
def DeferredShaderApp.new (E : Env W) (base : D3DRendererApp) (lastMouse : Int × Int) :
    DeferredShaderApp :=
  let mLightPositions : List XMFLOAT3 :=
    [⟨3.0, 5.0, 5.0⟩, ⟨-10.0, 4.0, -5.0⟩, ⟨-5.0, 10.0, -5.0⟩]
  let spotLook : XMFLOAT3 := ⟨0, 0, 0⟩
  let dir := (XMLoadFloat3 spotLook).sub (XMLoadFloat3 (mLightPositions.getD 2 ⟨0, 0, 0⟩))
  let dir := E.XMVector3Normalize dir
  { toD3DRendererApp := base
    mLastMousePos := lastMouse
    mCamera := none
    mSampPoint := none
    mSampLinear := none
    mGBufferVisVertexShader := none
    mGBufferVisPixelShader := none
    mTextureVisVS := none
    mTextureVisDepthPS := none
    mTextureVisCSpecPS := none
    mTextureVisNormalPS := none
    mTextureVisSpecPowPS := none
    mVisualizeGBuffer := false
    mShowSettings := true
    mShowShadowMap := false
    mLightType := 0
    mVisualizeLightVolume := false
    mNumLights := 3
    mLightRange := 25.0
    mLightPositions := mLightPositions
    mLightColor := [⟨0.0, 1.0, 0.0⟩, ⟨0.0, 1.0, 0.0⟩, ⟨1.0, 1.0, 1.0⟩]
    mSpotDirection := XMStoreFloat3 dir
    mSpotRange := 30.0
    mSpotOuterAngle := 20.0
    mSpotInnerAngle := 15.0
    mSpotCastShadows := true
    mPointCastShadows := false
    mAmbientLowerColor := XMVectorSet 0.1 0.2 0.1 1.0
    mAmbientUpperColor := XMVectorSet 0.1 0.2 0.2 1.0
    mDirLightDir := XMVectorSet (-0.1) (-0.4) (-0.9) 1.0
    mDirLightColor := XMVectorSet 0.8 0.8 0.8 1.0
    mDirCastShadows := true
    mAntiFlickerOn := true
    mVisualizeCascades := false
    mRenderState := BACKBUFFERRT
    staticColor := none
    staticColorAUp := none
    staticColorALower := none }

/-! ## DeferredShaderDemo.cpp: debug views and GUI -/

/-- `DeferredShaderApp::VisualizeGBuffer`. -/
def DeferredShaderApp.VisualizeGBuffer (s : State W) : State W :=
  let s := s.enter (.host .VisualizeGBuffer)
  let s := s.ctxCall (.PSSetShaderResources 0
    [some .GetDepthView, some .GetColorView, some .GetNormalView, some .GetSpecPowerView])
  let s := s.ctxCall (.PSSetSamplers 1 [s.app.mSampPoint])
  let s := s.ctxCall (.IASetInputLayout none)
  let s := s.ctxCall .IASetVertexBuffers
  let s := s.ctxCall .IASetPrimitiveTopologyTriangleStrip
  let s := s.ctxCall (.VSSetShader s.app.mGBufferVisVertexShader)
  let s := s.ctxCall (.GSSetShader none)
  let s := s.ctxCall (.PSSetShader s.app.mGBufferVisPixelShader)
  let s := s.ctxCall (.Draw 16 0)
  let s := s.ctxCall (.VSSetShader none)
  let s := s.ctxCall (.PSSetShader none)
  s.ctxCall (.PSSetShaderResources 0 [none, none, none, none])

/-- `DeferredShaderApp::VisualizeFullScreenGBufferTexture`. -/
def DeferredShaderApp.VisualizeFullScreenGBufferTexture (s : State W) : State W :=
  let s := s.enter (.host .VisualizeFullScreenGBufferTexture)
  let s := s.ctxCall (.PSSetShaderResources 0
    [some .GetDepthView, some .GetColorView, some .GetNormalView, some .GetSpecPowerView])
  let s := s.ctxCall (.PSSetSamplers 1 [s.app.mSampPoint])
  let s := s.ctxCall (.IASetInputLayout none)
  let s := s.ctxCall .IASetVertexBuffers
  let s := s.ctxCall .IASetPrimitiveTopologyTriangleStrip
  let s := s.ctxCall (.VSSetShader s.app.mTextureVisVS)
  let s := s.ctxCall (.GSSetShader none)
  let s :=
    if s.app.mRenderState = DEPTHRT then s.ctxCall (.PSSetShader s.app.mTextureVisDepthPS)
    else if s.app.mRenderState = COLSPECRT then s.ctxCall (.PSSetShader s.app.mTextureVisCSpecPS)
    else if s.app.mRenderState = NORMALRT then s.ctxCall (.PSSetShader s.app.mTextureVisNormalPS)
    else if s.app.mRenderState = SPECPOWRT then
      s.ctxCall (.PSSetShader s.app.mTextureVisSpecPowPS)
    else s
  let s := s.ctxCall (.Draw 4 0)
  let s := s.ctxCall (.VSSetShader none)
  let s := s.ctxCall (.PSSetShader none)
  s.ctxCall (.PSSetShaderResources 0 [none, none, none, none])

/-- What the user does to the GUI during one frame: which collapsing headers are open, which
check boxes are clicked, and the new value of each edited slider or colour. -/
structure GuiInput where
  lightsOpen : Bool
  directionalOpen : Bool
  pointOpen : Bool
  ambientOpen : Bool
  cameraOpen : Bool
  dirLightColor : Option XMFLOAT3
  dirShadowsClicked : Bool
  visualizeCascadesClicked : Bool
  antiflickerClicked : Bool
  pointRange : Option ℚ
  pointShadowsClicked : Bool
  ambientUpperColor : Option XMFLOAT3
  ambientLowerColor : Option XMFLOAT3
  cameraPosition : Option XMFLOAT3
  frameStatsClicked : Bool
  visualizeBuffersClicked : Bool
  visualizeShadowMapClicked : Bool
  visualizeLightVolumeClicked : Bool

/-- `ImGui::Checkbox`: a click flips the flag. -/
def checkbox (clicked : Bool) (v : Bool) : Bool := if clicked then !v else v

/-- The "Directional" section of the settings window. -/
def DeferredShaderApp.guiDirectional (gui : GuiInput) (a : DeferredShaderApp) :
    DeferredShaderApp :=
  let color := a.staticColor.getD (XMStoreFloat3 a.mDirLightColor)
  let color := gui.dirLightColor.getD color
  { a with
    staticColor := some color
    mDirLightColor := XMLoadFloat3 color
    mDirCastShadows := checkbox gui.dirShadowsClicked a.mDirCastShadows
    mVisualizeCascades := checkbox gui.visualizeCascadesClicked a.mVisualizeCascades
    mAntiFlickerOn := checkbox gui.antiflickerClicked a.mAntiFlickerOn }

/-- The "Point" section of the settings window. -/
def DeferredShaderApp.guiPoint (gui : GuiInput) (a : DeferredShaderApp) : DeferredShaderApp :=
  { a with
    mLightRange := gui.pointRange.getD a.mLightRange
    mPointCastShadows := checkbox gui.pointShadowsClicked a.mPointCastShadows }

/-- The "Ambient Colors" section of the settings window. -/
def DeferredShaderApp.guiAmbient (gui : GuiInput) (a : DeferredShaderApp) : DeferredShaderApp :=
  let colorAUp := a.staticColorAUp.getD (XMStoreFloat3 a.mAmbientUpperColor)
  let colorAUp := gui.ambientUpperColor.getD colorAUp
  let colorALower := a.staticColorALower.getD (XMStoreFloat3 a.mAmbientLowerColor)
  let colorALower := gui.ambientLowerColor.getD colorALower
  { a with
    staticColorAUp := some colorAUp
    mAmbientUpperColor := XMLoadFloat3 colorAUp
    staticColorALower := some colorALower
    mAmbientLowerColor := XMLoadFloat3 colorALower }

/-- The four check boxes at the bottom of the settings window. -/
def DeferredShaderApp.guiFlags (gui : GuiInput) (a : DeferredShaderApp) : DeferredShaderApp :=
  { a with
    mShowRenderStats := checkbox gui.frameStatsClicked a.mShowRenderStats
    mVisualizeGBuffer := checkbox gui.visualizeBuffersClicked a.mVisualizeGBuffer
    mShowShadowMap := checkbox gui.visualizeShadowMapClicked a.mShowShadowMap
    mVisualizeLightVolume := checkbox gui.visualizeLightVolumeClicked a.mVisualizeLightVolume }

/-- The "Camera" section of the settings window. -/
def DeferredShaderApp.guiCamera (E : Env W) (gui : GuiInput) (s : State W) :
    Except Fault (State W) := do
  let _ ← deref s.app.mCamera
  let s := s.extCall E (.camera .GetPosition)
  let x := (E.GetPosition s.world).x
  let s := s.extCall E (.camera .GetPosition)
  let y := (E.GetPosition s.world).y
  let s := s.extCall E (.camera .GetPosition)
  let z := (E.GetPosition s.world).z
  let campos := gui.cameraPosition.getD ⟨x, y, z⟩
  pure (s.extCall E (.camera (.SetPosition campos)))

/-- The "Lights" section of the settings window, with its two sub-sections. -/
def DeferredShaderApp.guiLights (gui : GuiInput) (a : DeferredShaderApp) : DeferredShaderApp :=
  if gui.lightsOpen then
    let a := if gui.directionalOpen then DeferredShaderApp.guiDirectional gui a else a
    if gui.pointOpen then DeferredShaderApp.guiPoint gui a else a
  else a

/-- The settings window of `RenderGUI`. -/
def DeferredShaderApp.guiSettings (E : Env W) (gui : GuiInput) (s : State W) :
    Except Fault (State W) :=
  let s := s.extCall E (.host .ImGuiSettingsWindow)
  let s := s.setApp (DeferredShaderApp.guiLights gui)
  let s := s.setApp (fun a => if gui.ambientOpen then DeferredShaderApp.guiAmbient gui a else a)
  match (if gui.cameraOpen then DeferredShaderApp.guiCamera E gui s else .ok s) with
  | .ok s => .ok (s.setApp (DeferredShaderApp.guiFlags gui))
  | .error e => .error e

/-- `DeferredShaderApp::RenderGUI`. -/
def DeferredShaderApp.RenderGUI (E : Env W) (gui : GuiInput) (s : State W) :
    Except Fault (State W) :=
  let s := s.enter (.host .RenderGUI)
  let s := s.extCall E (.host .ImGuiNewFrame)
  let s := if s.app.mShowRenderStats then s.extCall E (.host .ImGuiFramerateWindow) else s
  match (if s.app.mShowSettings then DeferredShaderApp.guiSettings E gui s else .ok s) with
  | .ok s =>
      let s := s.extCall E (.host .ImGuiRender)
      .ok (s.extCall E (.host .ImGuiRenderDrawData))
  | .error e => .error e

/-! ## DeferredShaderDemo.cpp: the frame -/

/-- The `while` loop of `Render` that generates the shadow maps. -/
def DeferredShaderApp.shadowLoop (E : Env W) : Nat → State W → Except Fault (State W)
  | 0, _ => .error .outOfFuel
  | fuel + 1, s =>
      let r := E.PrepareNextShadowLight s.world s.ctx
      let s := s.extCall E (.light (.PrepareNextShadowLight r))
      if r then
        match SceneManager.RenderSceneNoShaders E s with
        | .ok s => DeferredShaderApp.shadowLoop E fuel s
        | .error e => .error e
      else .ok s

/-- The "store the current states" lines of `Render`: read the viewport and the rasterizer
state. -/
def DeferredShaderApp.storeStates (s : State W) : State W :=
  let s := s.ctxCall (.RSGetViewports s.ctx.viewport)
  s.ctxCall (.RSGetState s.ctx.rsState)

/-- The "restore the states" and "cleanup" lines of `Render`, with the stored values. -/
def DeferredShaderApp.restoreStates (oldvp : D3D11_VIEWPORT) (pPrevRSState : Option Handle)
    (s : State W) : State W :=
  let s := s.ctxCall (.RSSetViewports oldvp)
  let s := s.ctxCall (.RSSetState pPrevRSState)
  let s := s.enter (.host (.Release pPrevRSState))
  let s := s.ctxCall (.VSSetShader none)
  s.ctxCall (.GSSetShader none)

/-- First part of `Render`: store the states, generate the shadow maps, restore the states,
unbind the vertex and geometry shaders. -/
def DeferredShaderApp.generateShadowMaps (E : Env W) (fuel : Nat) (s : State W) :
    Except Fault (State W) :=
  let oldvp := s.ctx.viewport
  let pPrevRSState := s.ctx.rsState
  match DeferredShaderApp.shadowLoop E fuel (DeferredShaderApp.storeStates s) with
  | .ok s1 => .ok (DeferredShaderApp.restoreStates oldvp pPrevRSState s1)
  | .error e => .error e

/-- The debug views of `Render`, from the light volumes to the shadow map. -/
def DeferredShaderApp.debugViews (E : Env W) (s : State W) : State W :=
  let s := if s.app.mVisualizeLightVolume then s.extCall E (.light .DoDebugLightVolume) else s
  let s := if s.app.mVisualizeGBuffer then
      let s := s.ctxCall (.OMSetRenderTargets s.app.mRenderTargetView none)
      let s := DeferredShaderApp.VisualizeGBuffer s
      s.ctxCall (.OMSetRenderTargets s.app.mRenderTargetView (some .GetDepthDSV))
    else s
  let s := if s.app.mRenderState ≠ BACKBUFFERRT then
      let s := s.ctxCall (.OMSetRenderTargets s.app.mRenderTargetView none)
      let s := DeferredShaderApp.VisualizeFullScreenGBufferTexture s
      s.ctxCall (.OMSetRenderTargets s.app.mRenderTargetView (some .GetDepthDSV))
    else s
  let s := if s.app.mVisualizeCascades && s.app.mDirCastShadows then
      s.extCall E (.light .DoDebugCascadedShadows)
    else s
  if s.app.mShowShadowMap then s.extCall E (.light .VisualizeShadowMap) else s

/-- Second part of `Render`: clear, pack the GBuffer, unpack and light, debug views, GUI,
present. -/
def DeferredShaderApp.renderFrame (E : Env W) (gui : GuiInput) (s : State W) :
    Except Fault (State W) := do
  let s := s.ctxCall (.ClearRenderTargetView s.app.mRenderTargetView)
  let s := s.ctxCall (.ClearDepthStencilView s.app.mDepthStencilView)
  let _ ← deref s.app.mCamera
  let s := s.extCall E (.camera .ViewProj)
  let pPrevDepthState := s.ctx.depthStencilState
  let nPrevStencil := s.ctx.stencilRef
  let s := s.ctxCall (.OMGetDepthStencilState pPrevDepthState nPrevStencil)
  let s := s.ctxCall (.PSSetSamplers 0 [s.app.mSampLinear, s.app.mSampPoint])
  let s := s.extCall E (.gbuffer .PreRender)
  let s ← SceneManager.Render E s
  let s := s.extCall E (.gbuffer .PostRender)
  let s := s.ctxCall (.OMSetRenderTargets s.app.mRenderTargetView (some .GetDepthReadOnlyDSV))
  let s := s.extCall E (.gbuffer .PrepareForUnpack)
  let s := s.extCall E (.light .DoLighting)
  let s := DeferredShaderApp.debugViews E s
  let s := s.ctxCall (.OMSetDepthStencilState pPrevDepthState nPrevStencil)
  let s := s.enter (.host (.Release pPrevDepthState))
  let s ← DeferredShaderApp.RenderGUI E gui s
  let s := s.ctxCall (.RSSetViewports s.app.mScreenViewport)
  pure (s.extCall E (.host .Present))

/-- `DeferredShaderApp::Render`. -/
def DeferredShaderApp.Render (E : Env W) (gui : GuiInput) (fuel : Nat) (s : State W) :
    Except Fault (State W) := do
  let s ← DeferredShaderApp.generateShadowMaps E fuel s
  DeferredShaderApp.renderFrame E gui s

/-! ## DeferredShaderDemo.cpp: events -/

/-- Low bit of `GetAsyncKeyState` for each key that `Update` polls. -/
structure KeyInput where
  F2 : Bool
  F3 : Bool
  F4 : Bool
  F11 : Bool
  DOWN : Bool
  UP : Bool
  key1 : Bool
  key2 : Bool
  key3 : Bool
  key4 : Bool
  key5 : Bool

/-- `DeferredShaderApp::Update`.  The two calls that would add the point light and the spot
light are comments in the source and so are absent here. -/
def DeferredShaderApp.Update (E : Env W) (keys : KeyInput) (dt : ℚ) (s : State W) :
    Except Fault (State W) := do
  let s := s.extCall E (.light (.SetAmbient s.app.mAmbientLowerColor s.app.mAmbientUpperColor))
  let s := s.extCall E (.light (.SetDirectional s.app.mDirLightDir s.app.mDirLightColor
    s.app.mDirCastShadows s.app.mAntiFlickerOn))
  let _ ← deref s.app.mCamera
  let s := s.extCall E (.camera .UpdateViewMatrix)
  let s := if keys.F2 then s.setApp (fun a => { a with mVisualizeGBuffer := !a.mVisualizeGBuffer })
    else s
  let s := if keys.F3 then s.setApp (fun a => { a with mShowShadowMap := !a.mShowShadowMap })
    else s
  let s := if keys.F4 then s.extCall E (.host .SnapScreenshot) else s
  let s := if keys.F11 then s.setApp (fun a => { a with mShowSettings := !a.mShowSettings })
    else s
  let s := if keys.DOWN then s.extCall E (.camera (.Walk (-dt * 50.0))) else s
  let s := if keys.UP then s.extCall E (.camera (.Walk (dt * 50.0))) else s
  let s := if keys.key1 then s.setApp (fun a => { a with mRenderState := BACKBUFFERRT }) else s
  let s := if keys.key2 then s.setApp (fun a => { a with mRenderState := DEPTHRT }) else s
  let s := if keys.key3 then s.setApp (fun a => { a with mRenderState := COLSPECRT }) else s
  let s := if keys.key4 then s.setApp (fun a => { a with mRenderState := NORMALRT }) else s
  let s := if keys.key5 then s.setApp (fun a => { a with mRenderState := SPECPOWRT }) else s
  pure (s.extCall E (.light .ClearLights))

/-- `DeferredShaderApp::OnResize`.  The value `GBuffer::Init` returns is dropped. -/
def DeferredShaderApp.OnResize (E : Env W) (s : State W) : Except Fault (State W) := do
  let s := s.extCall E (.host .BaseOnResize)
  let ret := E.GBufferInit s.app.mClientWidth s.app.mClientHeight s.world
  let s := s.extCall E (.gbuffer (.Init s.app.mClientWidth s.app.mClientHeight ret))
  let _ ← deref s.app.mCamera
  let s := s.extCall E (.camera (.SetLens
    ⟨0.25, E.AspectRatio s.app.mClientWidth s.app.mClientHeight, 1.0, 1000.0⟩))
  pure (s.extCall E (.camera .UpdateViewMatrix))

/-- `DeferredShaderApp::OnMouseDown`. -/
def DeferredShaderApp.OnMouseDown (x y : Int) (s : State W) : State W :=
  s.setApp (fun a => { a with mLastMousePos := (x, y) })

/-- The right-button bit of the button state. -/
def MK_RBUTTON : Nat := 0x0002

/-- The middle-button bit of the button state. -/
def MK_MBUTTON : Nat := 0x0010

/-- `DeferredShaderApp::OnMouseMove`. -/
def DeferredShaderApp.OnMouseMove (E : Env W) (btnState : Nat) (x y : Int) (s : State W) :
    Except Fault (State W) := do
  let s ←
    if btnState &&& MK_RBUTTON ≠ 0 then do
      let dx : ℚ := 0.25 * ((x - s.app.mLastMousePos.1 : Int) : ℚ)
      let dy : ℚ := 0.25 * ((y - s.app.mLastMousePos.2 : Int) : ℚ)
      let _ ← deref s.app.mCamera
      let s := s.extCall E (.camera (.Pitch dy))
      pure (s.extCall E (.camera (.RotateY dx)))
    else if btnState &&& MK_MBUTTON ≠ 0 ∧
        (x ≠ s.app.mLastMousePos.1 ∧ y ≠ s.app.mLastMousePos.2) then do
      let fDX : ℚ := ((x - s.app.mLastMousePos.1 : Int) : ℚ) * 0.02
      let fDY : ℚ := ((y - s.app.mLastMousePos.2 : Int) : ℚ) * 0.02
      let _ ← deref s.app.mCamera
      let s := s.extCall E (.camera .View)
      let right := XMLoadFloat3 (E.viewInvRight s.world)
      let up := XMLoadFloat3 (E.viewInvUp s.world)
      let forward := XMLoadFloat3 (E.viewInvForward s.world)
      let d := s.app.mDirLightDir
      let d := d.sub (right.scale fDX)
      let d := d.sub (up.scale fDY)
      let d := d.add (forward.scale fDY)
      pure (s.setApp (fun a => { a with mDirLightDir := E.XMVector3Normalize d }))
    else pure s
  pure (s.setApp (fun a => { a with mLastMousePos := (x, y) }))

/-- Modelled from the spec: the window procedure belongs to the base class, which is not part
of the two files.  A resize stores the new client size and calls `OnResize` at once; frames are
an `Update` followed, or not, by a `Render`. -/
inductive Event where
  | Resize (width height : Int)
  | Update (keys : KeyInput) (dt : ℚ)
  | Render (gui : GuiInput)

/-- Dispatch one event. -/
def step (E : Env W) (fuel : Nat) : Event → State W → Except Fault (State W)
  | .Resize w h, s =>
      DeferredShaderApp.OnResize E
        (s.setApp (fun a => { a with mClientWidth := w, mClientHeight := h }))
  | .Update keys dt, s => DeferredShaderApp.Update E keys dt s
  | .Render gui, s => DeferredShaderApp.Render E gui fuel s

/-- Dispatch a sequence of events, stopping at the first fault. -/
def run (E : Env W) (fuel : Nat) : List Event → State W → Except Fault (State W)
  | [], s => .ok s
  | e :: es, s =>
      match step E fuel e s with
      | .ok s => run E fuel es s
      | .error f => .error f

/-! ## Start-up -/

/-- One compile-and-create block of `DeferredShaderApp::Init`: compile entry point `entry`,
return `false` after a message box when `!CompileShader(..)`, create the shader object from the
blob, release the blob, return `false` when the creation `FAILED`, else go on with `k`. -/
def DeferredShaderApp.shaderBlock (E : Env W) (entry : String) (vertex : Bool)
    (store : Option Handle → DeferredShaderApp → DeferredShaderApp)
    (k : State W → Except Fault (Bool × State W)) (s : State W) :
    Except Fault (Bool × State W) :=
  let target := if vertex then "vs_5_0" else "ps_5_0"
  let r := E.CompileShader entry
  let s := s.extCall E (.device (.CompileShader entry target r.1))
  if r.1 = 0 then .ok (false, s.extCall E (.device .MessageBox))
  else
    match r.2 with
    | none => .error .nullDeref
    | some blob =>
        let c := if vertex then E.CreateVertexShader blob else E.CreatePixelShader blob
        let s := s.extCall E (.device
          (if vertex then .CreateVertexShader blob c.1 else .CreatePixelShader blob c.1))
        let s := s.setApp (store c.2)
        let s := s.enter (.host (.Release (some blob)))
        if FAILED c.1 then .ok (false, s) else k s

/-- `SceneManager::Init`.  Both `CompileShader` results go through `FAILED`. -/
def SceneManager.Init (E : Env W) (camera : Option Handle) (s : State W) :
    Except Fault (Bool × State W) :=
  let s := s.enter (.scene .Init)
  let s := s.setScene (fun m => { m with mMeshes := [] })
  let l1 := E.LoadToMesh "..\\Assets\\bunny.obj"
  let s := s.extCall E (.device (.LoadToMesh "..\\Assets\\bunny.obj" l1))
  if !l1 then .ok (false, s) else
  let mesh := E.NewMesh s.world
  let s := s.extCall E (.device (.NewMesh mesh))
  let s := s.extCall E (.device (.MeshCreate mesh))
  let s := s.setScene (fun m => { m with mMeshes := m.mMeshes ++ [some mesh] })
  let l2 := E.LoadToMesh "..\\Assets\\cube\\cube.obj"
  let s := s.extCall E (.device (.LoadToMesh "..\\Assets\\cube\\cube.obj" l2))
  if !l2 then .ok (false, s) else
  let mesh := E.NewMesh s.world
  let s := s.extCall E (.device (.NewMesh mesh))
  let s := s.extCall E (.device (.MeshCreate mesh))
  let s := s.setScene (fun m => { m with mMeshes := m.mMeshes ++ [some mesh] })
  let b1 := E.CreateBuffer 128
  let s := s.extCall E (.device (.CreateBuffer 128 b1.1))
  let s := s.setScene (fun m => { m with mSceneVertexShaderCB := b1.2 })
  if FAILED b1.1 then .ok (false, s) else
  let b2 := E.CreateBuffer 32
  let s := s.extCall E (.device (.CreateBuffer 32 b2.1))
  let s := s.setScene (fun m => { m with mScenePixelShaderCB := b2.2 })
  if FAILED b2.1 then .ok (false, s) else
  let v := E.CompileShader "RenderSceneVS"
  let s := s.extCall E (.device (.CompileShader "RenderSceneVS" "vs_5_0" v.1))
  if FAILED v.1 then .ok (false, s) else
  match v.2 with
  | none => .error .nullDeref
  | some blob =>
  let cv := E.CreateVertexShader blob
  let s := s.extCall E (.device (.CreateVertexShader blob cv.1))
  let s := s.setScene (fun m => { m with mSceneVertexShader := cv.2 })
  if FAILED cv.1 then .ok (false, s) else
  let cl := E.CreateInputLayout blob
  let s := s.extCall E (.device (.CreateInputLayout blob cl.1))
  let s := s.setScene (fun m => { m with mSceneVSLayout := cl.2 })
  let s := s.enter (.host (.Release (some blob)))
  if FAILED cl.1 then .ok (false, s) else
  let p := E.CompileShader "RenderScenePS"
  let s := s.extCall E (.device (.CompileShader "RenderScenePS" "ps_5_0" p.1))
  if FAILED p.1 then .ok (false, s) else
  match p.2 with
  | none => .error .nullDeref
  | some blob =>
  let cp := E.CreatePixelShader blob
  let s := s.extCall E (.device (.CreatePixelShader blob cp.1))
  let s := s.setScene (fun m => { m with mScenePixelShader := cp.2 })
  let s := s.enter (.host (.Release (some blob)))
  if FAILED cp.1 then .ok (false, s) else
  let s := s.setScene (fun m => { m with mCamera := camera })
  .ok (true, s)

/-- Tail of `DeferredShaderApp::Init` after the seven shader blocks: samplers, camera, scene
manager, light manager.  The macro `V_RETURN` is defined outside the two files: `E.V_RETURN hr`
is `some b` when the macro returns `b` from `Init` and `none` when control falls through. -/
def DeferredShaderApp.initTail (E : Env W) (s : State W) : Except Fault (Bool × State W) :=
  let l := E.CreateSamplerStateLinear
  let s := s.extCall E (.device (.CreateSamplerStateLinear l.1))
  let s := s.setApp (fun a => { a with mSampLinear := l.2 })
  if FAILED l.1 then .ok (false, s) else
  let q := E.CreateSamplerStatePoint
  let s := s.extCall E (.device (.CreateSamplerStatePoint q.1))
  let s := s.setApp (fun a => { a with mSampPoint := q.2 })
  if FAILED q.1 then .ok (false, s) else
  match s.app.mCamera with
  | none => .error .nullDeref
  | some _ =>
  let s := s.extCall E (.camera (.LookAt ⟨12.0, 6.0, -15.0⟩ ⟨-0.6, -0.2, 0.8⟩ ⟨0.0, 1.0, 0.0⟩))
  let s := s.extCall E (.camera (.SetLens
    ⟨0.25, E.AspectRatio s.app.mClientWidth s.app.mClientHeight, 1.0, 1000.0⟩))
  let s := s.extCall E (.camera .UpdateViewMatrix)
  match SceneManager.Init E s.app.mCamera s with
  | .error e => .error e
  | .ok (false, s) => .ok (false, s)
  | .ok (true, s) =>
  let hr := E.LightManagerInit s.world
  let s := s.extCall E (.light (.Init hr))
  match E.V_RETURN hr with
  | some b => .ok (b, s)
  | none => .ok (true, s)

/-- `DeferredShaderApp::Init`. -/
def DeferredShaderApp.Init (E : Env W) (s : State W) : Except Fault (Bool × State W) :=
  let cam := E.NewCamera s.world
  let s := s.extCall E (.device .NewCamera)
  let s := s.setApp (fun a => { a with mCamera := some cam })
  let s := s.setApp (fun a => { a with mClientWidth := 1024, mClientHeight := 768 })
  let b := E.BaseInit s.world
  let s := s.extCall E (.device (.BaseInit b))
  if !b then .ok (false, s) else
  DeferredShaderApp.shaderBlock E "GBufferVisVS" true
    (fun h a => { a with mGBufferVisVertexShader := h })
  (DeferredShaderApp.shaderBlock E "TextureVisVS" true
    (fun h a => { a with mTextureVisVS := h })
  (DeferredShaderApp.shaderBlock E "GBufferVisPS" false
    (fun h a => { a with mGBufferVisPixelShader := h })
  (DeferredShaderApp.shaderBlock E "TextureVisDepthPS" false
    (fun h a => { a with mTextureVisDepthPS := h })
  (DeferredShaderApp.shaderBlock E "TextureVisCSpecPS" false
    (fun h a => { a with mTextureVisCSpecPS := h })
  (DeferredShaderApp.shaderBlock E "TextureVisNormalPS" false
    (fun h a => { a with mTextureVisNormalPS := h })
  (DeferredShaderApp.shaderBlock E "TextureVisSpecPowPS" false
    (fun h a => { a with mTextureVisSpecPowPS := h })
  (DeferredShaderApp.initTail E))))))) s

/-- `WinMain`: construct the host, return when `Init` fails, else enter `Run`. -/
def WinMain (E : Env W) (base : D3DRendererApp) (lastMouse : Int × Int) (ctx : Ctx) (w : W) :
    Except Fault (State W) :=
  let s : State W :=
    { app := DeferredShaderApp.new E base lastMouse, scene := SceneManager.new, ctx := ctx,
      world := w, trace := [] }
  match DeferredShaderApp.Init E s with
  | .error e => .error e
  | .ok (false, s) => .ok s
  | .ok (true, s) => .ok (s.extCall E (.host .Run))

/-! ## Tear-down -/

/-- Body of the `for` loop of `SceneManager::Release` for `k` more rounds from index `i`. -/
def SceneManager.releaseMeshes (E : Env W) : Nat → Nat → State W → State W
  | 0, _, s => s
  | k + 1, i, s =>
      let s :=
        match s.scene.mMeshes.getD i none with
        | some m =>
            let s := s.extCall E (.scene (.MeshDestroy m))
            s.setScene (fun sc => { sc with mMeshes := sc.mMeshes.set i none })
        | none => s
      SceneManager.releaseMeshes E k (i + 1) s

/-- `SceneManager::Release`.  Each `SAFE_RELEASE` leaves its mark with the value of the pointer
it is applied to. -/
def SceneManager.Release (E : Env W) (s : State W) : State W :=
  let s := s.enter (.scene .Release)
  let s := if s.scene.mMeshes.length > 0 then
      SceneManager.releaseMeshes E s.scene.mMeshes.length 0 s
    else s
  let s := s.enter (.host (.Release s.scene.mSceneVertexShaderCB))
  let s := s.setScene (fun sc =>
    { sc with mSceneVertexShaderCB := E.SAFE_RELEASE sc.mSceneVertexShaderCB })
  let s := s.enter (.host (.Release s.scene.mScenePixelShaderCB))
  let s := s.setScene (fun sc =>
    { sc with mScenePixelShaderCB := E.SAFE_RELEASE sc.mScenePixelShaderCB })
  let s := s.enter (.host (.Release s.scene.mSceneVertexShader))
  let s := s.setScene (fun sc =>
    { sc with mSceneVertexShader := E.SAFE_RELEASE sc.mSceneVertexShader })
  let s := s.enter (.host (.Release s.scene.mSceneVSLayout))
  let s := s.setScene (fun sc => { sc with mSceneVSLayout := E.SAFE_RELEASE sc.mSceneVSLayout })
  let s := s.enter (.host (.Release s.scene.mScenePixelShader))
  s.setScene (fun sc => { sc with mScenePixelShader := E.SAFE_RELEASE sc.mScenePixelShader })

/-- `SceneManager::~SceneManager`. -/
def SceneManager.destructor (E : Env W) (s : State W) : State W :=
  SceneManager.Release E s

/-- The `SAFE_RELEASE` and `SAFE_DELETE` lines of `DeferredShaderApp::~DeferredShaderApp`. -/
def DeferredShaderApp.releaseMembers (E : Env W) (s : State W) : State W :=
  let s := s.enter (.host (.Release s.app.mSampLinear))
  let s := s.setApp (fun a => { a with mSampLinear := E.SAFE_RELEASE a.mSampLinear })
  let s := s.enter (.host (.Release s.app.mSampPoint))
  let s := s.setApp (fun a => { a with mSampPoint := E.SAFE_RELEASE a.mSampPoint })
  let s := s.enter (.host (.Release s.app.mGBufferVisVertexShader))
  let s := s.setApp (fun a =>
    { a with mGBufferVisVertexShader := E.SAFE_RELEASE a.mGBufferVisVertexShader })
  let s := s.enter (.host (.Release s.app.mGBufferVisPixelShader))
  let s := s.setApp (fun a =>
    { a with mGBufferVisPixelShader := E.SAFE_RELEASE a.mGBufferVisPixelShader })
  let s := s.enter (.host (.Release s.app.mTextureVisVS))
  let s := s.setApp (fun a => { a with mTextureVisVS := E.SAFE_RELEASE a.mTextureVisVS })
  let s := s.enter (.host (.Delete s.app.mCamera))
  let s := s.setApp (fun a => { a with mCamera := E.SAFE_DELETE a.mCamera })
  let s := s.enter (.host (.Release s.app.mTextureVisDepthPS))
  let s := s.setApp (fun a =>
    { a with mTextureVisDepthPS := E.SAFE_RELEASE a.mTextureVisDepthPS })
  let s := s.enter (.host (.Release s.app.mTextureVisCSpecPS))
  let s := s.setApp (fun a =>
    { a with mTextureVisCSpecPS := E.SAFE_RELEASE a.mTextureVisCSpecPS })
  let s := s.enter (.host (.Release s.app.mTextureVisNormalPS))
  let s := s.setApp (fun a =>
    { a with mTextureVisNormalPS := E.SAFE_RELEASE a.mTextureVisNormalPS })
  let s := s.enter (.host (.Release s.app.mTextureVisSpecPowPS))
  s.setApp (fun a => { a with mTextureVisSpecPowPS := E.SAFE_RELEASE a.mTextureVisSpecPowPS })

/-- `DeferredShaderApp::~DeferredShaderApp`: the body, and after it the destructors of the
members `mGBuffer`, `mLightManager` and `mSceneManager`, in reverse order of declaration, and
of the base class. -/
def DeferredShaderApp.destructor (E : Env W) (s : State W) : State W :=
  let s := DeferredShaderApp.releaseMembers E s
  let s := SceneManager.Release E s
  let s := s.extCall E (.light .Release)
  let s := s.extCall E (.gbuffer .Release)
  let s := s.extCall E (.gbuffer .Destructor)
  let s := s.extCall E (.light .Destructor)
  let s := SceneManager.destructor E s
  s.extCall E (.host .BaseDestructor)

/-! ## Vocabulary of the claims -/

/-- The pointers a frame dereferences are set: the camera of the host, the camera of the scene
manager, and every mesh. -/
def Initialised (s : State W) : Prop :=
  s.app.mCamera ≠ none ∧ s.scene.mCamera ≠ none ∧ ∀ m ∈ s.scene.mMeshes, m ≠ none

/-- Started in state `s`, `PrepareNextShadowLight` answers `true` exactly `n` times, each
answer followed by the depth-only draw of the scene, and then answers `false`. -/
def SchedulerRuns (E : Env W) : Nat → State W → Prop
  | 0, s => E.PrepareNextShadowLight s.world s.ctx = false
  | n + 1, s =>
      E.PrepareNextShadowLight s.world s.ctx = true ∧
      ∃ s', SceneManager.RenderSceneNoShaders E
              (s.extCall E (.light (.PrepareNextShadowLight true))) = .ok s' ∧
            SchedulerRuns E n s'

/-- The `Mesh::Render` calls of one pass over the meshes. -/
def meshCalls (meshes : List (Option Handle)) : List Call :=
  meshes.filterMap (fun m => m.map (fun h => Call.scene (.MeshRender h)))

/-- Calls of one round of the shadow loop: a `true` answer, then the depth-only draw. -/
def depthPassCalls (meshes : List (Option Handle)) : List Call :=
  Call.light (.PrepareNextShadowLight true) :: Call.scene .RenderSceneNoShaders ::
    meshCalls meshes

/-- Calls of the whole shadow loop with `n` rounds: the rounds, then the `false` answer. -/
def shadowCalls (meshes : List (Option Handle)) (n : Nat) : List Call :=
  (List.replicate n (depthPassCalls meshes)).flatten ++ [Call.light (.PrepareNextShadowLight false)]

/-- Is the call a depth-only draw of the scene? -/
def isRenderSceneNoShaders : Call → Bool
  | .scene .RenderSceneNoShaders => true
  | _ => false

/-- Is the call an answer of the shadow scheduler? -/
def isPrepareNextShadowLight : Call → Bool
  | .light (.PrepareNextShadowLight _) => true
  | _ => false

/-- The phases of a frame, in the order the render loop contract lists them; pack and
unpack are split into their calls. -/
inductive Phase where
  | shadow
  | preRender
  | sceneRender
  | postRender
  | prepareForUnpack
  | doLighting
  | debug
  | present
deriving DecidableEq

/-- The phase a call belongs to; calls that belong to no phase give `none`. -/
def phase : Call → Option Phase
  | .light (.PrepareNextShadowLight _) => some .shadow
  | .scene .RenderSceneNoShaders => some .shadow
  | .gbuffer .PreRender => some .preRender
  | .scene .Render => some .sceneRender
  | .gbuffer .PostRender => some .postRender
  | .gbuffer .PrepareForUnpack => some .prepareForUnpack
  | .light .DoLighting => some .doLighting
  | .light .DoDebugLightVolume => some .debug
  | .host .VisualizeGBuffer => some .debug
  | .host .VisualizeFullScreenGBufferTexture => some .debug
  | .light .DoDebugCascadedShadows => some .debug
  | .light .VisualizeShadowMap => some .debug
  | .host .Present => some .present
  | _ => none

/-- The phases of the calls of a trace, in order. -/
def phases (t : List Call) : List Phase := t.filterMap phase

/-- Position of a phase in the frame. -/
def Phase.rank : Phase → Nat
  | .shadow => 0
  | .preRender => 1
  | .sceneRender => 2
  | .postRender => 3
  | .prepareForUnpack => 4
  | .doLighting => 5
  | .debug => 6
  | .present => 7

/-- The size a call passes to `GBuffer::Init`, when it is such a call. -/
def initSize : Call → Option (Int × Int)
  | .gbuffer (.Init w h _) => some (w, h)
  | _ => none

/-- The lens a call passes to `Camera::SetLens`, when it is such a call. -/
def lensOf : Call → Option Lens
  | .camera (.SetLens l) => some l
  | _ => none

/-- Does the call recreate a size-dependent object: the GBuffer or the camera projection? -/
def isResizeCall (c : Call) : Bool := (initSize c).isSome || (lensOf c).isSome

/-- The size last passed to `GBuffer::Init` in a trace. -/
def lastGBufferInit (t : List Call) : Option (Int × Int) := t.reverse.findSome? initSize

/-- The lens last passed to `Camera::SetLens` in a trace. -/
def lastSetLens (t : List Call) : Option Lens := t.reverse.findSome? lensOf

/-- No call of the list recreates a size-dependent object. -/
def noInit (t : List Call) : Bool := t.all (fun c => !isResizeCall c)

/-- The GBuffer and the camera projection were last created for the current client size. -/
def SizeSynced (E : Env W) (s : State W) : Prop :=
  lastGBufferInit s.trace = some (s.app.mClientWidth, s.app.mClientHeight) ∧
  lastSetLens s.trace =
    some ⟨0.25, E.AspectRatio s.app.mClientWidth s.app.mClientHeight, 1.0, 1000.0⟩

/-- From `s` to `s'` the trace grows by calls whose phases are `ph` and none of which is a
`GBuffer::Init`. -/
def Emits (s s' : State W) (ph : List Phase) : Prop :=
  ∃ calls, s'.trace = s.trace ++ calls ∧ phases calls = ph ∧ noInit calls = true

/-- From `s` to `s'` the scene manager, the camera pointer of the host and the client size are
unchanged. -/
def Keeps (s s' : State W) : Prop :=
  s'.scene = s.scene ∧ s'.app.mCamera = s.app.mCamera ∧
    s'.app.mClientWidth = s.app.mClientWidth ∧ s'.app.mClientHeight = s.app.mClientHeight

/-- From `s` to `s'` the trace grows by calls of which some number are debug views and the
others belong to no phase. -/
def EmitsDebug (s s' : State W) : Prop := ∃ d, Emits s s' (List.replicate d Phase.debug)

/-- An update of the host object that leaves the camera pointer and the client size alone. -/
def KeepsApp (f : DeferredShaderApp → DeferredShaderApp) : Prop :=
  ∀ a, (f a).mCamera = a.mCamera ∧ (f a).mClientWidth = a.mClientWidth ∧
    (f a).mClientHeight = a.mClientHeight

/-- The five calls that follow the shadow loop. -/
def restoreCalls (oldvp : D3D11_VIEWPORT) (pPrevRSState : Option Handle) : List Call :=
  [Call.ctx (.RSSetViewports oldvp), Call.ctx (.RSSetState pPrevRSState),
    Call.host (.Release pPrevRSState), Call.ctx (.VSSetShader none),
    Call.ctx (.GSSetShader none)]

/-- From `s` to `s'` the trace grows by calls that all satisfy `p`. -/
def EmitsAll (p : Call → Bool) (s s' : State W) : Prop :=
  ∃ calls, s'.trace = s.trace ++ calls ∧ calls.all p = true

/-- The calls `Update` can issue. -/
def isUpdateCall : Call → Bool
  | .light (.SetAmbient _ _) => true
  | .light (.SetDirectional _ _ _ _) => true
  | .light .ClearLights => true
  | .camera .UpdateViewMatrix => true
  | .camera (.Walk _) => true
  | .host .SnapScreenshot => true
  | _ => false

/-- Does the call add a point light or a spot light to the light manager? -/
def isAddLight : Call → Bool
  | .light (.AddPointLight _ _ _ _) => true
  | .light (.AddSpotLight _ _ _ _ _ _ _) => true
  | _ => false

/-- One compile-and-create block of `DeferredShaderApp::Init`: entry point, whether it is a
vertex shader, and the member that receives the shader object. -/
structure ShaderBlock where
  entry : String
  vertex : Bool
  store : Option Handle → DeferredShaderApp → DeferredShaderApp

/-- The seven blocks of `DeferredShaderApp::Init`, in source order. -/
def visShaders : List ShaderBlock :=
  [⟨"GBufferVisVS", true, fun h a => { a with mGBufferVisVertexShader := h }⟩,
   ⟨"TextureVisVS", true, fun h a => { a with mTextureVisVS := h }⟩,
   ⟨"GBufferVisPS", false, fun h a => { a with mGBufferVisPixelShader := h }⟩,
   ⟨"TextureVisDepthPS", false, fun h a => { a with mTextureVisDepthPS := h }⟩,
   ⟨"TextureVisCSpecPS", false, fun h a => { a with mTextureVisCSpecPS := h }⟩,
   ⟨"TextureVisNormalPS", false, fun h a => { a with mTextureVisNormalPS := h }⟩,
   ⟨"TextureVisSpecPowPS", false, fun h a => { a with mTextureVisSpecPowPS := h }⟩]

/-- A chain of blocks followed by `k`. -/
def initBlocks (E : Env W) (blocks : List ShaderBlock)
    (k : State W → Except Fault (Bool × State W)) : State W → Except Fault (Bool × State W) :=
  blocks.foldr (fun b k => DeferredShaderApp.shaderBlock E b.entry b.vertex b.store k) k

/-- The shader model a block compiles for. -/
def ShaderBlock.target (b : ShaderBlock) : String := if b.vertex then "vs_5_0" else "ps_5_0"

/-- The `HRESULT` of the creation call of a block, for blob `blob`. -/
def ShaderBlock.createResult (E : Env W) (b : ShaderBlock) (blob : Handle) : Int :=
  if b.vertex then (E.CreateVertexShader blob).1 else (E.CreatePixelShader blob).1

/-- The creation call of a block, for blob `blob`. -/
def ShaderBlock.createCall (E : Env W) (b : ShaderBlock) (blob : Handle) : Call :=
  if b.vertex then Call.device (.CreateVertexShader blob (E.CreateVertexShader blob).1)
  else Call.device (.CreatePixelShader blob (E.CreatePixelShader blob).1)

/-- The block succeeds: the compile result is non-zero, the blob exists, and the creation from
it does not fail. -/
def ShaderBlock.Succeeds (E : Env W) (b : ShaderBlock) : Prop :=
  (E.CompileShader b.entry).1 ≠ 0 ∧
    ∃ blob, (E.CompileShader b.entry).2 = some blob ∧ FAILED (b.createResult E blob) = false

/-- The calls of a block in which compile and creation are attempted: compile, create, release
of the blob. -/
def ShaderBlock.calls (E : Env W) (b : ShaderBlock) : List Call :=
  match (E.CompileShader b.entry).2 with
  | some blob =>
      [Call.device (.CompileShader b.entry b.target (E.CompileShader b.entry).1),
        b.createCall E blob, Call.host (.Release (some blob))]
  | none => []

/-- The block fails: the compile result is zero, or the blob exists and the creation from it
fails. -/
def ShaderBlock.Fails (E : Env W) (b : ShaderBlock) : Prop :=
  (E.CompileShader b.entry).1 = 0 ∨
    ∃ blob, (E.CompileShader b.entry).2 = some blob ∧ FAILED (b.createResult E blob) = true

/-- The calls of a failing block: compile and message box when the compile fails, else compile,
create and release. -/
def ShaderBlock.failCalls (E : Env W) (b : ShaderBlock) : List Call :=
  if (E.CompileShader b.entry).1 = 0 then
    [Call.device (.CompileShader b.entry b.target 0), Call.device .MessageBox]
  else b.calls E

/-- The calls of `Init` before its first block. -/
def initPrologue : List Call := [Call.device .NewCamera, Call.device (.BaseInit true)]

/-- Is the call one of the steps of `Init` that come after the seven blocks: sampler creation,
camera set-up, scene manager or light manager initialisation? -/
def isAfterShaders : Call → Bool
  | .device (.CreateSamplerStateLinear _) => true
  | .device (.CreateSamplerStatePoint _) => true
  | .device (.LoadToMesh _ _) => true
  | .device (.NewMesh _) => true
  | .device (.MeshCreate _) => true
  | .device (.CreateBuffer _ _) => true
  | .device (.CreateInputLayout _ _) => true
  | .camera _ => true
  | .scene _ => true
  | .light _ => true
  | _ => false

/-- The entry point a call compiles, when it is a `CompileShader` call. -/
def compiledEntry : Call → Option String
  | .device (.CompileShader e _ _) => some e
  | _ => none

/-- The light configuration the host holds is valid: the inner spot angle is at most the
outer one, and the spot range and the point-light range are positive. -/
def ValidLights (a : DeferredShaderApp) : Prop :=
  a.mSpotInnerAngle ≤ a.mSpotOuterAngle ∧ 0 < a.mSpotRange ∧ 0 < a.mLightRange

/-- Every slider of the frame yields a value inside the bounds it declares: the point range lies
in `[0.1, 100]` and each coordinate of the camera position in `[-50, 50]`. -/
def GuiInput.InBounds (g : GuiInput) : Prop :=
  (∀ v, g.pointRange = some v → 0.1 ≤ v ∧ v ≤ 100.0) ∧
  (∀ p, g.cameraPosition = some p →
    (-50.0 ≤ p.x ∧ p.x ≤ 50.0) ∧ (-50.0 ≤ p.y ∧ p.y ≤ 50.0) ∧ (-50.0 ≤ p.z ∧ p.z ≤ 50.0))

/-- The steps that can change the configuration the host holds. -/
inductive HostEvent where
  | Update (keys : KeyInput) (dt : ℚ)
  | MouseMove (btnState : Nat) (x y : Int)
  | Gui (gui : GuiInput)

/-- The sliders of the event, when it is a GUI frame, stay inside their bounds. -/
def HostEvent.InBounds : HostEvent → Prop
  | .Gui gui => gui.InBounds
  | _ => True

/-- Run one configuration step. -/
def hostStep (E : Env W) : HostEvent → State W → Except Fault (State W)
  | .Update keys dt, s => DeferredShaderApp.Update E keys dt s
  | .MouseMove btnState x y, s => DeferredShaderApp.OnMouseMove E btnState x y s
  | .Gui gui, s => DeferredShaderApp.RenderGUI E gui s

/-- Run a sequence of configuration steps, stopping at the first fault. -/
def hostRun (E : Env W) : List HostEvent → State W → Except Fault (State W)
  | [], s => .ok s
  | e :: es, s =>
      match hostStep E e s with
      | .ok s => hostRun E es s
      | .error f => .error f

/-- From `s` to `t` the spot angles, the spot range and the point-light range are unchanged. -/
def SameLights (s t : State W) : Prop :=
  t.app.mSpotInnerAngle = s.app.mSpotInnerAngle ∧ t.app.mSpotOuterAngle = s.app.mSpotOuterAngle ∧
    t.app.mSpotRange = s.app.mSpotRange ∧ t.app.mLightRange = s.app.mLightRange

/-- An update of the host object that leaves the spot angles and the two ranges alone. -/
def KeepsLights (f : DeferredShaderApp → DeferredShaderApp) : Prop :=
  ∀ a, (f a).mSpotInnerAngle = a.mSpotInnerAngle ∧ (f a).mSpotOuterAngle = a.mSpotOuterAngle ∧
    (f a).mSpotRange = a.mSpotRange ∧ (f a).mLightRange = a.mLightRange

/-- The settings window applied to the host object: lights, ambient colours, flags. -/
def DeferredShaderApp.guiApp (gui : GuiInput) (a : DeferredShaderApp) : DeferredShaderApp :=
  DeferredShaderApp.guiFlags gui
    ((fun a => if gui.ambientOpen then DeferredShaderApp.guiAmbient gui a else a)
      (DeferredShaderApp.guiLights gui a))

/-- The five flags that switch the debug views of `Render`. -/
structure DebugFlags where
  mVisualizeLightVolume : Bool
  mVisualizeGBuffer : Bool
  mRenderState : RENDER_STATE
  mVisualizeCascades : Bool
  mShowShadowMap : Bool

/-- The same machine with other debug flags. -/
def State.setFlags (f : DebugFlags) (s : State W) : State W :=
  s.setApp (fun a => { a with
    mVisualizeLightVolume := f.mVisualizeLightVolume
    mVisualizeGBuffer := f.mVisualizeGBuffer
    mRenderState := f.mRenderState
    mVisualizeCascades := f.mVisualizeCascades
    mShowShadowMap := f.mShowShadowMap })

/-- The depth-stencil state and stencil reference that `renderFrame` stores for the end of the
frame. -/
def DeferredShaderApp.savedDepthState (E : Env W) (s : State W) : Option Handle × Nat :=
  let s := s.ctxCall (.ClearRenderTargetView s.app.mRenderTargetView)
  let s := s.ctxCall (.ClearDepthStencilView s.app.mDepthStencilView)
  let s := s.extCall E (.camera .ViewProj)
  (s.ctx.depthStencilState, s.ctx.stencilRef)

/-- The lines of `renderFrame` up to and including `DoLighting`. -/
def DeferredShaderApp.packAndLight (E : Env W) (s : State W) : Except Fault (State W) := do
  let s := s.ctxCall (.ClearRenderTargetView s.app.mRenderTargetView)
  let s := s.ctxCall (.ClearDepthStencilView s.app.mDepthStencilView)
  let _ ← deref s.app.mCamera
  let s := s.extCall E (.camera .ViewProj)
  let pPrevDepthState := s.ctx.depthStencilState
  let nPrevStencil := s.ctx.stencilRef
  let s := s.ctxCall (.OMGetDepthStencilState pPrevDepthState nPrevStencil)
  let s := s.ctxCall (.PSSetSamplers 0 [s.app.mSampLinear, s.app.mSampPoint])
  let s := s.extCall E (.gbuffer .PreRender)
  let s ← SceneManager.Render E s
  let s := s.extCall E (.gbuffer .PostRender)
  let s := s.ctxCall (.OMSetRenderTargets s.app.mRenderTargetView (some .GetDepthReadOnlyDSV))
  let s := s.extCall E (.gbuffer .PrepareForUnpack)
  pure (s.extCall E (.light .DoLighting))

/-- The lines of `renderFrame` after `DoLighting`, given the stored depth-stencil state. -/
def DeferredShaderApp.finishFrame (E : Env W) (gui : GuiInput)
    (pPrevDepthState : Option Handle) (nPrevStencil : Nat) (s : State W) :
    Except Fault (State W) := do
  let s := DeferredShaderApp.debugViews E s
  let s := s.ctxCall (.OMSetDepthStencilState pPrevDepthState nPrevStencil)
  let s := s.enter (.host (.Release pPrevDepthState))
  let s ← DeferredShaderApp.RenderGUI E gui s
  let s := s.ctxCall (.RSSetViewports s.app.mScreenViewport)
  pure (s.extCall E (.host .Present))

/-- `Render` up to and including `DoLighting`. -/
def DeferredShaderApp.renderToLighting (E : Env W) (fuel : Nat) (s : State W) :
    Except Fault (State W) := do
  let s ← DeferredShaderApp.generateShadowMaps E fuel s
  DeferredShaderApp.packAndLight E s

/-- The GBuffer depth surface is bound as the writable depth-stencil target and, in one of the
pixel-shader resource slots 0 to 3, as a shader input. -/
def Hazard (c : Ctx) : Prop :=
  c.dsv = some .GetDepthDSV ∧ ∃ i, i < 4 ∧ c.psSRV i = some .GetDepthView

instance instDecidableHazard (c : Ctx) : Decidable (Hazard c) := by
  unfold Hazard
  infer_instance

/-- The block of `Render` around `VisualizeGBuffer`: unbind the depth-stencil target, draw the
view, bind the writable depth view of the GBuffer. -/
def DeferredShaderApp.gbufferBlock (s : State W) : State W :=
  let s := s.ctxCall (.OMSetRenderTargets s.app.mRenderTargetView none)
  let s := DeferredShaderApp.VisualizeGBuffer s
  s.ctxCall (.OMSetRenderTargets s.app.mRenderTargetView (some .GetDepthDSV))

/-- The block of `Render` around `VisualizeFullScreenGBufferTexture`. -/
def DeferredShaderApp.fullScreenBlock (s : State W) : State W :=
  let s := s.ctxCall (.OMSetRenderTargets s.app.mRenderTargetView none)
  let s := DeferredShaderApp.VisualizeFullScreenGBufferTexture s
  s.ctxCall (.OMSetRenderTargets s.app.mRenderTargetView (some .GetDepthDSV))

/-- Run a list of calls of the application itself, one after the other: a device-context call
acts on the pipeline state, the entry into a member function only leaves its mark. -/
def State.ownRun (cs : List Call) (s : State W) : State W :=
  cs.foldl (fun s c => match c with
    | .ctx cc => s.ctxCall cc
    | c => s.enter c) s

/-- The calls of `VisualizeGBuffer`, in order. -/
def gbufferViewCalls (a : DeferredShaderApp) : List Call :=
  [Call.host .VisualizeGBuffer,
    Call.ctx (.PSSetShaderResources 0
      [some .GetDepthView, some .GetColorView, some .GetNormalView, some .GetSpecPowerView]),
    Call.ctx (.PSSetSamplers 1 [a.mSampPoint]),
    Call.ctx (.IASetInputLayout none),
    Call.ctx .IASetVertexBuffers,
    Call.ctx .IASetPrimitiveTopologyTriangleStrip,
    Call.ctx (.VSSetShader a.mGBufferVisVertexShader),
    Call.ctx (.GSSetShader none),
    Call.ctx (.PSSetShader a.mGBufferVisPixelShader),
    Call.ctx (.Draw 16 0),
    Call.ctx (.VSSetShader none),
    Call.ctx (.PSSetShader none),
    Call.ctx (.PSSetShaderResources 0 [none, none, none, none])]

/-- The pixel shader that the `switch` of `VisualizeFullScreenGBufferTexture` binds. -/
def fullScreenShaderCalls (a : DeferredShaderApp) : List Call :=
  if a.mRenderState = DEPTHRT then [Call.ctx (.PSSetShader a.mTextureVisDepthPS)]
  else if a.mRenderState = COLSPECRT then [Call.ctx (.PSSetShader a.mTextureVisCSpecPS)]
  else if a.mRenderState = NORMALRT then [Call.ctx (.PSSetShader a.mTextureVisNormalPS)]
  else if a.mRenderState = SPECPOWRT then [Call.ctx (.PSSetShader a.mTextureVisSpecPowPS)]
  else []

/-- The calls of `VisualizeFullScreenGBufferTexture`, in order. -/
def fullScreenViewCalls (a : DeferredShaderApp) : List Call :=
  [Call.host .VisualizeFullScreenGBufferTexture,
    Call.ctx (.PSSetShaderResources 0
      [some .GetDepthView, some .GetColorView, some .GetNormalView, some .GetSpecPowerView]),
    Call.ctx (.PSSetSamplers 1 [a.mSampPoint]),
    Call.ctx (.IASetInputLayout none),
    Call.ctx .IASetVertexBuffers,
    Call.ctx .IASetPrimitiveTopologyTriangleStrip,
    Call.ctx (.VSSetShader a.mTextureVisVS),
    Call.ctx (.GSSetShader none)] ++ fullScreenShaderCalls a ++
  [Call.ctx (.Draw 4 0),
    Call.ctx (.VSSetShader none),
    Call.ctx (.PSSetShader none),
    Call.ctx (.PSSetShaderResources 0 [none, none, none, none])]

/-- The calls of a debug view between the two `OMSetRenderTargets` calls that `Render` puts
around it. -/
def guardedView (a : DeferredShaderApp) (body : List Call) : List Call :=
  Call.ctx (.OMSetRenderTargets a.mRenderTargetView none) :: body ++
    [Call.ctx (.OMSetRenderTargets a.mRenderTargetView (some .GetDepthDSV))]

/-- Calls that bind a depth-stencil target or pixel-shader resources. -/
def isBind (c : Call) : Bool :=
  match c with
  | .ctx cc =>
      (match cc with
      | .OMSetRenderTargets _ _ => true
      | .PSSetShaderResources _ _ => true
      | _ => false)
  | _ => false

/-- The entry into one of the two GBuffer views. -/
def isViewEntry (c : Call) : Bool :=
  decide (c = Call.host .VisualizeGBuffer) ||
    decide (c = Call.host .VisualizeFullScreenGBufferTexture)

/-- Modelled from the spec: the direction of the directional light after a middle-button drag
from the last mouse position to `(x, y)`, that is
`normalize(dir - right*0.02*dx - up*0.02*dy + forward*0.02*dy)` with the camera axes taken from
the inverse view matrix. -/
def DeferredShaderApp.rotatedLightDir (E : Env W) (x y : Int) (s : State W) : XMVECTOR :=
  let dx : ℚ := ((x - s.app.mLastMousePos.1 : Int) : ℚ)
  let dy : ℚ := ((y - s.app.mLastMousePos.2 : Int) : ℚ)
  let w := (s.extCall E (.camera .View)).world
  let right := XMLoadFloat3 (E.viewInvRight w)
  let up := XMLoadFloat3 (E.viewInvUp w)
  let forward := XMLoadFloat3 (E.viewInvForward w)
  E.XMVector3Normalize
    (((s.app.mDirLightDir.sub (right.scale (dx * 0.02))).sub (up.scale (dy * 0.02))).add
      (forward.scale (dy * 0.02)))

/-- `mRenderState` holds one of the five enumerators of `RENDER_STATE`. -/
def IsEnumerator (r : RENDER_STATE) : Prop :=
  r = BACKBUFFERRT ∨ r = DEPTHRT ∨ r = COLSPECRT ∨ r = NORMALRT ∨ r = SPECPOWRT

/-- `mRenderState` holds one of the four values for which the `switch` of
`VisualizeFullScreenGBufferTexture` binds a pixel shader. -/
def Supported (r : RENDER_STATE) : Prop :=
  r = DEPTHRT ∨ r = COLSPECRT ∨ r = NORMALRT ∨ r = SPECPOWRT

/-- Modelled from the spec: the base class, which is not part of the two files, calls the
handlers of the application in any order: the window events and frames of `Event`, and the
mouse handlers. -/
inductive Handler where
  | event (e : Event)
  | OnMouseDown (x y : Int)
  | OnMouseMove (btnState : Nat) (x y : Int)

/-- Call one handler. -/
def handle (E : Env W) (fuel : Nat) : Handler → State W → Except Fault (State W)
  | .event e, s => step E fuel e s
  | .OnMouseDown x y, s => .ok (DeferredShaderApp.OnMouseDown x y s)
  | .OnMouseMove btnState x y, s => DeferredShaderApp.OnMouseMove E btnState x y s

/-- Call a sequence of handlers, stopping at the first fault. -/
def handleAll (E : Env W) (fuel : Nat) : List Handler → State W → Except Fault (State W)
  | [], s => .ok s
  | h :: hs, s =>
      match handle E fuel h s with
      | .ok s => handleAll E fuel hs s
      | .error f => .error f

/-- The entry into `VisualizeFullScreenGBufferTexture`. -/
def isFullScreenEntry (c : Call) : Bool :=
  decide (c = Call.host .VisualizeFullScreenGBufferTexture)

/-! ## A concrete machine

The world of this machine is the number of shadow passes the light manager still asks for.
Each pass the scheduler prepares replaces the viewport and the rasterizer state. -/

/-- Viewport of the window. -/
def screenViewport : D3D11_VIEWPORT := ⟨0, 0, 1024, 768, 0, 1⟩

/-- Viewport of a shadow map. -/
def shadowViewport : D3D11_VIEWPORT := ⟨0, 0, 2048, 2048, 0, 1⟩

/-- Collaborators that always succeed; the scheduler counts the world down to zero. -/
def sampleEnv : Env Nat where
  effect := fun c w ctx =>
    match c with
    | .light (.PrepareNextShadowLight true) =>
        (w - 1, { ctx with viewport := shadowViewport, rsState := some 77 })
    | _ => (w, ctx)
  PrepareNextShadowLight := fun w _ => decide (0 < w)
  GBufferInit := fun _ _ _ => true
  AspectRatio := fun w h => (w : ℚ) / (h : ℚ)
  GetTexture := fun _ _ => none
  viewInvRight := fun _ => ⟨1, 0, 0⟩
  viewInvUp := fun _ => ⟨0, 1, 0⟩
  viewInvForward := fun _ => ⟨0, 0, 1⟩
  GetPosition := fun _ => ⟨12, 6, -15⟩
  XMVector3Normalize := fun v => v
  BaseInit := fun _ => true
  CompileShader := fun entry => (1, some entry.length)
  CreateVertexShader := fun blob => (0, some (100 + blob))
  CreatePixelShader := fun blob => (0, some (200 + blob))
  CreateInputLayout := fun blob => (0, some (300 + blob))
  CreateSamplerStateLinear := (0, some 41)
  CreateSamplerStatePoint := (0, some 42)
  CreateBuffer := fun n => (0, some (400 + n))
  LoadToMesh := fun _ => true
  NewMesh := fun w => 10 + w
  NewCamera := fun _ => 3
  LightManagerInit := fun _ => 1
  V_RETURN := dxutVReturn
  SAFE_RELEASE := fun _ => none
  SAFE_DELETE := fun _ => none

/-- A pipeline state with the window viewport and a rasterizer state bound. -/
def sampleCtx : Ctx :=
  { viewport := screenViewport, rsState := some 5, depthStencilState := some 6, stencilRef := 0,
    rtv := some 1, dsv := none, vs := none, gs := none, ps := none,
    psSRV := fun _ => none, psSamplers := fun _ => none, inputLayout := none,
    triangleStrip := false, vsCB := none, psCB := none }

/-- What the base-class constructor leaves. -/
def sampleBase : D3DRendererApp :=
  { mClientWidth := 800, mClientHeight := 600, mScreenViewport := screenViewport,
    mRenderTargetView := some 1, mDepthStencilView := some 2, mShowRenderStats := false }

/-- A started application with two meshes and `w` shadow passes to come. -/
def sampleState (w : Nat) : State Nat :=
  { app := { DeferredShaderApp.new sampleEnv sampleBase (0, 0) with mCamera := some 3 }
    scene := { SceneManager.new with mMeshes := [some 10, some 11], mCamera := some 3 }
    ctx := sampleCtx
    world := w
    trace := [] }

/-- A frame in which the user touches nothing and every section of the GUI is closed. -/
def idleGui : GuiInput :=
  { lightsOpen := false, directionalOpen := false, pointOpen := false, ambientOpen := false,
    cameraOpen := false, dirLightColor := none, dirShadowsClicked := false,
    visualizeCascadesClicked := false, antiflickerClicked := false, pointRange := none,
    pointShadowsClicked := false, ambientUpperColor := none, ambientLowerColor := none,
    cameraPosition := none, frameStatsClicked := false, visualizeBuffersClicked := false,
    visualizeShadowMapClicked := false, visualizeLightVolumeClicked := false }

/-- No key is down. -/
def noKeys : KeyInput :=
  { F2 := false, F3 := false, F4 := false, F11 := false, DOWN := false, UP := false,
    key1 := false, key2 := false, key3 := false, key4 := false, key5 := false }

/-- The sample collaborators, except that `GBuffer::Init` reports failure. -/
def failingGBufferEnv : Env Nat := { sampleEnv with GBufferInit := fun _ _ _ => false }

/-- The sample collaborators, except that compiling `RenderSceneVS` fails: `CompileShader`
returns `false`, that is zero, and leaves the blob pointer `NULL`. -/
def failingSceneVSEnv : Env Nat :=
  { sampleEnv with
    CompileShader := fun entry =>
      if entry = "RenderSceneVS" then (0, none) else sampleEnv.CompileShader entry }

/-- The sample collaborators, except that compiling `RenderScenePS` fails in the same way. -/
def failingScenePSEnv : Env Nat :=
  { sampleEnv with
    CompileShader := fun entry =>
      if entry = "RenderScenePS" then (0, none) else sampleEnv.CompileShader entry }

/-- The sample collaborators, except that `LightManager::Init` returns `ret`. -/
def lightInitEnv (ret : Int) : Env Nat := { sampleEnv with LightManagerInit := fun _ => ret }

/-- The sample collaborators, except that `LightManager::Init` returns `false` and that
`V_RETURN` is taken to return `false`, not `hr`, when its argument `FAILED`. -/
def lightInitStrictEnv : Env Nat :=
  { sampleEnv with
    LightManagerInit := fun _ => 0
    V_RETURN := fun hr => if FAILED hr then some false else none }

/-- The `HRESULT` `E_FAIL`, `0x80004005` as a signed 32-bit value. -/
def E_FAIL : Int := -2147467259

/-- The machine right after the constructors of the host and of the scene manager. -/
def constructed (E : Env Nat) : State Nat :=
  { app := DeferredShaderApp.new E sampleBase (0, 0), scene := SceneManager.new,
    ctx := sampleCtx, world := 0, trace := [] }

/-- The fourth of the seven blocks. -/
def depthPSBlock : ShaderBlock :=
  ⟨"TextureVisDepthPS", false, fun h a => { a with mTextureVisDepthPS := h }⟩

/-- The sample collaborators, except that compiling `TextureVisDepthPS`, the fourth of the
seven shaders, fails. -/
def failingDepthPSEnv : Env Nat :=
  { sampleEnv with
    CompileShader := fun entry =>
      if entry = "TextureVisDepthPS" then (0, none) else sampleEnv.CompileShader entry }

/-- A frame in which the user opens the light sections and drags the point range to the lower
end of its slider. -/
def pointRangeGui : GuiInput :=
  { idleGui with lightsOpen := true, directionalOpen := true, pointOpen := true,
                 pointRange := some 0.1 }

/-- Debug flags with every view switched on and the depth target shown full screen. -/
def allViewsOn : DebugFlags where
  mVisualizeLightVolume := true
  mVisualizeGBuffer := true
  mRenderState := DEPTHRT
  mVisualizeCascades := true
  mShowShadowMap := true

/-- The sample pipeline state with a vertex shader, a pixel shader and a texture in slot 0
bound. -/
def boundCtx : Ctx :=
  { sampleCtx with
    vs := some 8
    ps := some 9
    psSRV := fun i => if i = 0 then some (.texture 7) else none }

/-- The sample application over `boundCtx`, its `mRenderState` holding 7, which is no
enumerator of `RENDER_STATE`. -/
def unsupportedState : State Nat :=
  { sampleState 0 with
    app := { (sampleState 0).app with mRenderState := 7 }
    ctx := boundCtx }

/-- The sample application with a scene manager that holds two meshes, an empty entry
between them, and all five of its D3D objects. -/
def loadedState : State Nat :=
  { sampleState 0 with
    scene :=
      { mMeshes := [some 10, none, some 11]
        mSceneVertexShaderCB := some 20
        mScenePixelShaderCB := some 21
        mSceneVertexShader := some 22
        mSceneVSLayout := some 23
        mScenePixelShader := some 24
        mCamera := some 3 } }

/-- The state the constructor leaves, `mRenderState = BACKBUFFERRT`, over `boundCtx`. -/
def backBufferState : State Nat := { sampleState 0 with ctx := boundCtx }

/-- Key 3 is down. -/
def key3Down : KeyInput := { noKeys with key3 := true }

/-! ## Lemmas on the primitive steps -/

@[simp] theorem ctxCall_app (c : CtxCall) (s : State W) : (s.ctxCall c).app = s.app := rfl
@[simp] theorem ctxCall_scene (c : CtxCall) (s : State W) : (s.ctxCall c).scene = s.scene := rfl
@[simp] theorem ctxCall_world (c : CtxCall) (s : State W) : (s.ctxCall c).world = s.world := rfl
@[simp] theorem ctxCall_ctx (c : CtxCall) (s : State W) :
    (s.ctxCall c).ctx = c.apply s.ctx := rfl
@[simp] theorem ctxCall_trace (c : CtxCall) (s : State W) :
    (s.ctxCall c).trace = s.trace ++ [Call.ctx c] := rfl
@[simp] theorem extCall_app (E : Env W) (c : Call) (s : State W) :
    (s.extCall E c).app = s.app := rfl
@[simp] theorem extCall_scene (E : Env W) (c : Call) (s : State W) :
    (s.extCall E c).scene = s.scene := rfl
@[simp] theorem extCall_trace (E : Env W) (c : Call) (s : State W) :
    (s.extCall E c).trace = s.trace ++ [c] := rfl
@[simp] theorem enter_app (c : Call) (s : State W) : (s.enter c).app = s.app := rfl
@[simp] theorem enter_scene (c : Call) (s : State W) : (s.enter c).scene = s.scene := rfl
@[simp] theorem enter_world (c : Call) (s : State W) : (s.enter c).world = s.world := rfl
@[simp] theorem enter_ctx (c : Call) (s : State W) : (s.enter c).ctx = s.ctx := rfl
@[simp] theorem enter_trace (c : Call) (s : State W) : (s.enter c).trace = s.trace ++ [c] := rfl
@[simp] theorem setApp_app (f : DeferredShaderApp → DeferredShaderApp) (s : State W) :
    (s.setApp f).app = f s.app := rfl
@[simp] theorem setApp_scene (f : DeferredShaderApp → DeferredShaderApp) (s : State W) :
    (s.setApp f).scene = s.scene := rfl
@[simp] theorem setApp_world (f : DeferredShaderApp → DeferredShaderApp) (s : State W) :
    (s.setApp f).world = s.world := rfl
@[simp] theorem setApp_ctx (f : DeferredShaderApp → DeferredShaderApp) (s : State W) :
    (s.setApp f).ctx = s.ctx := rfl
@[simp] theorem setApp_trace (f : DeferredShaderApp → DeferredShaderApp) (s : State W) :
    (s.setApp f).trace = s.trace := rfl
@[simp] theorem setScene_app (f : SceneManager → SceneManager) (s : State W) :
    (s.setScene f).app = s.app := rfl
@[simp] theorem setScene_scene (f : SceneManager → SceneManager) (s : State W) :
    (s.setScene f).scene = f s.scene := rfl
@[simp] theorem setScene_trace (f : SceneManager → SceneManager) (s : State W) :
    (s.setScene f).trace = s.trace := rfl

@[simp] theorem phases_nil : phases [] = [] := rfl

@[simp] theorem phases_append (a b : List Call) : phases (a ++ b) = phases a ++ phases b := by
  simp [phases]

@[simp] theorem phases_cons (c : Call) (t : List Call) :
    phases (c :: t) = (phase c).toList ++ phases t := by
  cases h : phase c <;> simp [phases, List.filterMap_cons, h]

@[simp] theorem phases_meshCalls (ms : List (Option Handle)) : phases (meshCalls ms) = [] := by
  induction ms with
  | nil => rfl
  | cons m ms ih =>
    cases m with
    | none => simpa [meshCalls] using ih
    | some h => simpa [meshCalls, phase] using ih

/-! ## The scene manager's draws -/

theorem renderMeshesNoShaders_spec (E : Env W) (ms : List (Option Handle)) :
    ∀ s s', SceneManager.renderMeshesNoShaders E ms s = .ok s' →
      s'.app = s.app ∧ s'.scene = s.scene ∧ s'.trace = s.trace ++ meshCalls ms := by
  induction ms with
  | nil =>
    intro s s' h
    simp only [SceneManager.renderMeshesNoShaders, Except.ok.injEq] at h
    subst h
    simp [meshCalls]
  | cons m ms ih =>
    intro s s' h
    cases m with
    | none => simp [SceneManager.renderMeshesNoShaders] at h
    | some m =>
      simp only [SceneManager.renderMeshesNoShaders] at h
      obtain ⟨h1, h2, h3⟩ := ih _ _ h
      refine ⟨by simpa using h1, by simpa using h2, ?_⟩
      rw [h3]
      simp [meshCalls]

theorem RenderSceneNoShaders_spec (E : Env W) (s s' : State W)
    (h : SceneManager.RenderSceneNoShaders E s = .ok s') :
    s'.app = s.app ∧ s'.scene = s.scene ∧
      s'.trace = s.trace ++ Call.scene .RenderSceneNoShaders :: meshCalls s.scene.mMeshes := by
  obtain ⟨h1, h2, h3⟩ := renderMeshesNoShaders_spec E _ _ _ h
  refine ⟨by simpa using h1, by simpa using h2, ?_⟩
  rw [h3]
  simp

/-! ## The shadow loop -/

theorem shadowCalls_succ (ms : List (Option Handle)) (n : Nat) :
    shadowCalls ms (n + 1) = depthPassCalls ms ++ shadowCalls ms n := by
  simp [shadowCalls, List.replicate_succ]

theorem shadowLoop_spec (E : Env W) :
    ∀ (n fuel : Nat) (s : State W), SchedulerRuns E n s → n < fuel →
      ∃ s', DeferredShaderApp.shadowLoop E fuel s = .ok s' ∧ s'.app = s.app ∧
        s'.scene = s.scene ∧ s'.trace = s.trace ++ shadowCalls s.scene.mMeshes n := by
  intro n
  induction n with
  | zero =>
    intro fuel s hs hf
    obtain ⟨k, rfl⟩ : ∃ k, fuel = k + 1 := ⟨fuel - 1, by omega⟩
    simp only [SchedulerRuns] at hs
    refine ⟨s.extCall E (.light (.PrepareNextShadowLight false)), ?_, rfl, rfl, ?_⟩
    · simp [DeferredShaderApp.shadowLoop, hs]
    · simp [shadowCalls]
  | succ n ih =>
    intro fuel s hs hf
    obtain ⟨k, rfl⟩ : ∃ k, fuel = k + 1 := ⟨fuel - 1, by omega⟩
    obtain ⟨ht, s1, hr, hn⟩ := hs
    obtain ⟨a1, a2, a3⟩ := RenderSceneNoShaders_spec E _ _ hr
    obtain ⟨s', h1, h2, h3, h4⟩ := ih k s1 hn (by omega)
    refine ⟨s', ?_, ?_, ?_, ?_⟩
    · simp [DeferredShaderApp.shadowLoop, ht, hr, h1]
    · rw [h2, a1]; rfl
    · rw [h3, a2]; rfl
    · rw [h4, a3, a2, shadowCalls_succ]
      simp [depthPassCalls]

/-! ## Growth of the trace -/

@[simp] theorem noInit_nil : noInit [] = true := rfl

@[simp] theorem noInit_append (a b : List Call) : noInit (a ++ b) = (noInit a && noInit b) := by
  simp [noInit]

@[simp] theorem noInit_cons (c : Call) (t : List Call) :
    noInit (c :: t) = (!isResizeCall c && noInit t) := by
  simp [noInit]

@[simp] theorem noInit_meshCalls (ms : List (Option Handle)) : noInit (meshCalls ms) = true := by
  induction ms with
  | nil => rfl
  | cons m ms ih =>
    cases m with
    | none => simpa [meshCalls] using ih
    | some h => simpa [meshCalls, isResizeCall, initSize, lensOf] using ih

theorem Emits.of_drop {s s' : State W} {ph : List Phase}
    (h1 : s'.trace = s.trace ++ s'.trace.drop s.trace.length)
    (h2 : phases (s'.trace.drop s.trace.length) = ph)
    (h3 : noInit (s'.trace.drop s.trace.length) = true) : Emits s s' ph :=
  ⟨_, h1, h2, h3⟩

theorem Emits.refl (s : State W) : Emits s s [] := ⟨[], by simp, rfl, rfl⟩

theorem Emits.trans {s s' s'' : State W} {p q : List Phase} (h1 : Emits s s' p)
    (h2 : Emits s' s'' q) : Emits s s'' (p ++ q) := by
  obtain ⟨a, ha, hp, hn⟩ := h1
  obtain ⟨b, hb, hq, hm⟩ := h2
  exact ⟨a ++ b, by rw [hb, ha, List.append_assoc], by simp [hp, hq], by simp [hn, hm]⟩

theorem Keeps.keeps_refl (s : State W) : Keeps s s := ⟨rfl, rfl, rfl, rfl⟩

theorem Keeps.keeps_trans {s s' s'' : State W} (h1 : Keeps s s') (h2 : Keeps s' s'') :
    Keeps s s'' := by
  obtain ⟨a, b, c, d⟩ := h1
  obtain ⟨a', b', c', d'⟩ := h2
  exact ⟨a'.trans a, b'.trans b, c'.trans c, d'.trans d⟩

theorem Keeps.of_eq {s s' : State W} (h1 : s'.app = s.app) (h2 : s'.scene = s.scene) :
    Keeps s s' := by
  simp [Keeps, h1, h2]

theorem initSize_of_not_resize (c : Call) (h : isResizeCall c = false) : initSize c = none := by
  simp only [isResizeCall, Bool.or_eq_false_iff] at h
  simpa using h.1

theorem lensOf_of_not_resize (c : Call) (h : isResizeCall c = false) : lensOf c = none := by
  simp only [isResizeCall, Bool.or_eq_false_iff] at h
  simpa using h.2

theorem findSome_reverse_append {α : Type} (f : Call → Option α) (t calls : List Call)
    (h : ∀ c ∈ calls, f c = none) :
    (t ++ calls).reverse.findSome? f = t.reverse.findSome? f := by
  induction calls using List.reverseRecOn with
  | nil => simp
  | append_singleton cs c ih =>
    have hc : f c = none := h c (by simp)
    rw [← List.append_assoc]
    simp only [List.reverse_append, List.reverse_cons, List.reverse_nil,
      List.nil_append, List.singleton_append, List.findSome?_cons, hc]
    simpa using ih (fun x hx => h x (by simp [hx]))

theorem lastGBufferInit_append (t calls : List Call) (h : noInit calls = true) :
    lastGBufferInit (t ++ calls) = lastGBufferInit t := by
  apply findSome_reverse_append
  intro c hc
  apply initSize_of_not_resize
  simpa using (List.all_eq_true.mp h) c hc

theorem lastSetLens_append (t calls : List Call) (h : noInit calls = true) :
    lastSetLens (t ++ calls) = lastSetLens t := by
  apply findSome_reverse_append
  intro c hc
  apply lensOf_of_not_resize
  simpa using (List.all_eq_true.mp h) c hc

theorem SizeSynced.synced_step (E : Env W) {s s' : State W} {ph : List Phase} (h : SizeSynced E s)
    (hk : Keeps s s') (he : Emits s s' ph) : SizeSynced E s' := by
  obtain ⟨calls, h1, _, h3⟩ := he
  obtain ⟨_, _, k3, k4⟩ := hk
  unfold SizeSynced
  rw [h1, lastGBufferInit_append _ _ h3, lastSetLens_append _ _ h3, k3, k4]
  exact h

/-! ## The debug views -/

theorem VisualizeGBuffer_emits (s : State W) :
    Emits s (DeferredShaderApp.VisualizeGBuffer s) [Phase.debug] := by
  apply Emits.of_drop <;>
    simp [DeferredShaderApp.VisualizeGBuffer, phase, isResizeCall, initSize, lensOf]

theorem VisualizeGBuffer_app (s : State W) :
    (DeferredShaderApp.VisualizeGBuffer s).app = s.app ∧
      (DeferredShaderApp.VisualizeGBuffer s).scene = s.scene := by
  simp [DeferredShaderApp.VisualizeGBuffer]

theorem VisualizeFullScreenGBufferTexture_app (s : State W) :
    (DeferredShaderApp.VisualizeFullScreenGBufferTexture s).app = s.app ∧
      (DeferredShaderApp.VisualizeFullScreenGBufferTexture s).scene = s.scene := by
  simp only [DeferredShaderApp.VisualizeFullScreenGBufferTexture]
  split_ifs <;> simp

theorem VisualizeFullScreenGBufferTexture_emits (s : State W) :
    Emits s (DeferredShaderApp.VisualizeFullScreenGBufferTexture s) [Phase.debug] := by
  simp only [DeferredShaderApp.VisualizeFullScreenGBufferTexture]
  split_ifs <;> apply Emits.of_drop <;> simp [phase, isResizeCall, initSize, lensOf]

theorem debugViews_app (E : Env W) (s : State W) :
    (DeferredShaderApp.debugViews E s).app = s.app ∧
      (DeferredShaderApp.debugViews E s).scene = s.scene := by
  simp only [DeferredShaderApp.debugViews]
  split_ifs <;>
    simp [(VisualizeGBuffer_app _).1, (VisualizeGBuffer_app _).2,
      (VisualizeFullScreenGBufferTexture_app _).1, (VisualizeFullScreenGBufferTexture_app _).2]

theorem EmitsDebug.debug_refl (s : State W) : EmitsDebug s s := ⟨0, Emits.refl s⟩

theorem EmitsDebug.step {s t u : State W} (h : EmitsDebug s t) (h2 : Emits t u [Phase.debug]) :
    EmitsDebug s u := by
  obtain ⟨d, hd⟩ := h
  refine ⟨d + 1, ?_⟩
  have := hd.trans h2
  rwa [List.replicate_succ', ]

theorem Emits.ctxCall (s : State W) (c : CtxCall) : Emits s (s.ctxCall c) [] := by
  apply Emits.of_drop <;> cases c <;> simp [phase, isResizeCall, initSize, lensOf]

theorem Emits.extCall (E : Env W) (s : State W) (c : Call) (h : isResizeCall c = false) :
    Emits s (s.extCall E c) (phase c).toList := by
  apply Emits.of_drop <;> simp [h]

theorem Emits.enter (s : State W) (c : Call) (h : isResizeCall c = false) :
    Emits s (s.enter c) (phase c).toList := by
  apply Emits.of_drop <;> simp [h]

theorem Emits.setApp (s : State W) (f : DeferredShaderApp → DeferredShaderApp) :
    Emits s (s.setApp f) [] := by
  apply Emits.of_drop <;> simp

theorem EmitsDebug.extCall_ite (E : Env W) {s t : State W} (c : Prop) [Decidable c]
    (call : Call) (hp : phase call = some Phase.debug) (hn : isResizeCall call = false)
    (h : EmitsDebug s t) : EmitsDebug s (if c then t.extCall E call else t) := by
  split_ifs
  · refine h.step ?_
    simpa [hp] using Emits.extCall E t call hn
  · exact h

theorem EmitsDebug.gbuffer_ite {s t : State W} (c : Prop) [Decidable c] (a b : CtxCall)
    (h : EmitsDebug s t) :
    EmitsDebug s (if c then (DeferredShaderApp.VisualizeGBuffer (t.ctxCall a)).ctxCall b
      else t) := by
  split_ifs
  · refine h.step ?_
    simpa using ((Emits.ctxCall t a).trans (VisualizeGBuffer_emits _)).trans (Emits.ctxCall _ b)
  · exact h

theorem EmitsDebug.fullScreen_ite {s t : State W} (c : Prop) [Decidable c] (a b : CtxCall)
    (h : EmitsDebug s t) :
    EmitsDebug s
      (if c then (DeferredShaderApp.VisualizeFullScreenGBufferTexture (t.ctxCall a)).ctxCall b
      else t) := by
  split_ifs
  · refine h.step ?_
    simpa using ((Emits.ctxCall t a).trans
      (VisualizeFullScreenGBufferTexture_emits _)).trans (Emits.ctxCall _ b)
  · exact h

theorem debugViews_emits (E : Env W) (s : State W) :
    EmitsDebug s (DeferredShaderApp.debugViews E s) := by
  simp only [DeferredShaderApp.debugViews]
  refine EmitsDebug.extCall_ite E _ _ ?_ ?_ ?_
  · rfl
  · rfl
  refine EmitsDebug.extCall_ite E _ _ ?_ ?_ ?_
  · rfl
  · rfl
  apply EmitsDebug.fullScreen_ite
  apply EmitsDebug.gbuffer_ite
  refine EmitsDebug.extCall_ite E _ _ ?_ ?_ ?_
  · rfl
  · rfl
  exact EmitsDebug.debug_refl s

/-! ## Drawing the scene into the GBuffer -/

theorem renderMesh_spec (E : Env W) (m : Handle) (s : State W) :
    (SceneManager.renderMesh E m s).app = s.app ∧
      (SceneManager.renderMesh E m s).scene = s.scene ∧
      Emits s (SceneManager.renderMesh E m s) [] := by
  simp only [SceneManager.renderMesh]
  split
  · refine ⟨by simp, by simp, ?_⟩
    apply Emits.of_drop <;> simp [phase, isResizeCall, initSize, lensOf]
  · refine ⟨by simp, by simp, ?_⟩
    apply Emits.of_drop <;> simp [phase, isResizeCall, initSize, lensOf]

theorem renderMeshes_spec (E : Env W) (ms : List (Option Handle)) :
    ∀ s : State W, (∀ m ∈ ms, m ≠ none) →
      ∃ s', SceneManager.renderMeshes E ms s = .ok s' ∧ s'.app = s.app ∧ s'.scene = s.scene ∧
        Emits s s' [] := by
  induction ms with
  | nil =>
    intro s _
    exact ⟨s, rfl, rfl, rfl, Emits.refl s⟩
  | cons m ms ih =>
    intro s hm
    cases m with
    | none => exact absurd rfl (hm none (List.mem_cons_self _ _))
    | some m =>
      obtain ⟨a1, a2, a3⟩ := renderMesh_spec E m s
      obtain ⟨s', h1, h2, h3, h4⟩ :=
        ih (SceneManager.renderMesh E m s) (fun x hx => hm x (List.mem_cons_of_mem _ hx))
      refine ⟨s', by simpa [SceneManager.renderMeshes] using h1, h2.trans a1, h3.trans a2, ?_⟩
      simpa using a3.trans h4

theorem SceneManager_Render_spec (E : Env W) (s : State W) (hc : s.scene.mCamera ≠ none)
    (hm : ∀ m ∈ s.scene.mMeshes, m ≠ none) :
    ∃ s', SceneManager.Render E s = .ok s' ∧ s'.app = s.app ∧ s'.scene = s.scene ∧
      Emits s s' [Phase.sceneRender] := by
  obtain ⟨cam, hcam⟩ := Option.ne_none_iff_exists'.mp hc
  obtain ⟨s', h1, h2, h3, h4⟩ := renderMeshes_spec E s.scene.mMeshes
    (((s.enter (.scene .Render)).extCall E (.camera .View)).extCall E (.camera .Proj)) hm
  refine ⟨s', ?_, by simpa using h2, by simpa using h3, ?_⟩
  · simpa [SceneManager.Render, deref, hcam, bind, Except.bind] using h1
  · have e1 := Emits.enter s (.scene .Render) rfl
    have e2 := Emits.extCall E (s.enter (.scene .Render)) (.camera .View) rfl
    have e3 := Emits.extCall E ((s.enter (.scene .Render)).extCall E (.camera .View))
      (.camera .Proj) rfl
    simpa [phase] using ((e1.trans e2).trans e3).trans h4

/-! ## The GUI -/

theorem guiCamera_spec (E : Env W) (gui : GuiInput) (s : State W) (hc : s.app.mCamera ≠ none) :
    ∃ s', DeferredShaderApp.guiCamera E gui s = .ok s' ∧ s'.app = s.app ∧ s'.scene = s.scene ∧
      Emits s s' [] := by
  obtain ⟨cam, hcam⟩ := Option.ne_none_iff_exists'.mp hc
  refine ⟨_, by simp [DeferredShaderApp.guiCamera, deref, hcam, bind, Except.bind, pure,
    Except.pure]; rfl, by simp, by simp, ?_⟩
  apply Emits.of_drop <;> simp [phase, isResizeCall, initSize, lensOf]

theorem Keeps.keeps_setApp (s : State W) (f : DeferredShaderApp → DeferredShaderApp)
    (h : KeepsApp f) : Keeps s (s.setApp f) :=
  ⟨rfl, (h s.app).1, (h s.app).2.1, (h s.app).2.2⟩

theorem keepsApp_guiLights (gui : GuiInput) : KeepsApp (DeferredShaderApp.guiLights gui) := by
  intro a
  simp only [DeferredShaderApp.guiLights]
  split_ifs <;> simp [DeferredShaderApp.guiDirectional, DeferredShaderApp.guiPoint]

theorem keepsApp_guiAmbient (gui : GuiInput) :
    KeepsApp (fun a => if gui.ambientOpen then DeferredShaderApp.guiAmbient gui a else a) := by
  intro a
  split_ifs <;> simp [DeferredShaderApp.guiAmbient]

theorem keepsApp_guiFlags (gui : GuiInput) : KeepsApp (DeferredShaderApp.guiFlags gui) := by
  intro a
  simp [DeferredShaderApp.guiFlags]

theorem guiSettings_spec (E : Env W) (gui : GuiInput) (s : State W)
    (hc : s.app.mCamera ≠ none) :
    ∃ s', DeferredShaderApp.guiSettings E gui s = .ok s' ∧ Keeps s s' ∧ Emits s s' [] := by
  have k1 : Keeps s (((s.extCall E (.host .ImGuiSettingsWindow)).setApp
      (DeferredShaderApp.guiLights gui)).setApp
      (fun a => if gui.ambientOpen then DeferredShaderApp.guiAmbient gui a else a)) :=
    ((Keeps.of_eq rfl rfl).keeps_trans
      (Keeps.keeps_setApp _ _ (keepsApp_guiLights gui))).keeps_trans
      (Keeps.keeps_setApp _ _ (keepsApp_guiAmbient gui))
  have e1 : Emits s (((s.extCall E (.host .ImGuiSettingsWindow)).setApp
      (DeferredShaderApp.guiLights gui)).setApp
      (fun a => if gui.ambientOpen then DeferredShaderApp.guiAmbient gui a else a)) [] := by
    apply Emits.of_drop <;> simp [phase, isResizeCall, initSize, lensOf]
  simp only [DeferredShaderApp.guiSettings]
  by_cases hco : gui.cameraOpen = true
  · obtain ⟨s1, h1, h2, h3, h4⟩ := guiCamera_spec E gui _ (k1.2.1 ▸ hc)
    refine ⟨s1.setApp (DeferredShaderApp.guiFlags gui), by simp [hco, h1], ?_, ?_⟩
    · exact (k1.keeps_trans (Keeps.of_eq h2 h3)).keeps_trans
        (Keeps.keeps_setApp _ _ (keepsApp_guiFlags gui))
    · simpa using (e1.trans h4).trans (Emits.setApp _ _)
  · refine ⟨_, by simp [hco]; rfl, ?_, ?_⟩
    · exact k1.keeps_trans (Keeps.keeps_setApp _ _ (keepsApp_guiFlags gui))
    · simpa using e1.trans (Emits.setApp _ _)

theorem RenderGUI_spec (E : Env W) (gui : GuiInput) (s : State W)
    (hc : s.app.mCamera ≠ none) :
    ∃ s', DeferredShaderApp.RenderGUI E gui s = .ok s' ∧ Keeps s s' ∧ Emits s s' [] := by
  obtain ⟨A, hA, kA, eA⟩ : ∃ A : State W,
      (if ((s.enter (.host .RenderGUI)).extCall E (.host .ImGuiNewFrame)).app.mShowRenderStats
          = true
        then ((s.enter (.host .RenderGUI)).extCall E (.host .ImGuiNewFrame)).extCall E
          (.host .ImGuiFramerateWindow)
        else (s.enter (.host .RenderGUI)).extCall E (.host .ImGuiNewFrame)) = A ∧
      Keeps s A ∧ Emits s A [] := by
    refine ⟨_, rfl, ?_, ?_⟩
    · split_ifs <;> exact Keeps.of_eq rfl rfl
    · split_ifs <;> apply Emits.of_drop <;> simp [phase, isResizeCall, initSize, lensOf]
  simp only [DeferredShaderApp.RenderGUI, hA]
  have e2 : ∀ t : State W, Emits t ((t.extCall E (.host .ImGuiRender)).extCall E
      (.host .ImGuiRenderDrawData)) [] := by
    intro t
    apply Emits.of_drop <;> simp [phase, isResizeCall, initSize, lensOf]
  by_cases hs : A.app.mShowSettings = true
  · obtain ⟨s1, h1, h2, h3⟩ := guiSettings_spec E gui A (kA.2.1 ▸ hc)
    refine ⟨_, by simp [hs, h1]; rfl, ?_, ?_⟩
    · exact (kA.keeps_trans h2).keeps_trans (Keeps.of_eq rfl rfl)
    · simpa using (eA.trans h3).trans (e2 s1)
  · refine ⟨_, by simp [hs]; rfl, ?_, ?_⟩
    · exact kA.keeps_trans (Keeps.of_eq rfl rfl)
    · simpa using eA.trans (e2 A)

/-! ## The frame -/

theorem renderFrame_spec (E : Env W) (gui : GuiInput) (s : State W) (hi : Initialised s) :
    ∃ s' body d, DeferredShaderApp.renderFrame E gui s = .ok s' ∧ Keeps s s' ∧
      s'.trace = s.trace ++ (body ++ [Call.host .Present]) ∧
      phases body = [Phase.preRender, Phase.sceneRender, Phase.postRender,
        Phase.prepareForUnpack, Phase.doLighting] ++ List.replicate d Phase.debug ∧
      noInit body = true := by
  obtain ⟨hc, hsc, hm⟩ := hi
  obtain ⟨cam, hcam⟩ := Option.ne_none_iff_exists'.mp hc
  simp only [DeferredShaderApp.renderFrame, bind, Except.bind, deref, ctxCall_app, hcam,
    extCall_app]
  generalize hP : State.extCall E (Call.gbuffer GBufferCall.PreRender) _ = P
  have kP : P.app = s.app ∧ P.scene = s.scene := by subst hP; simp
  have eP : Emits s P [Phase.preRender] := by
    subst hP
    apply Emits.of_drop <;> simp [phase, isResizeCall, initSize, lensOf]
  obtain ⟨v, hv, av, sv, ev⟩ := SceneManager_Render_spec E P (kP.2 ▸ hsc) (kP.2 ▸ hm)
  simp only [hv]
  generalize hQ : State.enter (Call.host (HostCall.Release _)) _ = Q
  generalize hD : State.extCall E (Call.light LightCall.DoLighting) _ = D at hQ
  have kD : D.app = v.app ∧ D.scene = v.scene := by subst hD; simp
  have eD : Emits v D [Phase.postRender, Phase.prepareForUnpack, Phase.doLighting] := by
    subst hD
    apply Emits.of_drop <;> simp [phase, isResizeCall, initSize, lensOf]
  obtain ⟨d, ed⟩ := debugViews_emits E D
  have kQ : Q.app = D.app ∧ Q.scene = D.scene := by
    subst hQ
    simpa using debugViews_app E D
  have eQ : Emits (DeferredShaderApp.debugViews E D) Q [] := by
    subst hQ
    apply Emits.of_drop <;> simp [phase, isResizeCall, initSize, lensOf]
  have hQc : Q.app.mCamera ≠ none := by
    rw [kQ.1, kD.1, av, kP.1]; exact hc
  obtain ⟨g, hg, kg, eg⟩ := RenderGUI_spec E gui Q hQc
  have eV := Emits.ctxCall g (.RSSetViewports g.app.mScreenViewport)
  obtain ⟨body, hb, hp, hn⟩ :=
    (((((eP.trans ev).trans eD).trans ed).trans eQ).trans eg).trans eV
  refine ⟨_, body, d, by simp only [hg]; rfl, ?_, ?_, by simpa using hp, hn⟩
  · have k1 : Keeps s Q :=
      Keeps.of_eq (by rw [kQ.1, kD.1, av, kP.1]) (by rw [kQ.2, kD.2, sv, kP.2])
    exact (k1.keeps_trans kg).keeps_trans (Keeps.of_eq rfl rfl)
  · rw [extCall_trace, hb, List.append_assoc]

theorem phases_shadowCalls (ms : List (Option Handle)) (n : Nat) :
    phases (shadowCalls ms n) = List.replicate (2 * n + 1) Phase.shadow := by
  induction n with
  | zero => simp [shadowCalls, phase]
  | succ n ih =>
    have h2 : phases (depthPassCalls ms) = List.replicate 2 Phase.shadow := by
      simp [depthPassCalls, phase, List.replicate]
    have : 2 * (n + 1) + 1 = 2 + (2 * n + 1) := by omega
    rw [shadowCalls_succ, phases_append, ih, h2, this]
    exact (List.replicate_add ..).symm

theorem noInit_shadowCalls (ms : List (Option Handle)) (n : Nat) :
    noInit (shadowCalls ms n) = true := by
  induction n with
  | zero => simp [shadowCalls, isResizeCall, initSize, lensOf]
  | succ n ih =>
    rw [shadowCalls_succ, noInit_append, ih]
    simp [depthPassCalls, isResizeCall, initSize, lensOf]

theorem countP_meshCalls (ms : List (Option Handle)) :
    (meshCalls ms).countP isRenderSceneNoShaders = 0 := by
  induction ms with
  | nil => rfl
  | cons m ms ih =>
    cases m with
    | none => simpa [meshCalls] using ih
    | some h => simpa [meshCalls, isRenderSceneNoShaders] using ih

theorem countP_shadowCalls (ms : List (Option Handle)) (n : Nat) :
    (shadowCalls ms n).countP isRenderSceneNoShaders = n := by
  induction n with
  | zero => simp [shadowCalls, isRenderSceneNoShaders]
  | succ n ih =>
    rw [shadowCalls_succ, List.countP_append, ih]
    simp [depthPassCalls, isRenderSceneNoShaders, countP_meshCalls]
    omega

theorem phase_of_isRenderSceneNoShaders (c : Call) (h : isRenderSceneNoShaders c = true) :
    phase c = some Phase.shadow := by
  unfold isRenderSceneNoShaders at h
  split at h
  · rfl
  · exact absurd h (by simp)

theorem phase_of_isPrepareNextShadowLight (c : Call) (h : isPrepareNextShadowLight c = true) :
    phase c = some Phase.shadow := by
  unfold isPrepareNextShadowLight at h
  split at h
  · rfl
  · exact absurd h (by simp)

theorem mem_phases_of_mem (c : Call) (p : Phase) (t : List Call) (hc : c ∈ t)
    (hp : phase c = some p) : p ∈ phases t := by
  simp only [phases, List.mem_filterMap]
  exact ⟨c, hc, hp⟩

theorem storeStates_spec (s : State W) :
    (DeferredShaderApp.storeStates s).app = s.app ∧
      (DeferredShaderApp.storeStates s).scene = s.scene ∧
      (DeferredShaderApp.storeStates s).trace =
        s.trace ++ [Call.ctx (.RSGetViewports s.ctx.viewport),
          Call.ctx (.RSGetState s.ctx.rsState)] := by
  simp [DeferredShaderApp.storeStates, CtxCall.apply]

theorem restoreStates_spec (vp : D3D11_VIEWPORT) (rs : Option Handle) (s : State W) :
    (DeferredShaderApp.restoreStates vp rs s).app = s.app ∧
      (DeferredShaderApp.restoreStates vp rs s).scene = s.scene ∧
      (DeferredShaderApp.restoreStates vp rs s).trace = s.trace ++ restoreCalls vp rs ∧
      (DeferredShaderApp.restoreStates vp rs s).ctx.viewport = vp ∧
      (DeferredShaderApp.restoreStates vp rs s).ctx.rsState = rs := by
  simp [DeferredShaderApp.restoreStates, restoreCalls, CtxCall.apply]

theorem generateShadowMaps_spec (E : Env W) (n fuel : Nat) (s : State W)
    (hs : SchedulerRuns E n (DeferredShaderApp.storeStates s)) (hf : n < fuel) :
    ∃ s1, DeferredShaderApp.shadowLoop E fuel (DeferredShaderApp.storeStates s) = .ok s1 ∧
      DeferredShaderApp.generateShadowMaps E fuel s =
        .ok (DeferredShaderApp.restoreStates s.ctx.viewport s.ctx.rsState s1) ∧
      s1.app = s.app ∧ s1.scene = s.scene ∧
      s1.trace = s.trace ++ ([Call.ctx (.RSGetViewports s.ctx.viewport),
          Call.ctx (.RSGetState s.ctx.rsState)] ++ shadowCalls s.scene.mMeshes n) := by
  obtain ⟨a1, a2, a3⟩ := storeStates_spec s
  obtain ⟨s1, h1, h2, h3, h4⟩ := shadowLoop_spec E n fuel _ hs hf
  refine ⟨s1, h1, by simp [DeferredShaderApp.generateShadowMaps, h1], h2.trans a1,
    h3.trans a2, ?_⟩
  rw [h4, a3, a2, List.append_assoc]

theorem Render_spec (E : Env W) (gui : GuiInput) (n fuel : Nat) (s : State W)
    (hi : Initialised s) (hs : SchedulerRuns E n (DeferredShaderApp.storeStates s))
    (hf : n < fuel) :
    ∃ s' body d, DeferredShaderApp.Render E gui fuel s = .ok s' ∧ Keeps s s' ∧
      s'.trace = s.trace ++ ([Call.ctx (.RSGetViewports s.ctx.viewport),
          Call.ctx (.RSGetState s.ctx.rsState)] ++ shadowCalls s.scene.mMeshes n ++
          restoreCalls s.ctx.viewport s.ctx.rsState ++ (body ++ [Call.host .Present])) ∧
      phases body = [Phase.preRender, Phase.sceneRender, Phase.postRender,
        Phase.prepareForUnpack, Phase.doLighting] ++ List.replicate d Phase.debug ∧
      noInit body = true := by
  obtain ⟨s1, _, h2, h3, h4, h5⟩ := generateShadowMaps_spec E n fuel s hs hf
  obtain ⟨r1, r2, r3, _, _⟩ := restoreStates_spec s.ctx.viewport s.ctx.rsState s1
  have hi' : Initialised (DeferredShaderApp.restoreStates s.ctx.viewport s.ctx.rsState s1) := by
    unfold Initialised
    rw [r1, r2, h3, h4]
    exact hi
  obtain ⟨s', body, d, g1, g2, g3, g4, g5⟩ := renderFrame_spec E gui _ hi'
  refine ⟨s', body, d, by simp [DeferredShaderApp.Render, h2, g1, bind, Except.bind], ?_, ?_,
    g4, g5⟩
  · exact (Keeps.of_eq (r1.trans h3) (r2.trans h4)).keeps_trans g2
  · rw [g3, r3, h5]
    simp only [List.append_assoc]

/-! ## What a returning `Render` implies -/

theorem renderMeshes_ok (E : Env W) (ms : List (Option Handle)) :
    ∀ s s' : State W, SceneManager.renderMeshes E ms s = .ok s' → ∀ m ∈ ms, m ≠ none := by
  induction ms with
  | nil => intro _ _ _ m hm; simp at hm
  | cons a ms ih =>
    intro s s' h m hm
    cases a with
    | none => simp [SceneManager.renderMeshes] at h
    | some a =>
      simp only [SceneManager.renderMeshes] at h
      rcases List.mem_cons.mp hm with rfl | hm'
      · simp
      · exact ih _ _ h m hm'

theorem SceneManager_Render_ok (E : Env W) (s s' : State W)
    (h : SceneManager.Render E s = .ok s') :
    s.scene.mCamera ≠ none ∧ ∀ m ∈ s.scene.mMeshes, m ≠ none := by
  cases hc : s.scene.mCamera with
  | none => simp [SceneManager.Render, deref, hc, bind, Except.bind] at h
  | some cam =>
    simp only [SceneManager.Render, deref, enter_scene, hc, bind, Except.bind] at h
    exact ⟨by simp, by simpa using renderMeshes_ok E _ _ _ h⟩

theorem renderFrame_ok (E : Env W) (gui : GuiInput) (s s' : State W)
    (h : DeferredShaderApp.renderFrame E gui s = .ok s') : Initialised s := by
  cases hc : s.app.mCamera with
  | none => simp [DeferredShaderApp.renderFrame, deref, hc, bind, Except.bind] at h
  | some cam =>
    simp only [DeferredShaderApp.renderFrame, bind, Except.bind, deref, ctxCall_app, hc,
      extCall_app] at h
    generalize hP : State.extCall E (Call.gbuffer GBufferCall.PreRender) _ = P at h
    have kP : P.scene = s.scene := by subst hP; simp
    cases hR : SceneManager.Render E P with
    | error e => simp [hR] at h
    | ok v =>
      obtain ⟨a, b⟩ := SceneManager_Render_ok E P v hR
      exact ⟨by simp [hc], kP ▸ a, kP ▸ b⟩

theorem shadowLoop_ok (E : Env W) :
    ∀ (fuel : Nat) (s s' : State W), DeferredShaderApp.shadowLoop E fuel s = .ok s' →
      ∃ n, n < fuel ∧ SchedulerRuns E n s := by
  intro fuel
  induction fuel with
  | zero => intro s s' h; simp [DeferredShaderApp.shadowLoop] at h
  | succ k ih =>
    intro s s' h
    simp only [DeferredShaderApp.shadowLoop] at h
    cases hr : E.PrepareNextShadowLight s.world s.ctx with
    | false => exact ⟨0, by omega, hr⟩
    | true =>
      simp only [hr, if_true] at h
      cases hR : SceneManager.RenderSceneNoShaders E
          (s.extCall E (.light (.PrepareNextShadowLight true))) with
      | error e => simp [hR] at h
      | ok v =>
        simp only [hR] at h
        obtain ⟨n, hn, hs⟩ := ih v s' h
        exact ⟨n + 1, by omega, hr, v, hR, hs⟩

theorem Render_ok (E : Env W) (gui : GuiInput) (fuel : Nat) (s s' : State W)
    (h : DeferredShaderApp.Render E gui fuel s = .ok s') :
    Initialised s ∧ ∃ n, n < fuel ∧ SchedulerRuns E n (DeferredShaderApp.storeStates s) := by
  simp only [DeferredShaderApp.Render, DeferredShaderApp.generateShadowMaps, bind,
    Except.bind] at h
  cases hL : DeferredShaderApp.shadowLoop E fuel (DeferredShaderApp.storeStates s) with
  | error e => simp [hL] at h
  | ok s1 =>
    simp only [hL] at h
    obtain ⟨n, hn, hs⟩ := shadowLoop_ok E fuel _ _ hL
    obtain ⟨a1, a2, _⟩ := storeStates_spec s
    obtain ⟨t, ht, h2, h3, _⟩ := shadowLoop_spec E n fuel _ hs hn
    have e : t = s1 := by simpa [hL] using ht.symm
    subst e
    obtain ⟨r1, r2, _⟩ := restoreStates_spec s.ctx.viewport s.ctx.rsState t
    have hi := renderFrame_ok E gui _ _ h
    unfold Initialised at hi ⊢
    rw [r1, r2, h2, h3, a1, a2] at hi
    exact ⟨hi, n, hn, hs⟩

theorem Render_quiet (E : Env W) (gui : GuiInput) (fuel : Nat) (s s' : State W)
    (h : DeferredShaderApp.Render E gui fuel s = .ok s') :
    Keeps s s' ∧ ∃ ph, Emits s s' ph := by
  obtain ⟨hi, n, hn, hs⟩ := Render_ok E gui fuel s s' h
  obtain ⟨t, body, d, h1, h2, h3, _, h5⟩ := Render_spec E gui n fuel s hi hs hn
  have e : t = s' := by simpa [h] using h1.symm
  subst e
  refine ⟨h2, _, _, h3, rfl, ?_⟩
  simp [noInit_shadowCalls, h5, restoreCalls, isResizeCall, initSize, lensOf]

/-! ## `Update` and `OnResize` -/

theorem EmitsAll.all_refl (p : Call → Bool) (s : State W) : EmitsAll p s s := ⟨[], by simp, rfl⟩

theorem EmitsAll.ext (E : Env W) {p : Call → Bool} {s t : State W} (c : Call)
    (hp : p c = true) (h : EmitsAll p s t) : EmitsAll p s (t.extCall E c) := by
  obtain ⟨calls, h1, h2⟩ := h
  exact ⟨calls ++ [c], by simp [h1], by simp [h2, hp]⟩

theorem EmitsAll.ite_ext (E : Env W) {p : Call → Bool} {s t : State W} (b : Prop)
    [Decidable b] (c : Call) (hp : p c = true) (h : EmitsAll p s t) :
    EmitsAll p s (if b then t.extCall E c else t) := by
  split_ifs
  · exact h.ext E c hp
  · exact h

theorem EmitsAll.ite_app {p : Call → Bool} {s t : State W} (b : Prop) [Decidable b]
    (f : DeferredShaderApp → DeferredShaderApp) (h : EmitsAll p s t) :
    EmitsAll p s (if b then t.setApp f else t) := by
  split_ifs
  · exact h
  · exact h

theorem EmitsAll.mono {p q : Call → Bool} {s s' : State W} (hpq : ∀ c, p c = true → q c = true)
    (h : EmitsAll p s s') : EmitsAll q s s' := by
  obtain ⟨calls, h1, h2⟩ := h
  refine ⟨calls, h1, ?_⟩
  rw [List.all_eq_true] at h2 ⊢
  exact fun c hc => hpq c (h2 c hc)

theorem EmitsAll.emits {s s' : State W} (h : EmitsAll (fun c => !isResizeCall c) s s') :
    ∃ ph, Emits s s' ph := by
  obtain ⟨calls, h1, h2⟩ := h
  exact ⟨_, calls, h1, rfl, h2⟩

theorem Keeps.keeps_ite_ext (E : Env W) {s t : State W} (b : Prop) [Decidable b] (c : Call)
    (h : Keeps s t) : Keeps s (if b then t.extCall E c else t) := by
  split_ifs
  · exact h.keeps_trans (Keeps.of_eq rfl rfl)
  · exact h

theorem Keeps.keeps_ite_app {s t : State W} (b : Prop) [Decidable b]
    (f : DeferredShaderApp → DeferredShaderApp) (hf : KeepsApp f) (h : Keeps s t) :
    Keeps s (if b then t.setApp f else t) := by
  split_ifs
  · exact h.keeps_trans (Keeps.keeps_setApp _ _ hf)
  · exact h

theorem Update_trace_aux (E : Env W) (p : Call → Bool) (s X : State W) (a b c last : Call)
    (h : EmitsAll p (((s.extCall E a).extCall E b).extCall E c) X) :
    ∃ mid, (X.extCall E last).trace = s.trace ++ ([a, b, c] ++ mid ++ [last]) ∧
      mid.all p = true := by
  obtain ⟨mid, h1, h2⟩ := h
  exact ⟨mid, by simp [h1], h2⟩

theorem Update_spec (E : Env W) (keys : KeyInput) (dt : ℚ) (s : State W) (cam : Handle)
    (hc : s.app.mCamera = some cam) :
    ∃ s', DeferredShaderApp.Update E keys dt s = .ok s' ∧ Keeps s s' ∧
      ∃ mid, s'.trace = s.trace ++
        ([Call.light (.SetAmbient s.app.mAmbientLowerColor s.app.mAmbientUpperColor),
          Call.light (.SetDirectional s.app.mDirLightDir s.app.mDirLightColor
            s.app.mDirCastShadows s.app.mAntiFlickerOn),
          Call.camera .UpdateViewMatrix] ++ mid ++ [Call.light .ClearLights]) ∧
        mid.all isUpdateCall = true := by
  refine ⟨_, by simp [DeferredShaderApp.Update, deref, hc, bind, Except.bind, pure,
    Except.pure]; rfl, ?_, ?_⟩
  · refine Keeps.keeps_trans ?_ (Keeps.of_eq rfl rfl)
    refine Keeps.keeps_ite_app _ _ (fun a => ⟨rfl, rfl, rfl⟩) ?_
    refine Keeps.keeps_ite_app _ _ (fun a => ⟨rfl, rfl, rfl⟩) ?_
    refine Keeps.keeps_ite_app _ _ (fun a => ⟨rfl, rfl, rfl⟩) ?_
    refine Keeps.keeps_ite_app _ _ (fun a => ⟨rfl, rfl, rfl⟩) ?_
    refine Keeps.keeps_ite_app _ _ (fun a => ⟨rfl, rfl, rfl⟩) ?_
    refine Keeps.keeps_ite_ext E _ _ ?_
    refine Keeps.keeps_ite_ext E _ _ ?_
    refine Keeps.keeps_ite_app _ _ (fun a => ⟨rfl, rfl, rfl⟩) ?_
    refine Keeps.keeps_ite_ext E _ _ ?_
    refine Keeps.keeps_ite_app _ _ (fun a => ⟨rfl, rfl, rfl⟩) ?_
    refine Keeps.keeps_ite_app _ _ (fun a => ⟨rfl, rfl, rfl⟩) ?_
    exact Keeps.of_eq rfl rfl
  · refine Update_trace_aux E isUpdateCall s _ _ _ _ _ ?_
    refine EmitsAll.ite_app _ _ ?_
    refine EmitsAll.ite_app _ _ ?_
    refine EmitsAll.ite_app _ _ ?_
    refine EmitsAll.ite_app _ _ ?_
    refine EmitsAll.ite_app _ _ ?_
    refine EmitsAll.ite_ext E _ _ rfl ?_
    refine EmitsAll.ite_ext E _ _ rfl ?_
    refine EmitsAll.ite_app _ _ ?_
    refine EmitsAll.ite_ext E _ _ rfl ?_
    refine EmitsAll.ite_app _ _ ?_
    refine EmitsAll.ite_app _ _ ?_
    exact EmitsAll.all_refl _ _

theorem Update_emitsAll (s s' : State W) (mid : List Call)
    (h : s'.trace = s.trace ++
        ([Call.light (.SetAmbient s.app.mAmbientLowerColor s.app.mAmbientUpperColor),
          Call.light (.SetDirectional s.app.mDirLightDir s.app.mDirLightColor
            s.app.mDirCastShadows s.app.mAntiFlickerOn),
          Call.camera .UpdateViewMatrix] ++ mid ++ [Call.light .ClearLights]))
    (hm : mid.all isUpdateCall = true) : EmitsAll isUpdateCall s s' := by
  refine ⟨_, h, ?_⟩
  simp only [List.all_append, hm, Bool.and_true, Bool.true_and]
  rfl

theorem OnResize_spec (E : Env W) (s : State W) (cam : Handle)
    (hc : s.app.mCamera = some cam) :
    ∃ s', DeferredShaderApp.OnResize E s = .ok s' ∧ s'.app = s.app ∧ s'.scene = s.scene ∧
      s'.trace = s.trace ++ [Call.host .BaseOnResize,
        Call.gbuffer (.Init s.app.mClientWidth s.app.mClientHeight
          (E.GBufferInit s.app.mClientWidth s.app.mClientHeight
            (E.effect (.host .BaseOnResize) s.world s.ctx).1)),
        Call.camera (.SetLens
          ⟨0.25, E.AspectRatio s.app.mClientWidth s.app.mClientHeight, 1.0, 1000.0⟩),
        Call.camera .UpdateViewMatrix] := by
  refine ⟨_, by simp [DeferredShaderApp.OnResize, deref, hc, bind, Except.bind, pure,
    Except.pure]; rfl, ?_, ?_, ?_⟩
  · rfl
  · rfl
  · simp [State.extCall]

theorem OnResize_ok (E : Env W) (s s' : State W) (h : DeferredShaderApp.OnResize E s = .ok s') :
    ∃ cam, s.app.mCamera = some cam := by
  cases hc : s.app.mCamera with
  | none => simp [DeferredShaderApp.OnResize, deref, hc, bind, Except.bind] at h
  | some cam => exact ⟨cam, rfl⟩

theorem Update_ok (E : Env W) (keys : KeyInput) (dt : ℚ) (s s' : State W)
    (h : DeferredShaderApp.Update E keys dt s = .ok s') : ∃ cam, s.app.mCamera = some cam := by
  cases hc : s.app.mCamera with
  | none => simp [DeferredShaderApp.Update, deref, hc, bind, Except.bind] at h
  | some cam => exact ⟨cam, rfl⟩

theorem isUpdateCall_not_resize (c : Call) (h : isUpdateCall c = true) :
    (!isResizeCall c) = true := by
  cases c with
  | light x => cases x <;> simp_all [isUpdateCall, isResizeCall, initSize, lensOf]
  | camera x => cases x <;> simp_all [isUpdateCall, isResizeCall, initSize, lensOf]
  | host x => cases x <;> simp_all [isUpdateCall, isResizeCall, initSize, lensOf]
  | ctx x => simp [isUpdateCall] at h
  | gbuffer x => simp [isUpdateCall] at h
  | scene x => simp [isUpdateCall] at h
  | device x => simp [isUpdateCall] at h

theorem isUpdateCall_not_add (c : Call) (h : isUpdateCall c = true) :
    (!isAddLight c) = true := by
  cases c with
  | light x => cases x <;> simp_all [isUpdateCall, isAddLight]
  | camera x => simp [isAddLight]
  | host x => simp [isAddLight]
  | ctx x => simp [isAddLight]
  | gbuffer x => simp [isAddLight]
  | scene x => simp [isAddLight]
  | device x => simp [isAddLight]

theorem step_synced (E : Env W) (fuel : Nat) (e : Event) (s s' : State W)
    (h : step E fuel e s = .ok s') :
    (SizeSynced E s → SizeSynced E s') ∧ (∀ w h, e = Event.Resize w h → SizeSynced E s') := by
  cases e with
  | Resize w ht =>
    simp only [step] at h
    obtain ⟨cam, hc⟩ := OnResize_ok E _ _ h
    obtain ⟨t, h1, h2, _, h4⟩ := OnResize_spec E _ cam hc
    have e : t = s' := by simpa [h] using h1.symm
    subst e
    have : SizeSynced E t := by
      unfold SizeSynced
      rw [h4, h2]
      simp [lastGBufferInit, lastSetLens, initSize, lensOf]
    exact ⟨fun _ => this, fun _ _ _ => this⟩
  | Update keys dt =>
    simp only [step] at h
    obtain ⟨cam, hc⟩ := Update_ok E keys dt _ _ h
    obtain ⟨t, h1, h2, mid, h3, h4⟩ := Update_spec E keys dt s cam hc
    have e : t = s' := by simpa [h] using h1.symm
    subst e
    obtain ⟨ph, hph⟩ :=
      ((Update_emitsAll s t mid h3 h4).mono isUpdateCall_not_resize).emits
    exact ⟨fun hs => hs.synced_step E h2 hph, fun _ _ he => by cases he⟩
  | Render gui =>
    simp only [step] at h
    obtain ⟨h2, ph, hph⟩ := Render_quiet E gui fuel s s' h
    exact ⟨fun hs => hs.synced_step E h2 hph, fun _ _ he => by cases he⟩

theorem run_synced (E : Env W) (fuel : Nat) (evs : List Event) :
    ∀ s s' : State W, SizeSynced E s → run E fuel evs s = .ok s' → SizeSynced E s' := by
  induction evs with
  | nil =>
    intro s s' hs h
    simp only [run, Except.ok.injEq] at h
    exact h ▸ hs
  | cons e es ih =>
    intro s s' hs h
    simp only [run] at h
    cases hst : step E fuel e s with
    | error f => simp [hst] at h
    | ok t =>
      simp only [hst] at h
      exact ih t s' ((step_synced E fuel e s t hst).1 hs) h

theorem run_append (E : Env W) (fuel : Nat) (a b : List Event) :
    ∀ s s' : State W, run E fuel (a ++ b) s = .ok s' →
      ∃ t, run E fuel a s = .ok t ∧ run E fuel b t = .ok s' := by
  induction a with
  | nil => intro s s' h; exact ⟨s, rfl, h⟩
  | cons e es ih =>
    intro s s' h
    simp only [List.cons_append, run] at h ⊢
    cases hst : step E fuel e s with
    | error f => simp [hst] at h
    | ok t =>
      simp only [hst] at h ⊢
      exact ih t s' h

/-! ## Claims on `OnResize` -/

/-- C4: every `OnResize` calls `GBuffer::Init` with the current client width and height and
`SetLens` with the current aspect ratio; and in every sequence of resize, update and render
events, every `Render` that comes after a resize starts in a state where the size last passed
to `GBuffer::Init` is the current client size and the lens last set has the current aspect
ratio. -/
theorem C4_resize_resyncs (E : Env W) (fuel : Nat) (s : State W) :
    (∀ cam, s.app.mCamera = some cam →
      ∃ s', DeferredShaderApp.OnResize E s = .ok s' ∧ s'.app = s.app ∧
        s'.trace = s.trace ++ [Call.host .BaseOnResize,
          Call.gbuffer (.Init s.app.mClientWidth s.app.mClientHeight
            (E.GBufferInit s.app.mClientWidth s.app.mClientHeight
              (E.effect (.host .BaseOnResize) s.world s.ctx).1)),
          Call.camera (.SetLens
            ⟨0.25, E.AspectRatio s.app.mClientWidth s.app.mClientHeight, 1.0, 1000.0⟩),
          Call.camera .UpdateViewMatrix]) ∧
    (∀ w h before gui after s',
      run E fuel (Event.Resize w h :: before ++ Event.Render gui :: after) s = .ok s' →
      ∃ t, run E fuel (Event.Resize w h :: before) s = .ok t ∧
        lastGBufferInit t.trace = some (t.app.mClientWidth, t.app.mClientHeight) ∧
        lastSetLens t.trace =
          some ⟨0.25, E.AspectRatio t.app.mClientWidth t.app.mClientHeight, 1.0, 1000.0⟩) := by
  constructor
  · intro cam hc
    obtain ⟨s', h1, h2, _, h4⟩ := OnResize_spec E s cam hc
    exact ⟨s', h1, h2, h4⟩
  · intro w h before gui after s' hrun
    obtain ⟨t, ht, _⟩ := run_append E fuel (Event.Resize w h :: before) _ s s' hrun
    refine ⟨t, ht, ?_⟩
    simp only [run] at ht
    cases hst : step E fuel (Event.Resize w h) s with
    | error f => simp [hst] at ht
    | ok u =>
      simp only [hst] at ht
      exact run_synced E fuel before u t ((step_synced E fuel _ s u hst).2 w h rfl) ht

/-- Witness of C4: a resize, a frame, a second resize, and the `Render` after it. -/
theorem C4_resize_resyncs_witness :
    ((sampleState 2).app.mCamera = some 3 ∧
      ∃ s', DeferredShaderApp.OnResize sampleEnv (sampleState 2) = .ok s' ∧
        s'.app = (sampleState 2).app ∧
        s'.trace = (sampleState 2).trace ++ [Call.host .BaseOnResize,
          Call.gbuffer (.Init (sampleState 2).app.mClientWidth (sampleState 2).app.mClientHeight
            (sampleEnv.GBufferInit (sampleState 2).app.mClientWidth
              (sampleState 2).app.mClientHeight
              (sampleEnv.effect (.host .BaseOnResize) (sampleState 2).world
                (sampleState 2).ctx).1)),
          Call.camera (.SetLens ⟨0.25, sampleEnv.AspectRatio (sampleState 2).app.mClientWidth
            (sampleState 2).app.mClientHeight, 1.0, 1000.0⟩),
          Call.camera .UpdateViewMatrix]) ∧
    ((∃ s', run sampleEnv 3 (Event.Resize 1280 720 ::
        [Event.Update noKeys 0.016, Event.Render idleGui, Event.Resize 640 480] ++
        Event.Render idleGui :: []) (sampleState 2) = .ok s') ∧
      ∃ t, run sampleEnv 3 (Event.Resize 1280 720 ::
          [Event.Update noKeys 0.016, Event.Render idleGui, Event.Resize 640 480])
          (sampleState 2) = .ok t ∧
        lastGBufferInit t.trace = some (t.app.mClientWidth, t.app.mClientHeight) ∧
        lastSetLens t.trace = some ⟨0.25,
          sampleEnv.AspectRatio t.app.mClientWidth t.app.mClientHeight, 1.0, 1000.0⟩) :=
  ⟨⟨rfl, (C4_resize_resyncs sampleEnv 3 (sampleState 2)).1 3 rfl⟩,
    ⟨⟨_, rfl⟩, (C4_resize_resyncs sampleEnv 3 (sampleState 2)).2 1280 720
      [Event.Update noKeys 0.016, Event.Render idleGui, Event.Resize 640 480] idleGui [] _
      rfl⟩⟩

/-! ## Claims on `Render` -/

theorem sampleState_initialised (w : Nat) : Initialised (sampleState w) := by
  simp [Initialised, sampleState]

theorem sampleState_scheduler :
    SchedulerRuns sampleEnv 2 (DeferredShaderApp.storeStates (sampleState 2)) :=
  ⟨rfl, _, rfl, rfl, _, rfl, rfl⟩

theorem frame_phases_pairwise (a d : Nat) :
    (List.replicate a Phase.shadow ++ [Phase.preRender, Phase.sceneRender, Phase.postRender,
      Phase.prepareForUnpack, Phase.doLighting] ++ List.replicate d Phase.debug ++
      [Phase.present]).Pairwise (fun p q => p.rank ≤ q.rank) := by
  simp only [List.pairwise_append, List.pairwise_cons, List.mem_append, List.mem_cons,
    List.mem_replicate, List.mem_singleton, List.pairwise_replicate]
  simp [Phase.rank]
  refine ⟨fun p h1 h2 => ?_, fun p h => ?_⟩ <;> cases p <;> simp_all

theorem frame_phases_count (a d : Nat) :
    ∀ p ∈ [Phase.preRender, Phase.sceneRender, Phase.postRender, Phase.prepareForUnpack,
        Phase.doLighting, Phase.present],
      (List.replicate a Phase.shadow ++ [Phase.preRender, Phase.sceneRender, Phase.postRender,
        Phase.prepareForUnpack, Phase.doLighting] ++ List.replicate d Phase.debug ++
        [Phase.present]).count p = 1 := by
  intro p hp
  simp only [List.mem_cons, List.mem_singleton, List.not_mem_nil, or_false] at hp
  rcases hp with rfl | rfl | rfl | rfl | rfl | rfl <;>
    simp [List.count_append, List.count_replicate, List.count_cons]

theorem countP_eq_zero_of_phases (p : Call → Bool) (t : List Call)
    (hp : ∀ c, p c = true → phase c = some Phase.shadow) (ht : Phase.shadow ∉ phases t) :
    t.countP p = 0 := by
  rw [List.countP_eq_zero]
  intro c hc hpc
  exact ht (mem_phases_of_mem c _ t hc (hp c hpc))

/-- C1: the calls of one `Render` come in the order shadow passes, `PreRender`,
`SceneManager::Render`, `PostRender`, `PrepareForUnpack`, `DoLighting`, debug views, `Present`.
For an initialised application whose scheduler answers `true` `n` times and then `false`,
`Render` returns, the phases of its calls are `2 n + 1` shadow calls, then the five pack and
unpack calls once each, then some debug views, then `Present`, which is the last call; so the
phases never step back and each of the six calls occurs exactly once. -/
theorem C1_render_phases_in_order (E : Env W) (gui : GuiInput) (n fuel : Nat) (s : State W)
    (hi : Initialised s) (hs : SchedulerRuns E n (DeferredShaderApp.storeStates s))
    (hf : n < fuel) :
    ∃ s' calls d, DeferredShaderApp.Render E gui fuel s = .ok s' ∧
      s'.trace = s.trace ++ calls ∧
      phases calls = List.replicate (2 * n + 1) Phase.shadow ++
        [Phase.preRender, Phase.sceneRender, Phase.postRender, Phase.prepareForUnpack,
          Phase.doLighting] ++ List.replicate d Phase.debug ++ [Phase.present] ∧
      calls.getLast? = some (Call.host .Present) ∧
      (phases calls).Pairwise (fun p q => p.rank ≤ q.rank) ∧
      ∀ p ∈ [Phase.preRender, Phase.sceneRender, Phase.postRender, Phase.prepareForUnpack,
          Phase.doLighting, Phase.present], (phases calls).count p = 1 := by
  obtain ⟨s', body, d, h1, _, h3, h4, _⟩ := Render_spec E gui n fuel s hi hs hf
  have hph : phases ([Call.ctx (.RSGetViewports s.ctx.viewport),
      Call.ctx (.RSGetState s.ctx.rsState)] ++ shadowCalls s.scene.mMeshes n ++
      restoreCalls s.ctx.viewport s.ctx.rsState ++ (body ++ [Call.host .Present])) =
      List.replicate (2 * n + 1) Phase.shadow ++
        [Phase.preRender, Phase.sceneRender, Phase.postRender, Phase.prepareForUnpack,
          Phase.doLighting] ++ List.replicate d Phase.debug ++ [Phase.present] := by
    simp [phases_shadowCalls, h4, restoreCalls, phase]
  refine ⟨s', _, d, h1, h3, hph, ?_, ?_, ?_⟩
  · rw [← List.append_assoc, List.getLast?_concat]
  · rw [hph]; exact frame_phases_pairwise _ _
  · rw [hph]; exact frame_phases_count _ _

/-- Witness of C1: the sample application with two shadow passes to come. -/
theorem C1_render_phases_in_order_witness :
    Initialised (sampleState 2) ∧
    SchedulerRuns sampleEnv 2 (DeferredShaderApp.storeStates (sampleState 2)) ∧ 2 < 3 ∧
    ∃ s' calls d, DeferredShaderApp.Render sampleEnv idleGui 3 (sampleState 2) = .ok s' ∧
      s'.trace = (sampleState 2).trace ++ calls ∧
      phases calls = List.replicate (2 * 2 + 1) Phase.shadow ++
        [Phase.preRender, Phase.sceneRender, Phase.postRender, Phase.prepareForUnpack,
          Phase.doLighting] ++ List.replicate d Phase.debug ++ [Phase.present] ∧
      calls.getLast? = some (Call.host .Present) ∧
      (phases calls).Pairwise (fun p q => p.rank ≤ q.rank) ∧
      ∀ p ∈ [Phase.preRender, Phase.sceneRender, Phase.postRender, Phase.prepareForUnpack,
          Phase.doLighting, Phase.present], (phases calls).count p = 1 :=
  ⟨sampleState_initialised 2, sampleState_scheduler, by decide,
    C1_render_phases_in_order sampleEnv idleGui 2 3 (sampleState 2)
      (sampleState_initialised 2) sampleState_scheduler (by decide)⟩

/-- C2: the viewport and the rasterizer state that `Render` sets right after the shadow loop
are the ones it read before the loop.  When the scheduler answers `true` `n` times and then
`false`, the loop ends in some state `s1`; `Render` goes on from `s1` with the restore calls,
whose first two are `RSSetViewports` and `RSSetState` with the values read at entry, and after
them the pipeline state holds the entry viewport and rasterizer state again, whatever `s1`
held. -/
theorem C2_viewport_and_rasterizer_restored (E : Env W) (gui : GuiInput) (n fuel : Nat)
    (s : State W) (hs : SchedulerRuns E n (DeferredShaderApp.storeStates s)) (hf : n < fuel) :
    ∃ s1, DeferredShaderApp.shadowLoop E fuel (DeferredShaderApp.storeStates s) = .ok s1 ∧
      s1.trace = s.trace ++ ([Call.ctx (.RSGetViewports s.ctx.viewport),
        Call.ctx (.RSGetState s.ctx.rsState)] ++ shadowCalls s.scene.mMeshes n) ∧
      DeferredShaderApp.Render E gui fuel s = DeferredShaderApp.renderFrame E gui
        (DeferredShaderApp.restoreStates s.ctx.viewport s.ctx.rsState s1) ∧
      (DeferredShaderApp.restoreStates s.ctx.viewport s.ctx.rsState s1).trace =
        s1.trace ++ [Call.ctx (.RSSetViewports s.ctx.viewport),
          Call.ctx (.RSSetState s.ctx.rsState), Call.host (.Release s.ctx.rsState),
          Call.ctx (.VSSetShader none), Call.ctx (.GSSetShader none)] ∧
      (DeferredShaderApp.restoreStates s.ctx.viewport s.ctx.rsState s1).ctx.viewport =
        s.ctx.viewport ∧
      (DeferredShaderApp.restoreStates s.ctx.viewport s.ctx.rsState s1).ctx.rsState =
        s.ctx.rsState := by
  obtain ⟨s1, h1, h2, _, _, h5⟩ := generateShadowMaps_spec E n fuel s hs hf
  obtain ⟨_, _, r3, r4, r5⟩ := restoreStates_spec s.ctx.viewport s.ctx.rsState s1
  refine ⟨s1, h1, h5, ?_, r3, r4, r5⟩
  simp [DeferredShaderApp.Render, h2, bind, Except.bind]

/-- Witness of C2: in the sample application each prepared pass replaces the viewport and the
rasterizer state. -/
theorem C2_viewport_and_rasterizer_restored_witness :
    SchedulerRuns sampleEnv 2 (DeferredShaderApp.storeStates (sampleState 2)) ∧ 2 < 3 ∧
    ∃ s1, DeferredShaderApp.shadowLoop sampleEnv 3
        (DeferredShaderApp.storeStates (sampleState 2)) = .ok s1 ∧
      s1.trace = (sampleState 2).trace ++ ([Call.ctx (.RSGetViewports (sampleState 2).ctx.viewport),
        Call.ctx (.RSGetState (sampleState 2).ctx.rsState)] ++
        shadowCalls (sampleState 2).scene.mMeshes 2) ∧
      DeferredShaderApp.Render sampleEnv idleGui 3 (sampleState 2) =
        DeferredShaderApp.renderFrame sampleEnv idleGui
          (DeferredShaderApp.restoreStates (sampleState 2).ctx.viewport
            (sampleState 2).ctx.rsState s1) ∧
      (DeferredShaderApp.restoreStates (sampleState 2).ctx.viewport
          (sampleState 2).ctx.rsState s1).trace =
        s1.trace ++ [Call.ctx (.RSSetViewports (sampleState 2).ctx.viewport),
          Call.ctx (.RSSetState (sampleState 2).ctx.rsState),
          Call.host (.Release (sampleState 2).ctx.rsState),
          Call.ctx (.VSSetShader none), Call.ctx (.GSSetShader none)] ∧
      (DeferredShaderApp.restoreStates (sampleState 2).ctx.viewport
          (sampleState 2).ctx.rsState s1).ctx.viewport = (sampleState 2).ctx.viewport ∧
      (DeferredShaderApp.restoreStates (sampleState 2).ctx.viewport
          (sampleState 2).ctx.rsState s1).ctx.rsState = (sampleState 2).ctx.rsState :=
  ⟨sampleState_scheduler, by decide,
    C2_viewport_and_rasterizer_restored sampleEnv idleGui 2 3 (sampleState 2)
      sampleState_scheduler (by decide)⟩

/-- C3: when the scheduler answers `true` exactly `n` times and then `false`, the shadow loop
of `Render` ends, and its calls are `n` rounds, each a `true` answer followed at once by
`RenderSceneNoShaders` and its mesh draws, and then the `false` answer; these hold exactly `n`
calls of `RenderSceneNoShaders`.  In an initialised application `Render` then runs to its end
and the calls after the `false` answer hold no `RenderSceneNoShaders` and no further call of
the scheduler. -/
theorem C3_shadow_loop_draws (E : Env W) (gui : GuiInput) (n fuel : Nat) (s : State W)
    (hs : SchedulerRuns E n (DeferredShaderApp.storeStates s)) (hf : n < fuel) :
    (∃ s1, DeferredShaderApp.shadowLoop E fuel (DeferredShaderApp.storeStates s) = .ok s1 ∧
      s1.trace = (DeferredShaderApp.storeStates s).trace ++ shadowCalls s.scene.mMeshes n) ∧
    (shadowCalls s.scene.mMeshes n).countP isRenderSceneNoShaders = n ∧
    (Initialised s → ∃ s' rest, DeferredShaderApp.Render E gui fuel s = .ok s' ∧
      s'.trace = (DeferredShaderApp.storeStates s).trace ++ shadowCalls s.scene.mMeshes n ++
        rest ∧
      rest.countP isRenderSceneNoShaders = 0 ∧ rest.countP isPrepareNextShadowLight = 0) := by
  obtain ⟨a1, a2, a3⟩ := storeStates_spec s
  refine ⟨?_, countP_shadowCalls _ _, ?_⟩
  · obtain ⟨s1, h1, _, _, h4⟩ := shadowLoop_spec E n fuel _ hs hf
    exact ⟨s1, h1, by rw [h4, a2]⟩
  · intro hi
    obtain ⟨s', body, d, h1, _, h3, h4, _⟩ := Render_spec E gui n fuel s hi hs hf
    refine ⟨s', restoreCalls s.ctx.viewport s.ctx.rsState ++ (body ++ [Call.host .Present]),
      h1, ?_, ?_, ?_⟩
    · rw [h3, a3]; simp only [List.append_assoc]
    · apply countP_eq_zero_of_phases _ _ phase_of_isRenderSceneNoShaders
      simp [h4, restoreCalls, phase]
    · apply countP_eq_zero_of_phases _ _ phase_of_isPrepareNextShadowLight
      simp [h4, restoreCalls, phase]

/-- Witness of C3: the sample application with two shadow passes to come. -/
theorem C3_shadow_loop_draws_witness :
    SchedulerRuns sampleEnv 2 (DeferredShaderApp.storeStates (sampleState 2)) ∧ 2 < 3 ∧
    Initialised (sampleState 2) ∧
    (∃ s1, DeferredShaderApp.shadowLoop sampleEnv 3
        (DeferredShaderApp.storeStates (sampleState 2)) = .ok s1 ∧
      s1.trace = (DeferredShaderApp.storeStates (sampleState 2)).trace ++
        shadowCalls (sampleState 2).scene.mMeshes 2) ∧
    (shadowCalls (sampleState 2).scene.mMeshes 2).countP isRenderSceneNoShaders = 2 ∧
    ∃ s' rest, DeferredShaderApp.Render sampleEnv idleGui 3 (sampleState 2) = .ok s' ∧
      s'.trace = (DeferredShaderApp.storeStates (sampleState 2)).trace ++
        shadowCalls (sampleState 2).scene.mMeshes 2 ++ rest ∧
      rest.countP isRenderSceneNoShaders = 0 ∧ rest.countP isPrepareNextShadowLight = 0 :=
  have h := C3_shadow_loop_draws sampleEnv idleGui 2 3 (sampleState 2)
    sampleState_scheduler (by decide)
  ⟨sampleState_scheduler, by decide, sampleState_initialised 2, h.1, h.2.1,
    h.2.2 (sampleState_initialised 2)⟩

/-- C5 (code defect): `OnResize` drops the value `GBuffer::Init` returns.  With a `GBuffer::Init`
that reports failure, the resize still returns normally after going on to `SetLens` and
`UpdateViewMatrix`, and the next `Render` runs `PreRender`, `SceneManager::Render`,
`PostRender`, `PrepareForUnpack` and `DoLighting` on that GBuffer. -/
theorem C5_failed_gbuffer_init_is_dropped :
    ∃ s1 s2 calls,
      step failingGBufferEnv 3 (Event.Resize 1280 720) (sampleState 0) = .ok s1 ∧
      s1.trace = [Call.host .BaseOnResize, Call.gbuffer (.Init 1280 720 false),
        Call.camera (.SetLens ⟨0.25, failingGBufferEnv.AspectRatio 1280 720, 1.0, 1000.0⟩),
        Call.camera .UpdateViewMatrix] ∧
      step failingGBufferEnv 3 (Event.Render idleGui) s1 = .ok s2 ∧
      s2.trace = s1.trace ++ calls ∧
      phases calls = [Phase.shadow, Phase.preRender, Phase.sceneRender, Phase.postRender,
        Phase.prepareForUnpack, Phase.doLighting, Phase.present] :=
  ⟨_, _, _, rfl, rfl, rfl, rfl, rfl⟩

/-! ## Claims on start-up -/

/-- C6 (code defect): `SceneManager::Init` tests `CompileShader` with `FAILED`, which is false
for every `bool`.  When compiling `RenderSceneVS`, or `RenderScenePS`, returns `false` and leaves
the blob `NULL`, `Init` does not return `false`: it goes on to read the blob and dereferences
`NULL`.  The host's block for the same result returns `false`. -/
theorem C6_scene_init_misses_failed_compile :
    FAILED 0 = false ∧ FAILED 1 = false ∧
    SceneManager.Init failingSceneVSEnv (some 3) (constructed failingSceneVSEnv) =
      .error .nullDeref ∧
    SceneManager.Init failingScenePSEnv (some 3) (constructed failingScenePSEnv) =
      .error .nullDeref ∧
    (∃ s', DeferredShaderApp.shaderBlock failingSceneVSEnv "RenderSceneVS" true
        (fun h a => { a with mGBufferVisVertexShader := h }) (fun s => .ok (true, s))
        (constructed failingSceneVSEnv) = .ok (false, s')) :=
  ⟨rfl, rfl, rfl, rfl, _, rfl⟩

/-- C7 (code defect): the result of `mLightManager.Init` goes through `V_RETURN`.  With the
usual macro, a `false` result is not `FAILED`, and a failing `HRESULT` is returned as a
non-zero value, which is `true`; in both cases `Init` returns `true`, its last call being the
failed `LightManager::Init`, and `WinMain` enters `Run`.  A `false` result is missed even by a
macro that returns `false` when its argument `FAILED`. -/
theorem C7_light_manager_failure_returns_true :
    (∃ s', DeferredShaderApp.Init (lightInitEnv 0) (constructed (lightInitEnv 0)) =
        .ok (true, s') ∧ s'.trace.getLast? = some (Call.light (.Init 0))) ∧
    (∃ s', DeferredShaderApp.Init (lightInitEnv E_FAIL) (constructed (lightInitEnv E_FAIL)) =
        .ok (true, s') ∧ s'.trace.getLast? = some (Call.light (.Init E_FAIL))) ∧
    (∃ s', WinMain (lightInitEnv 0) sampleBase (0, 0) sampleCtx 0 = .ok s' ∧
        s'.trace.getLast? = some (Call.host .Run)) ∧
    (∃ s', WinMain (lightInitEnv E_FAIL) sampleBase (0, 0) sampleCtx 0 = .ok s' ∧
        s'.trace.getLast? = some (Call.host .Run)) ∧
    (∃ s', DeferredShaderApp.Init lightInitStrictEnv (constructed lightInitStrictEnv) =
        .ok (true, s') ∧ s'.trace.getLast? = some (Call.light (.Init 0))) :=
  ⟨⟨_, rfl, rfl⟩, ⟨_, rfl, rfl⟩, ⟨_, rfl, rfl⟩, ⟨_, rfl, rfl⟩, ⟨_, rfl, rfl⟩⟩

theorem Init_eq_blocks (E : Env W) (s : State W)
    (hb : E.BaseInit ((s.extCall E (.device .NewCamera)).world) = true) :
    ∃ t, t.trace = s.trace ++ initPrologue ∧
      DeferredShaderApp.Init E s = initBlocks E visShaders (DeferredShaderApp.initTail E) t := by
  refine ⟨_, ?_, by simp [DeferredShaderApp.Init, hb]; rfl⟩
  simp [initPrologue]

theorem shaderBlock_succeeds (E : Env W) (b : ShaderBlock)
    (k : State W → Except Fault (Bool × State W)) (s : State W) (h : b.Succeeds E) :
    ∃ t, DeferredShaderApp.shaderBlock E b.entry b.vertex b.store k s = k t ∧
      t.trace = s.trace ++ b.calls E := by
  obtain ⟨h1, blob, h2, h3⟩ := h
  cases hv : b.vertex <;>
    simp only [ShaderBlock.createResult, hv, Bool.false_eq_true, if_false, if_true] at h3
  · refine ⟨_, by simp [DeferredShaderApp.shaderBlock, h1, h2, h3, hv]; rfl, ?_⟩
    simp [ShaderBlock.calls, h2, ShaderBlock.target, ShaderBlock.createCall, hv]
  · refine ⟨_, by simp [DeferredShaderApp.shaderBlock, h1, h2, h3, hv]; rfl, ?_⟩
    simp [ShaderBlock.calls, h2, ShaderBlock.target, ShaderBlock.createCall, hv]

theorem shaderBlock_fails (E : Env W) (b : ShaderBlock)
    (k : State W → Except Fault (Bool × State W)) (s : State W) (h : b.Fails E) :
    ∃ t, DeferredShaderApp.shaderBlock E b.entry b.vertex b.store k s = .ok (false, t) ∧
      t.trace = s.trace ++ b.failCalls E := by
  by_cases h1 : (E.CompileShader b.entry).1 = 0
  · refine ⟨_, by simp [DeferredShaderApp.shaderBlock, h1]; rfl, ?_⟩
    cases hv : b.vertex <;> simp [ShaderBlock.failCalls, h1, ShaderBlock.target, hv]
  · rcases h with h | ⟨blob, h2, h3⟩
    · exact absurd h h1
    · cases hv : b.vertex <;>
        simp only [ShaderBlock.createResult, hv, Bool.false_eq_true, if_false, if_true] at h3
      · refine ⟨_, by simp [DeferredShaderApp.shaderBlock, h1, h2, h3, hv]; rfl, ?_⟩
        simp [ShaderBlock.failCalls, h1, ShaderBlock.calls, h2, ShaderBlock.target,
          ShaderBlock.createCall, hv]
      · refine ⟨_, by simp [DeferredShaderApp.shaderBlock, h1, h2, h3, hv]; rfl, ?_⟩
        simp [ShaderBlock.failCalls, h1, ShaderBlock.calls, h2, ShaderBlock.target,
          ShaderBlock.createCall, hv]

theorem initBlocks_fails (E : Env W) (pre : List ShaderBlock) (b : ShaderBlock)
    (post : List ShaderBlock) (k : State W → Except Fault (Bool × State W)) :
    ∀ s : State W, (∀ p ∈ pre, p.Succeeds E) → b.Fails E →
      ∃ t, initBlocks E (pre ++ b :: post) k s = .ok (false, t) ∧
        t.trace = s.trace ++ ((pre.map (ShaderBlock.calls E)).flatten ++ b.failCalls E) := by
  induction pre with
  | nil =>
    intro s _ hb
    obtain ⟨t, h1, h2⟩ := shaderBlock_fails E b (initBlocks E post k) s hb
    exact ⟨t, by simpa [initBlocks] using h1, by simpa using h2⟩
  | cons p ps ih =>
    intro s hp hb
    obtain ⟨u, h1, h2⟩ := shaderBlock_succeeds E p (initBlocks E (ps ++ b :: post) k) s
      (hp p (List.mem_cons_self _ _))
    obtain ⟨t, h3, h4⟩ := ih u (fun q hq => hp q (List.mem_cons_of_mem _ hq)) hb
    refine ⟨t, ?_, ?_⟩
    · rw [← h3, ← h1]; rfl
    · rw [h4, h2]; simp

theorem calls_no_later (E : Env W) (b : ShaderBlock) (c : Call) (hc : c ∈ b.calls E) :
    isAfterShaders c = false ∧ ∀ e, compiledEntry c = some e → e = b.entry := by
  unfold ShaderBlock.calls at hc
  split at hc
  · simp only [List.mem_cons, List.mem_singleton, List.not_mem_nil, or_false] at hc
    rcases hc with rfl | rfl | rfl
    · exact ⟨rfl, fun e he => by simpa [compiledEntry] using he.symm⟩
    · cases hv : b.vertex <;> simp [ShaderBlock.createCall, hv, isAfterShaders, compiledEntry]
    · exact ⟨rfl, fun e he => by simp [compiledEntry] at he⟩
  · simp at hc

theorem failCalls_no_later (E : Env W) (b : ShaderBlock) (c : Call) (hc : c ∈ b.failCalls E) :
    isAfterShaders c = false ∧ ∀ e, compiledEntry c = some e → e = b.entry := by
  unfold ShaderBlock.failCalls at hc
  split at hc
  · simp only [List.mem_cons, List.mem_singleton, List.not_mem_nil, or_false] at hc
    rcases hc with rfl | rfl
    · exact ⟨rfl, fun e he => by simpa [compiledEntry] using he.symm⟩
    · exact ⟨rfl, fun e he => by simp [compiledEntry] at he⟩
  · exact calls_no_later E b c hc

theorem visShaders_nodup : (visShaders.map ShaderBlock.entry).Nodup := by
  decide

/-- C8: when one of the seven shader blocks of `DeferredShaderApp::Init` fails, at its compile
or at its creation call, after the base class initialised and the blocks before it succeeded,
`Init` returns `false` at that point: its calls are the prologue, the calls of the earlier
blocks, and the calls of the failing block up to the failure.  None of them is a sampler
creation, a camera call, a scene manager or light manager call, and none compiles an entry
point of a later block. -/
theorem C8_shader_failure_stops_init (E : Env W) (s : State W) (pre : List ShaderBlock)
    (b : ShaderBlock) (post : List ShaderBlock) (hsplit : visShaders = pre ++ b :: post)
    (hbase : E.BaseInit ((s.extCall E (.device .NewCamera)).world) = true)
    (hpre : ∀ p ∈ pre, p.Succeeds E) (hb : b.Fails E) :
    ∃ s', DeferredShaderApp.Init E s = .ok (false, s') ∧
      s'.trace = s.trace ++
        (initPrologue ++ (pre.map (ShaderBlock.calls E)).flatten ++ b.failCalls E) ∧
      (∀ c ∈ initPrologue ++ (pre.map (ShaderBlock.calls E)).flatten ++ b.failCalls E,
        isAfterShaders c = false ∧ ∀ q ∈ post, compiledEntry c ≠ some q.entry) := by
  obtain ⟨t, h1, h2⟩ := Init_eq_blocks E s hbase
  obtain ⟨s', h3, h4⟩ := initBlocks_fails E pre b post (DeferredShaderApp.initTail E) t hpre hb
  refine ⟨s', by rw [h2, hsplit, h3], by rw [h4, h1]; simp, ?_⟩
  have hnd := visShaders_nodup
  rw [hsplit] at hnd
  simp only [List.map_append, List.map_cons] at hnd
  have hnd' := List.nodup_append.mp hnd
  have hbq : ∀ q ∈ post, b.entry ≠ q.entry := by
    intro q hq he
    have := (List.nodup_cons.mp hnd'.2.1).1
    exact this (he ▸ List.mem_map_of_mem _ hq)
  have hpq : ∀ p ∈ pre, ∀ q ∈ post, p.entry ≠ q.entry := by
    intro p hp q hq he
    exact hnd'.2.2 (List.mem_map_of_mem _ hp)
      (List.mem_cons_of_mem _ (he ▸ List.mem_map_of_mem _ hq))
  intro c hc
  simp only [List.mem_append, List.mem_flatten, List.mem_map] at hc
  rcases hc with (hc | ⟨l, ⟨p, hp, rfl⟩, hcl⟩) | hc
  · simp only [initPrologue, List.mem_cons, List.mem_singleton, List.not_mem_nil,
      or_false] at hc
    rcases hc with rfl | rfl <;> exact ⟨rfl, fun q _ he => by simp [compiledEntry] at he⟩
  · obtain ⟨a1, a2⟩ := calls_no_later E p c hcl
    exact ⟨a1, fun q hq he => hpq p hp q hq (a2 _ he).symm⟩
  · obtain ⟨a1, a2⟩ := failCalls_no_later E b c hc
    exact ⟨a1, fun q hq he => hbq q hq (a2 _ he).symm⟩

theorem failingDepthPSEnv_pre :
    ∀ p ∈ visShaders.take 3, p.Succeeds failingDepthPSEnv := by
  intro p hp
  simp only [visShaders, List.take_succ_cons, List.take_zero, List.mem_cons, List.mem_singleton,
    List.not_mem_nil, or_false] at hp
  rcases hp with rfl | rfl | rfl
  · exact ⟨by decide, _, rfl, rfl⟩
  · exact ⟨by decide, _, rfl, rfl⟩
  · exact ⟨by decide, _, rfl, rfl⟩

/-- Witness of C8: the compile of the fourth shader fails. -/
theorem C8_shader_failure_stops_init_witness :
    visShaders = visShaders.take 3 ++ depthPSBlock :: visShaders.drop 4 ∧
    failingDepthPSEnv.BaseInit (((constructed failingDepthPSEnv).extCall failingDepthPSEnv
      (.device .NewCamera)).world) = true ∧
    (∀ p ∈ visShaders.take 3, p.Succeeds failingDepthPSEnv) ∧
    depthPSBlock.Fails failingDepthPSEnv ∧
    ∃ s', DeferredShaderApp.Init failingDepthPSEnv (constructed failingDepthPSEnv) =
        .ok (false, s') ∧
      s'.trace = (constructed failingDepthPSEnv).trace ++
        (initPrologue ++ ((visShaders.take 3).map (ShaderBlock.calls failingDepthPSEnv)).flatten
          ++ depthPSBlock.failCalls failingDepthPSEnv) ∧
      (∀ c ∈ initPrologue ++
          ((visShaders.take 3).map (ShaderBlock.calls failingDepthPSEnv)).flatten ++
          depthPSBlock.failCalls failingDepthPSEnv,
        isAfterShaders c = false ∧ ∀ q ∈ visShaders.drop 4, compiledEntry c ≠ some q.entry) :=
  ⟨rfl, rfl, failingDepthPSEnv_pre, Or.inl rfl,
    C8_shader_failure_stops_init failingDepthPSEnv (constructed failingDepthPSEnv)
      (visShaders.take 3) depthPSBlock (visShaders.drop 4) rfl rfl failingDepthPSEnv_pre
      (Or.inl rfl)⟩

/-! ## Claims on the light configuration -/

/-- C9 (code defect): the constructor sets `mDirLightDir` to `(-0.1, -0.4, -0.9)`, whose squared
length is `0.98`, not `1`.  `Update` hands this vector to `SetDirectional`, and an `OnMouseMove`
with no button held leaves it as it is. -/
theorem C9_constructor_direction_not_unit (E : Env W) (base : D3DRendererApp)
    (lastMouse : Int × Int) (scene : SceneManager) (ctx : Ctx) (w : W) (cam : Handle)
    (keys : KeyInput) (dt : ℚ) (x y : Int) :
    (DeferredShaderApp.new E base lastMouse).mDirLightDir = ⟨-0.1, -0.4, -0.9, 1.0⟩ ∧
    (DeferredShaderApp.new E base lastMouse).mDirLightDir.lengthSq3 = 49 / 50 ∧
    (DeferredShaderApp.new E base lastMouse).mDirLightDir.lengthSq3 ≠ 1 ∧
    (∃ s' rest, DeferredShaderApp.Update E keys dt
        { app := { DeferredShaderApp.new E base lastMouse with mCamera := some cam },
          scene := scene, ctx := ctx, world := w, trace := [] } = .ok s' ∧
      s'.trace = Call.light (.SetAmbient (XMVectorSet 0.1 0.2 0.1 1.0)
          (XMVectorSet 0.1 0.2 0.2 1.0)) ::
        Call.light (.SetDirectional ⟨-0.1, -0.4, -0.9, 1.0⟩ (XMVectorSet 0.8 0.8 0.8 1.0)
          true true) :: rest) ∧
    (∃ s', DeferredShaderApp.OnMouseMove E 0 x y
        { app := { DeferredShaderApp.new E base lastMouse with mCamera := some cam },
          scene := scene, ctx := ctx, world := w, trace := [] } = .ok s' ∧
      s'.app.mDirLightDir = ⟨-0.1, -0.4, -0.9, 1.0⟩) := by
  refine ⟨rfl, ?_, ?_, ?_, ?_⟩
  · norm_num [DeferredShaderApp.new, XMVectorSet, XMVECTOR.lengthSq3]
  · norm_num [DeferredShaderApp.new, XMVectorSet, XMVECTOR.lengthSq3]
  · obtain ⟨s', h1, _, mid, h3, _⟩ := Update_spec E keys dt
      { app := { DeferredShaderApp.new E base lastMouse with mCamera := some cam },
        scene := scene, ctx := ctx, world := w, trace := [] } cam rfl
    exact ⟨s', _, h1, by rw [h3]; rfl⟩
  · refine ⟨_, by simp [DeferredShaderApp.OnMouseMove, MK_RBUTTON, MK_MBUTTON, pure,
      Except.pure, bind, Except.bind]; rfl, rfl⟩

theorem SameLights.lights_refl (s : State W) : SameLights s s := ⟨rfl, rfl, rfl, rfl⟩

theorem SameLights.lights_ite_ext (E : Env W) {s t : State W} (b : Prop) [Decidable b]
    (c : Call) (h : SameLights s t) : SameLights s (if b then t.extCall E c else t) := by
  split_ifs
  · exact h
  · exact h

theorem SameLights.lights_ite_app {s t : State W} (b : Prop) [Decidable b]
    (f : DeferredShaderApp → DeferredShaderApp) (hf : KeepsLights f) (h : SameLights s t) :
    SameLights s (if b then t.setApp f else t) := by
  split_ifs
  · obtain ⟨a1, a2, a3, a4⟩ := hf t.app
    obtain ⟨b1, b2, b3, b4⟩ := h
    exact ⟨a1.trans b1, a2.trans b2, a3.trans b3, a4.trans b4⟩
  · exact h

theorem SameLights.lights_ext (E : Env W) {s t : State W} (c : Call) (h : SameLights s t) :
    SameLights s (t.extCall E c) := h

theorem Update_lights (E : Env W) (keys : KeyInput) (dt : ℚ) (s s' : State W)
    (h : DeferredShaderApp.Update E keys dt s = .ok s') : SameLights s s' := by
  obtain ⟨cam, hc⟩ := Update_ok E keys dt s s' h
  have key : ∃ t, DeferredShaderApp.Update E keys dt s = .ok t ∧ SameLights s t := by
    refine ⟨_, by simp [DeferredShaderApp.Update, deref, hc, bind, Except.bind, pure,
      Except.pure]; rfl, ?_⟩
    refine SameLights.lights_ext E _ ?_
    refine SameLights.lights_ite_app _ _ (fun a => ⟨rfl, rfl, rfl, rfl⟩) ?_
    refine SameLights.lights_ite_app _ _ (fun a => ⟨rfl, rfl, rfl, rfl⟩) ?_
    refine SameLights.lights_ite_app _ _ (fun a => ⟨rfl, rfl, rfl, rfl⟩) ?_
    refine SameLights.lights_ite_app _ _ (fun a => ⟨rfl, rfl, rfl, rfl⟩) ?_
    refine SameLights.lights_ite_app _ _ (fun a => ⟨rfl, rfl, rfl, rfl⟩) ?_
    refine SameLights.lights_ite_ext E _ _ ?_
    refine SameLights.lights_ite_ext E _ _ ?_
    refine SameLights.lights_ite_app _ _ (fun a => ⟨rfl, rfl, rfl, rfl⟩) ?_
    refine SameLights.lights_ite_ext E _ _ ?_
    refine SameLights.lights_ite_app _ _ (fun a => ⟨rfl, rfl, rfl, rfl⟩) ?_
    refine SameLights.lights_ite_app _ _ (fun a => ⟨rfl, rfl, rfl, rfl⟩) ?_
    exact SameLights.lights_refl s
  obtain ⟨t, h1, h2⟩ := key
  have e : t = s' := by simpa [h] using h1.symm
  exact e ▸ h2

theorem OnMouseMove_lights (E : Env W) (btnState : Nat) (x y : Int) (s s' : State W)
    (h : DeferredShaderApp.OnMouseMove E btnState x y s = .ok s') : SameLights s s' := by
  simp only [DeferredShaderApp.OnMouseMove] at h
  cases hc : s.app.mCamera with
  | none =>
    split_ifs at h <;> simp [deref, hc, bind, Except.bind, pure, Except.pure] at h
    subst h
    exact ⟨rfl, rfl, rfl, rfl⟩
  | some cam =>
    split_ifs at h <;> simp [deref, hc, bind, Except.bind, pure, Except.pure] at h <;>
      subst h <;> exact ⟨rfl, rfl, rfl, rfl⟩

theorem guiCamera_app (E : Env W) (gui : GuiInput) (s s' : State W)
    (h : DeferredShaderApp.guiCamera E gui s = .ok s') : s'.app = s.app := by
  cases hc : s.app.mCamera with
  | none => simp [DeferredShaderApp.guiCamera, deref, hc, bind, Except.bind] at h
  | some cam =>
    simp [DeferredShaderApp.guiCamera, deref, hc, bind, Except.bind, pure, Except.pure] at h
    subst h
    rfl

theorem guiSettings_app (E : Env W) (gui : GuiInput) (s s' : State W)
    (h : DeferredShaderApp.guiSettings E gui s = .ok s') :
    s'.app = DeferredShaderApp.guiApp gui s.app := by
  simp only [DeferredShaderApp.guiSettings] at h
  split at h
  · rename_i t ht
    simp only [Except.ok.injEq] at h
    subst h
    split_ifs at ht <;>
      first
      | (rw [setApp_app, guiCamera_app E gui _ _ ht]; simp [DeferredShaderApp.guiApp, *])
      | (simp only [Except.ok.injEq] at ht; subst ht; simp [DeferredShaderApp.guiApp, *])
  · simp at h

theorem RenderGUI_app (E : Env W) (gui : GuiInput) (s s' : State W)
    (h : DeferredShaderApp.RenderGUI E gui s = .ok s') :
    s'.app = s.app ∨ s'.app = DeferredShaderApp.guiApp gui s.app := by
  simp only [DeferredShaderApp.RenderGUI] at h
  split at h
  · rename_i t ht
    simp only [Except.ok.injEq] at h
    subst h
    split_ifs at ht with h1 h2 h2
    · right
      have := guiSettings_app E gui _ _ ht
      simpa using this
    · left
      simp only [Except.ok.injEq] at ht
      subst ht
      rfl
    · right
      have := guiSettings_app E gui _ _ ht
      simpa using this
    · left
      simp only [Except.ok.injEq] at ht
      subst ht
      rfl
  · simp at h

theorem guiApp_valid (gui : GuiInput) (a : DeferredShaderApp) (hb : gui.InBounds)
    (ha : ValidLights a) : ValidLights (DeferredShaderApp.guiApp gui a) := by
  obtain ⟨h1, h2, h3⟩ := ha
  have hl : ValidLights (DeferredShaderApp.guiLights gui a) := by
    simp only [DeferredShaderApp.guiLights]
    split_ifs
    · refine ⟨h1, h2, ?_⟩
      show 0 < gui.pointRange.getD _
      cases hv : gui.pointRange with
      | none => exact h3
      | some v =>
        have := (hb.1 v hv).1
        simp only [Option.getD_some]
        linarith
    · refine ⟨h1, h2, ?_⟩
      show 0 < gui.pointRange.getD _
      cases hv : gui.pointRange with
      | none => exact h3
      | some v =>
        have := (hb.1 v hv).1
        simp only [Option.getD_some]
        linarith
    · exact ⟨h1, h2, h3⟩
    · exact ⟨h1, h2, h3⟩
    · exact ⟨h1, h2, h3⟩
  simp only [DeferredShaderApp.guiApp]
  split_ifs
  · exact hl
  · exact hl

theorem ValidLights.of_same {s t : State W} (h : SameLights s t) (hv : ValidLights s.app) :
    ValidLights t.app := by
  obtain ⟨a1, a2, a3, a4⟩ := h
  unfold ValidLights
  rw [a1, a2, a3, a4]
  exact hv

theorem hostStep_valid (E : Env W) (e : HostEvent) (s s' : State W) (hb : e.InBounds)
    (hv : ValidLights s.app) (h : hostStep E e s = .ok s') : ValidLights s'.app := by
  cases e with
  | Update keys dt => exact ValidLights.of_same (Update_lights E keys dt s s' h) hv
  | MouseMove b x y => exact ValidLights.of_same (OnMouseMove_lights E b x y s s' h) hv
  | Gui gui =>
    rcases RenderGUI_app E gui s s' h with h1 | h1
    · rw [h1]; exact hv
    · rw [h1]; exact guiApp_valid gui s.app hb hv

theorem hostRun_valid (E : Env W) (evs : List HostEvent) :
    ∀ s s' : State W, (∀ e ∈ evs, e.InBounds) → ValidLights s.app →
      hostRun E evs s = .ok s' → ValidLights s'.app := by
  induction evs with
  | nil =>
    intro s s' _ hv h
    simp only [hostRun, Except.ok.injEq] at h
    exact h ▸ hv
  | cons e es ih =>
    intro s s' hb hv h
    simp only [hostRun] at h
    cases hst : hostStep E e s with
    | error f => simp [hst] at h
    | ok t =>
      simp only [hst] at h
      exact ih t s' (fun x hx => hb x (List.mem_cons_of_mem _ hx))
        (hostStep_valid E e s t (hb e (List.mem_cons_self _ _)) hv hst) h

theorem new_valid (E : Env W) (base : D3DRendererApp) (lastMouse : Int × Int) :
    ValidLights (DeferredShaderApp.new E base lastMouse) := by
  norm_num [ValidLights, DeferredShaderApp.new]

/-- C11: every state reached from the constructor by `Update`, `OnMouseMove` and `RenderGUI`
steps whose sliders stay inside their declared bounds holds a valid light configuration:
`mSpotInnerAngle ≤ mSpotOuterAngle`, `mSpotRange > 0` and `mLightRange > 0`.  The camera
pointer `cam` may be `NULL`, as the constructor leaves it, or set, as after `Init`. -/
theorem C11_light_configuration_valid (E : Env W) (base : D3DRendererApp)
    (lastMouse : Int × Int) (cam : Option Handle) (scene : SceneManager) (ctx : Ctx) (w : W)
    (evs : List HostEvent) (s' : State W) (hb : ∀ e ∈ evs, e.InBounds)
    (hrun : hostRun E evs
      { app := { DeferredShaderApp.new E base lastMouse with mCamera := cam },
        scene := scene, ctx := ctx, world := w, trace := [] } = .ok s') :
    s'.app.mSpotInnerAngle ≤ s'.app.mSpotOuterAngle ∧ 0 < s'.app.mSpotRange ∧
      0 < s'.app.mLightRange :=
  hostRun_valid E evs _ s' hb (new_valid E base lastMouse) hrun

theorem pointRangeGui_inBounds :
    ∀ e ∈ [HostEvent.Gui pointRangeGui, HostEvent.Update noKeys 0.016,
      HostEvent.MouseMove MK_MBUTTON 5 7], e.InBounds := by
  intro e he
  simp only [List.mem_cons, List.mem_singleton, List.not_mem_nil, or_false] at he
  rcases he with rfl | rfl | rfl
  · refine ⟨fun v hv => ?_, fun p hp => ?_⟩
    · have : v = 0.1 := by
        simp only [pointRangeGui, Option.some.injEq] at hv
        exact hv.symm
      subst this
      norm_num
    · simp [pointRangeGui, idleGui] at hp
  · trivial
  · trivial

/-- Witness of C11: the point range is dragged to the lower end of its slider, then an update
and a drag with the middle button follow. -/
theorem C11_light_configuration_valid_witness :
    (∀ e ∈ [HostEvent.Gui pointRangeGui, HostEvent.Update noKeys 0.016,
      HostEvent.MouseMove MK_MBUTTON 5 7], e.InBounds) ∧
    ∃ s', hostRun sampleEnv [HostEvent.Gui pointRangeGui, HostEvent.Update noKeys 0.016,
        HostEvent.MouseMove MK_MBUTTON 5 7]
        { app := { DeferredShaderApp.new sampleEnv sampleBase (0, 0) with mCamera := some 3 },
          scene := SceneManager.new, ctx := sampleCtx, world := 0, trace := [] } = .ok s' ∧
      s'.app.mLightRange = 0.1 ∧
      (s'.app.mSpotInnerAngle ≤ s'.app.mSpotOuterAngle ∧ 0 < s'.app.mSpotRange ∧
        0 < s'.app.mLightRange) :=
  ⟨pointRangeGui_inBounds, _, rfl, rfl,
    C11_light_configuration_valid sampleEnv sampleBase (0, 0) (some 3) SceneManager.new
      sampleCtx 0 _ _ pointRangeGui_inBounds rfl⟩

/-! ## Claims on the debug views -/

theorem renderFrame_split (E : Env W) (gui : GuiInput) (s : State W) :
    DeferredShaderApp.renderFrame E gui s =
      match DeferredShaderApp.packAndLight E s with
      | .ok t => DeferredShaderApp.finishFrame E gui (DeferredShaderApp.savedDepthState E s).1
          (DeferredShaderApp.savedDepthState E s).2 t
      | .error e => .error e := by
  cases hc : s.app.mCamera with
  | none =>
    simp [DeferredShaderApp.renderFrame, DeferredShaderApp.packAndLight, deref, hc, bind,
      Except.bind]
  | some cam =>
    simp only [DeferredShaderApp.renderFrame, DeferredShaderApp.packAndLight,
      DeferredShaderApp.finishFrame, DeferredShaderApp.savedDepthState, deref, hc, bind,
      Except.bind, ctxCall_app, extCall_app, pure, Except.pure]
    cases SceneManager.Render E _ <;> rfl

theorem Render_split (E : Env W) (gui : GuiInput) (fuel : Nat) (s : State W) :
    DeferredShaderApp.Render E gui fuel s =
      match DeferredShaderApp.generateShadowMaps E fuel s with
      | .ok u =>
          (match DeferredShaderApp.packAndLight E u with
          | .ok t => DeferredShaderApp.finishFrame E gui
              (DeferredShaderApp.savedDepthState E u).1
              (DeferredShaderApp.savedDepthState E u).2 t
          | .error e => .error e)
      | .error e => .error e := by
  simp only [DeferredShaderApp.Render, bind, Except.bind]
  cases DeferredShaderApp.generateShadowMaps E fuel s with
  | error e => rfl
  | ok u => simp only [renderFrame_split]

theorem setFlags_ctxCall (f : DebugFlags) (c : CtxCall) (s : State W) :
    (s.setFlags f).ctxCall c = (s.ctxCall c).setFlags f := rfl

theorem setFlags_extCall (E : Env W) (f : DebugFlags) (c : Call) (s : State W) :
    (s.setFlags f).extCall E c = (s.extCall E c).setFlags f := rfl

theorem setFlags_enter (f : DebugFlags) (c : Call) (s : State W) :
    (s.setFlags f).enter c = (s.enter c).setFlags f := rfl

theorem renderMeshesNoShaders_setFlags (E : Env W) (f : DebugFlags)
    (ms : List (Option Handle)) :
    ∀ s : State W, SceneManager.renderMeshesNoShaders E ms (s.setFlags f) =
      (SceneManager.renderMeshesNoShaders E ms s).map (State.setFlags f) := by
  induction ms with
  | nil => intro s; rfl
  | cons m ms ih =>
    intro s
    cases m with
    | none => rfl
    | some m =>
      simp only [SceneManager.renderMeshesNoShaders, setFlags_extCall]
      exact ih _

theorem RenderSceneNoShaders_setFlags (E : Env W) (f : DebugFlags) (s : State W) :
    SceneManager.RenderSceneNoShaders E (s.setFlags f) =
      (SceneManager.RenderSceneNoShaders E s).map (State.setFlags f) :=
  renderMeshesNoShaders_setFlags E f s.scene.mMeshes (s.enter (.scene .RenderSceneNoShaders))

theorem shadowLoop_setFlags (E : Env W) (f : DebugFlags) :
    ∀ (fuel : Nat) (s : State W), DeferredShaderApp.shadowLoop E fuel (s.setFlags f) =
      (DeferredShaderApp.shadowLoop E fuel s).map (State.setFlags f) := by
  intro fuel
  induction fuel with
  | zero => intro s; rfl
  | succ k ih =>
    intro s
    simp only [DeferredShaderApp.shadowLoop]
    have hw : (s.setFlags f).world = s.world := rfl
    have hx : (s.setFlags f).ctx = s.ctx := rfl
    rw [hw, hx]
    cases hr : E.PrepareNextShadowLight s.world s.ctx with
    | false => rfl
    | true =>
      simp only [if_true, setFlags_extCall, RenderSceneNoShaders_setFlags]
      cases SceneManager.RenderSceneNoShaders E
          (s.extCall E (.light (.PrepareNextShadowLight true))) with
      | error e => rfl
      | ok v => exact ih v

theorem generateShadowMaps_setFlags (E : Env W) (f : DebugFlags) (fuel : Nat) (s : State W) :
    DeferredShaderApp.generateShadowMaps E fuel (s.setFlags f) =
      (DeferredShaderApp.generateShadowMaps E fuel s).map (State.setFlags f) := by
  simp only [DeferredShaderApp.generateShadowMaps]
  have h : DeferredShaderApp.storeStates (s.setFlags f) =
      (DeferredShaderApp.storeStates s).setFlags f := rfl
  rw [h, shadowLoop_setFlags]
  cases DeferredShaderApp.shadowLoop E fuel (DeferredShaderApp.storeStates s) <;> rfl

theorem renderMesh_setFlags (E : Env W) (f : DebugFlags) (m : Handle) (s : State W) :
    SceneManager.renderMesh E m (s.setFlags f) = (SceneManager.renderMesh E m s).setFlags f := by
  simp only [SceneManager.renderMesh]
  have hw : ∀ t : State W, (t.setFlags f).world = t.world := fun _ => rfl
  simp only [setFlags_ctxCall, hw, ctxCall_world]
  cases E.GetTexture m s.world <;> rfl

theorem renderMeshes_setFlags (E : Env W) (f : DebugFlags) (ms : List (Option Handle)) :
    ∀ s : State W, SceneManager.renderMeshes E ms (s.setFlags f) =
      (SceneManager.renderMeshes E ms s).map (State.setFlags f) := by
  induction ms with
  | nil => intro s; rfl
  | cons m ms ih =>
    intro s
    cases m with
    | none => rfl
    | some m =>
      simp only [SceneManager.renderMeshes, renderMesh_setFlags]
      exact ih _

theorem SceneManager_Render_setFlags (E : Env W) (f : DebugFlags) (s : State W) :
    SceneManager.Render E (s.setFlags f) =
      (SceneManager.Render E s).map (State.setFlags f) := by
  cases hc : s.scene.mCamera with
  | none =>
    have hc' : (s.setFlags f).scene.mCamera = none := hc
    simp [SceneManager.Render, deref, hc, hc', bind, Except.bind, Except.map]
  | some cam =>
    have hc' : (s.setFlags f).scene.mCamera = some cam := hc
    simp only [SceneManager.Render, deref, enter_scene, hc, hc', bind, Except.bind,
      extCall_scene]
    have hs : (s.setFlags f).scene.mMeshes = s.scene.mMeshes := rfl
    rw [hs, setFlags_enter, setFlags_extCall, setFlags_extCall]
    exact renderMeshes_setFlags E f _ _

theorem packAndLight_setFlags (E : Env W) (f : DebugFlags) (s : State W) :
    DeferredShaderApp.packAndLight E (s.setFlags f) =
      (DeferredShaderApp.packAndLight E s).map (State.setFlags f) := by
  cases hc : s.app.mCamera with
  | none =>
    have hc' : (s.setFlags f).app.mCamera = none := hc
    simp [DeferredShaderApp.packAndLight, deref, hc, hc', bind, Except.bind, Except.map]
  | some cam =>
    have hc' : (s.setFlags f).app.mCamera = some cam := hc
    simp only [DeferredShaderApp.packAndLight, deref, hc, hc', bind, Except.bind, ctxCall_app,
      extCall_app, pure, Except.pure]
    have h : State.extCall E (Call.gbuffer GBufferCall.PreRender)
        (State.ctxCall (CtxCall.PSSetSamplers 0
          [(s.setFlags f).app.mSampLinear, (s.setFlags f).app.mSampPoint])
        (State.ctxCall (CtxCall.OMGetDepthStencilState
          (State.extCall E (Call.camera CameraCall.ViewProj)
            (State.ctxCall (CtxCall.ClearDepthStencilView (s.setFlags f).app.mDepthStencilView)
              (State.ctxCall (CtxCall.ClearRenderTargetView
                (s.setFlags f).app.mRenderTargetView) (s.setFlags f)))).ctx.depthStencilState
          (State.extCall E (Call.camera CameraCall.ViewProj)
            (State.ctxCall (CtxCall.ClearDepthStencilView (s.setFlags f).app.mDepthStencilView)
              (State.ctxCall (CtxCall.ClearRenderTargetView
                (s.setFlags f).app.mRenderTargetView) (s.setFlags f)))).ctx.stencilRef)
        (State.extCall E (Call.camera CameraCall.ViewProj)
          (State.ctxCall (CtxCall.ClearDepthStencilView (s.setFlags f).app.mDepthStencilView)
            (State.ctxCall (CtxCall.ClearRenderTargetView
              (s.setFlags f).app.mRenderTargetView) (s.setFlags f)))))) =
      (State.extCall E (Call.gbuffer GBufferCall.PreRender)
        (State.ctxCall (CtxCall.PSSetSamplers 0 [s.app.mSampLinear, s.app.mSampPoint])
        (State.ctxCall (CtxCall.OMGetDepthStencilState
          (State.extCall E (Call.camera CameraCall.ViewProj)
            (State.ctxCall (CtxCall.ClearDepthStencilView s.app.mDepthStencilView)
              (State.ctxCall (CtxCall.ClearRenderTargetView
                s.app.mRenderTargetView) s))).ctx.depthStencilState
          (State.extCall E (Call.camera CameraCall.ViewProj)
            (State.ctxCall (CtxCall.ClearDepthStencilView s.app.mDepthStencilView)
              (State.ctxCall (CtxCall.ClearRenderTargetView
                s.app.mRenderTargetView) s))).ctx.stencilRef)
        (State.extCall E (Call.camera CameraCall.ViewProj)
          (State.ctxCall (CtxCall.ClearDepthStencilView s.app.mDepthStencilView)
            (State.ctxCall (CtxCall.ClearRenderTargetView
              s.app.mRenderTargetView) s)))))).setFlags f := rfl
    rw [h, SceneManager_Render_setFlags]
    cases SceneManager.Render E _ <;> rfl

theorem packAndLight_spec (E : Env W) (s : State W) (hi : Initialised s) :
    ∃ t body, DeferredShaderApp.packAndLight E s = .ok t ∧ t.app = s.app ∧
      t.scene = s.scene ∧ t.trace = s.trace ++ (body ++ [Call.light .DoLighting]) ∧
      phases body = [Phase.preRender, Phase.sceneRender, Phase.postRender,
        Phase.prepareForUnpack] := by
  obtain ⟨hc, hsc, hm⟩ := hi
  obtain ⟨cam, hcam⟩ := Option.ne_none_iff_exists'.mp hc
  simp only [DeferredShaderApp.packAndLight, bind, Except.bind, deref, ctxCall_app, hcam,
    extCall_app]
  generalize hP : State.extCall E (Call.gbuffer GBufferCall.PreRender) _ = P
  have kP : P.app = s.app ∧ P.scene = s.scene := by subst hP; simp
  have eP : Emits s P [Phase.preRender] := by
    subst hP
    apply Emits.of_drop <;> simp [phase, isResizeCall, initSize, lensOf]
  obtain ⟨v, hv, av, sv, ev⟩ := SceneManager_Render_spec E P (kP.2 ▸ hsc) (kP.2 ▸ hm)
  simp only [hv]
  have eD : Emits v ((v.extCall E (.gbuffer .PostRender)).ctxCall
      (.OMSetRenderTargets v.app.mRenderTargetView (some .GetDepthReadOnlyDSV)))
      [Phase.postRender] := by
    apply Emits.of_drop <;> simp [phase, isResizeCall, initSize, lensOf]
  have eU := Emits.extCall E ((v.extCall E (.gbuffer .PostRender)).ctxCall
      (.OMSetRenderTargets v.app.mRenderTargetView (some .GetDepthReadOnlyDSV)))
      (.gbuffer .PrepareForUnpack) rfl
  obtain ⟨body, hb, hp, _⟩ := ((eP.trans ev).trans eD).trans eU
  refine ⟨_, body, rfl, ?_, ?_, ?_, by simpa [phase] using hp⟩
  · simp [av, kP.1]
  · simp [sv, kP.2]
  · rw [extCall_trace, hb, List.append_assoc]

theorem finishFrame_spec (E : Env W) (gui : GuiInput) (p : Option Handle) (n : Nat)
    (t : State W) (hc : t.app.mCamera ≠ none) :
    ∃ s' r d, DeferredShaderApp.finishFrame E gui p n t = .ok s' ∧
      s'.trace = t.trace ++ r ∧
      phases r = List.replicate d Phase.debug ++ [Phase.present] := by
  simp only [DeferredShaderApp.finishFrame, bind, Except.bind]
  generalize hQ : State.enter (Call.host (HostCall.Release _)) _ = Q
  obtain ⟨d, ed⟩ := debugViews_emits E t
  have kQ : Q.app = t.app := by
    subst hQ
    simpa using (debugViews_app E t).1
  have eQ : Emits (DeferredShaderApp.debugViews E t) Q [] := by
    subst hQ
    apply Emits.of_drop <;> simp [phase, isResizeCall, initSize, lensOf]
  obtain ⟨g, hg, _, eg⟩ := RenderGUI_spec E gui Q (kQ ▸ hc)
  have eF : Emits g ((g.ctxCall (.RSSetViewports g.app.mScreenViewport)).extCall E
      (.host .Present)) [Phase.present] := by
    apply Emits.of_drop <;> simp [phase, isResizeCall, initSize, lensOf]
  obtain ⟨r, hr, hp, _⟩ := ((ed.trans eQ).trans eg).trans eF
  exact ⟨_, r, d, by simp only [hg]; rfl, hr, by simpa using hp⟩

theorem not_mem_of_phases (c : Call) (p : Phase) (t : List Call) (hp : phase c = some p)
    (h : p ∉ phases t) : c ∉ t :=
  fun hc => h (mem_phases_of_mem c p t hc hp)

/-- C12: the debug flags have no effect up to the lighting resolve.  For a state `s` and the
state `s.setFlags f`, which differs from it in the five debug flags only, `Render` up to and
including `DoLighting` ends in the same machine up to those flags, having issued the same calls
`pre`; `pre` ends with `DoLighting` and holds no debug view.  Both full `Render`s return, their
calls are `pre` followed by calls that hold no `DoLighting`. -/
theorem C12_debug_flags_after_lighting (E : Env W) (gui : GuiInput) (n fuel : Nat)
    (s : State W) (f : DebugFlags) (hi : Initialised s)
    (hs : SchedulerRuns E n (DeferredShaderApp.storeStates s)) (hf : n < fuel) :
    ∃ t pre s1 s2 r1 r2,
      DeferredShaderApp.renderToLighting E fuel s = .ok t ∧
      DeferredShaderApp.renderToLighting E fuel (s.setFlags f) = .ok (t.setFlags f) ∧
      t.trace = s.trace ++ pre ∧
      pre.getLast? = some (Call.light .DoLighting) ∧
      (∀ c ∈ pre, phase c ≠ some Phase.debug) ∧
      DeferredShaderApp.Render E gui fuel s = .ok s1 ∧
      DeferredShaderApp.Render E gui fuel (s.setFlags f) = .ok s2 ∧
      s1.trace = s.trace ++ pre ++ r1 ∧ s2.trace = s.trace ++ pre ++ r2 ∧
      Call.light .DoLighting ∉ r1 ∧ Call.light .DoLighting ∉ r2 := by
  obtain ⟨u0, _, g2, g3, g4, g5⟩ := generateShadowMaps_spec E n fuel s hs hf
  obtain ⟨r1', r2', r3', _, _⟩ := restoreStates_spec s.ctx.viewport s.ctx.rsState u0
  generalize hu : DeferredShaderApp.restoreStates s.ctx.viewport s.ctx.rsState u0 = u at *
  have hiu : Initialised u := by
    unfold Initialised
    rw [r1', r2', g3, g4]
    exact hi
  obtain ⟨t, body, p1, p2, p3, p4, p5⟩ := packAndLight_spec E u hiu
  have hgf : DeferredShaderApp.generateShadowMaps E fuel (s.setFlags f) =
      .ok (u.setFlags f) := by
    rw [generateShadowMaps_setFlags, g2]; rfl
  have hpf : DeferredShaderApp.packAndLight E (u.setFlags f) = .ok (t.setFlags f) := by
    rw [packAndLight_setFlags, p1]; rfl
  have hct : t.app.mCamera ≠ none := by rw [p2, r1', g3]; exact hi.1
  obtain ⟨s1, q1, d1, f1, f2, f3⟩ := finishFrame_spec E gui
    (DeferredShaderApp.savedDepthState E u).1 (DeferredShaderApp.savedDepthState E u).2 t hct
  obtain ⟨s2, q2, d2, e1, e2, e3⟩ := finishFrame_spec E gui
    (DeferredShaderApp.savedDepthState E u).1 (DeferredShaderApp.savedDepthState E u).2
    (t.setFlags f) hct
  have htr : t.trace = s.trace ++ ([Call.ctx (.RSGetViewports s.ctx.viewport),
      Call.ctx (.RSGetState s.ctx.rsState)] ++ shadowCalls s.scene.mMeshes n ++
      restoreCalls s.ctx.viewport s.ctx.rsState ++ body ++ [Call.light .DoLighting]) := by
    rw [p4, r3', g5]
    simp only [List.append_assoc]
  have hph : phases ([Call.ctx (.RSGetViewports s.ctx.viewport),
      Call.ctx (.RSGetState s.ctx.rsState)] ++ shadowCalls s.scene.mMeshes n ++
      restoreCalls s.ctx.viewport s.ctx.rsState ++ body ++ [Call.light .DoLighting]) =
      List.replicate (2 * n + 1) Phase.shadow ++ [Phase.preRender, Phase.sceneRender,
        Phase.postRender, Phase.prepareForUnpack, Phase.doLighting] := by
    simp [phases_shadowCalls, p5, restoreCalls, phase]
  refine ⟨t, _, s1, s2, q1, q2, ?_, ?_, htr, List.getLast?_concat _, ?_, ?_, ?_, ?_, ?_, ?_, ?_⟩
  · simp [DeferredShaderApp.renderToLighting, g2, p1, bind, Except.bind]
  · simp [DeferredShaderApp.renderToLighting, hgf, hpf, bind, Except.bind]
  · intro c hc hd
    have := mem_phases_of_mem c _ _ hc hd
    rw [hph] at this
    simp [List.mem_replicate] at this
  · rw [Render_split, g2]
    simp only [p1]
    exact f1
  · rw [Render_split, hgf]
    simp only [hpf]
    exact e1
  · rw [f2, htr]
  · rw [e2]
    show t.trace ++ q2 = _
    rw [htr]
  · apply not_mem_of_phases (Call.light .DoLighting) Phase.doLighting _ rfl
    rw [f3]
    simp [List.mem_replicate]
  · apply not_mem_of_phases (Call.light .DoLighting) Phase.doLighting _ rfl
    rw [e3]
    simp [List.mem_replicate]

/-- Witness of C12: the sample application with two shadow passes to come, compared with the
same application with every debug view switched on. -/
theorem C12_debug_flags_after_lighting_witness :
    Initialised (sampleState 2) ∧
    SchedulerRuns sampleEnv 2 (DeferredShaderApp.storeStates (sampleState 2)) ∧ 2 < 3 ∧
    ∃ t pre s1 s2 r1 r2,
      DeferredShaderApp.renderToLighting sampleEnv 3 (sampleState 2) = .ok t ∧
      DeferredShaderApp.renderToLighting sampleEnv 3 ((sampleState 2).setFlags allViewsOn) =
        .ok (t.setFlags allViewsOn) ∧
      t.trace = (sampleState 2).trace ++ pre ∧
      pre.getLast? = some (Call.light .DoLighting) ∧
      (∀ c ∈ pre, phase c ≠ some Phase.debug) ∧
      DeferredShaderApp.Render sampleEnv idleGui 3 (sampleState 2) = .ok s1 ∧
      DeferredShaderApp.Render sampleEnv idleGui 3 ((sampleState 2).setFlags allViewsOn) =
        .ok s2 ∧
      s1.trace = (sampleState 2).trace ++ pre ++ r1 ∧
      s2.trace = (sampleState 2).trace ++ pre ++ r2 ∧
      Call.light .DoLighting ∉ r1 ∧ Call.light .DoLighting ∉ r2 :=
  ⟨sampleState_initialised 2, sampleState_scheduler, by decide,
    C12_debug_flags_after_lighting sampleEnv idleGui 2 3 (sampleState 2) allViewsOn
      (sampleState_initialised 2) sampleState_scheduler (by decide)⟩

theorem VisualizeFullScreenGBufferTexture_unsupported (s : State W)
    (h1 : s.app.mRenderState ≠ DEPTHRT) (h2 : s.app.mRenderState ≠ COLSPECRT)
    (h3 : s.app.mRenderState ≠ NORMALRT) (h4 : s.app.mRenderState ≠ SPECPOWRT) :
    (DeferredShaderApp.VisualizeFullScreenGBufferTexture s).trace = s.trace ++
      [Call.host .VisualizeFullScreenGBufferTexture,
        Call.ctx (.PSSetShaderResources 0
          [some .GetDepthView, some .GetColorView, some .GetNormalView, some .GetSpecPowerView]),
        Call.ctx (.PSSetSamplers 1 [s.app.mSampPoint]),
        Call.ctx (.IASetInputLayout none),
        Call.ctx .IASetVertexBuffers,
        Call.ctx .IASetPrimitiveTopologyTriangleStrip,
        Call.ctx (.VSSetShader s.app.mTextureVisVS),
        Call.ctx (.GSSetShader none),
        Call.ctx (.Draw 4 0),
        Call.ctx (.VSSetShader none),
        Call.ctx (.PSSetShader none),
        Call.ctx (.PSSetShaderResources 0 [none, none, none, none])] ∧
    (DeferredShaderApp.VisualizeFullScreenGBufferTexture s).ctx.vs = none ∧
    (DeferredShaderApp.VisualizeFullScreenGBufferTexture s).ctx.gs = none ∧
    (DeferredShaderApp.VisualizeFullScreenGBufferTexture s).ctx.ps = none ∧
    (DeferredShaderApp.VisualizeFullScreenGBufferTexture s).ctx.inputLayout = none ∧
    (DeferredShaderApp.VisualizeFullScreenGBufferTexture s).ctx.triangleStrip = true ∧
    ∀ i, i < 4 → (DeferredShaderApp.VisualizeFullScreenGBufferTexture s).ctx.psSRV i = none := by
  simp only [DeferredShaderApp.VisualizeFullScreenGBufferTexture]
  refine ⟨?_, ?_, ?_, ?_, ?_, ?_, ?_⟩ <;>
    simp [h1, h2, h3, h4, State.ctxCall, State.enter, CtxCall.apply, setSlots]
  intro i hi
  interval_cases i <;> simp

/-! ## Claims on the depth surface -/

theorem ownRun_nil (u : State W) : u.ownRun [] = u := rfl

theorem ownRun_ctx (c : CtxCall) (cs : List Call) (u : State W) :
    u.ownRun (Call.ctx c :: cs) = (u.ctxCall c).ownRun cs := rfl

theorem ownRun_host (c : HostCall) (cs : List Call) (u : State W) :
    u.ownRun (Call.host c :: cs) = (u.enter (Call.host c)).ownRun cs := rfl

theorem ownRun_append (a b : List Call) (u : State W) :
    u.ownRun (a ++ b) = (u.ownRun a).ownRun b := by
  simp [State.ownRun, List.foldl_append]

theorem ownRun_app (cs : List Call) (u : State W) : (u.ownRun cs).app = u.app := by
  induction cs generalizing u with
  | nil => rfl
  | cons c cs ih =>
    cases c <;> simp only [State.ownRun, List.foldl_cons] <;>
      first
      | exact (ih _).trans rfl

theorem VisualizeGBuffer_ownRun (u : State W) :
    DeferredShaderApp.VisualizeGBuffer u = u.ownRun (gbufferViewCalls u.app) := rfl

theorem VisualizeFullScreenGBufferTexture_ownRun (u : State W) :
    DeferredShaderApp.VisualizeFullScreenGBufferTexture u =
      u.ownRun (fullScreenViewCalls u.app) := by
  simp only [DeferredShaderApp.VisualizeFullScreenGBufferTexture, fullScreenViewCalls,
    fullScreenShaderCalls, ctxCall_app, enter_app]
  split_ifs <;> rfl

theorem gbufferBlock_ownRun (u : State W) :
    DeferredShaderApp.gbufferBlock u = u.ownRun (guardedView u.app (gbufferViewCalls u.app)) :=
  rfl

theorem fullScreenBlock_ownRun (u : State W) :
    DeferredShaderApp.fullScreenBlock u =
      u.ownRun (guardedView u.app (fullScreenViewCalls u.app)) := by
  simp only [DeferredShaderApp.fullScreenBlock, guardedView, ownRun_ctx, List.cons_append,
    ownRun_append, VisualizeFullScreenGBufferTexture_ownRun, ctxCall_app, ownRun_app,
    ownRun_nil]

theorem ownRun_dsv (cs : List Call) (u : State W)
    (h : ∀ c ∈ cs, ∀ r d, c ≠ Call.ctx (.OMSetRenderTargets r d)) :
    (u.ownRun cs).ctx.dsv = u.ctx.dsv := by
  induction cs generalizing u with
  | nil => rfl
  | cons c cs ih =>
    have hc := h c (List.mem_cons_self _ _)
    have ht := ih (h := fun x hx => h x (List.mem_cons_of_mem _ hx))
    cases c with
    | ctx cc =>
      rw [ownRun_ctx, ht]
      cases cc <;> first | rfl | exact absurd rfl (hc _ _)
    | light c => exact ht _
    | gbuffer c => exact ht _
    | camera c => exact ht _
    | scene c => exact ht _
    | host c => exact ht _
    | device c => exact ht _

theorem gbufferViewCalls_noTarget (a : DeferredShaderApp) :
    ∀ c ∈ gbufferViewCalls a, ∀ r d, c ≠ Call.ctx (.OMSetRenderTargets r d) := by
  simp [gbufferViewCalls]

theorem fullScreenViewCalls_noTarget (a : DeferredShaderApp) :
    ∀ c ∈ fullScreenViewCalls a, ∀ r d, c ≠ Call.ctx (.OMSetRenderTargets r d) := by
  simp only [fullScreenViewCalls, fullScreenShaderCalls]
  split_ifs <;> simp

theorem gbufferViewCalls_reset (a : DeferredShaderApp) (v : State W) (i : Nat) (hi : i < 4) :
    (v.ownRun (gbufferViewCalls a)).ctx.psSRV i = none := by
  simp only [gbufferViewCalls, ownRun_ctx, ownRun_host, ownRun_nil]
  interval_cases i <;> simp [State.ctxCall, CtxCall.apply, setSlots]

theorem fullScreenViewCalls_reset (a : DeferredShaderApp) (v : State W) (i : Nat)
    (hi : i < 4) : (v.ownRun (fullScreenViewCalls a)).ctx.psSRV i = none := by
  simp only [fullScreenViewCalls, fullScreenShaderCalls]
  split_ifs <;> simp only [List.cons_append, List.nil_append, List.append_nil, ownRun_ctx,
    ownRun_host, ownRun_nil] <;>
    interval_cases i <;> simp [State.ctxCall, CtxCall.apply, setSlots]

theorem guardedView_prefix (a : DeferredShaderApp) (body p : List Call) (hp : p ≠ [])
    (h : p <+: guardedView a body) :
    ∃ q, p = Call.ctx (.OMSetRenderTargets a.mRenderTargetView none) :: q ∧
      (q <+: body ∨ q = body ++
        [Call.ctx (.OMSetRenderTargets a.mRenderTargetView (some .GetDepthDSV))]) := by
  rw [guardedView, List.cons_append, List.prefix_cons_iff] at h
  rcases h with h | ⟨q, hq, hpre⟩
  · exact absurd h hp
  · refine ⟨q, hq, ?_⟩
    rcases List.prefix_concat_iff.mp hpre with h1 | h1
    · exact Or.inr h1
    · exact Or.inl h1

theorem guardedView_safe (u : State W) (body : List Call)
    (hb1 : ∀ c ∈ body, ∀ r d, c ≠ Call.ctx (.OMSetRenderTargets r d))
    (hb2 : ∀ (v : State W) (i : Nat), i < 4 → (v.ownRun body).ctx.psSRV i = none) :
    (∀ p, p ≠ [] → p <+: guardedView u.app body → ¬ Hazard (u.ownRun p).ctx) ∧
    (∀ p, p ≠ [] → p <+: guardedView u.app body → p ≠ guardedView u.app body →
      (u.ownRun p).ctx.dsv = none) ∧
    (∀ i, i < 4 → (u.ownRun (Call.ctx (.OMSetRenderTargets u.app.mRenderTargetView none) ::
      body)).ctx.psSRV i = none) := by
  have key : ∀ q, q <+: body →
      (u.ownRun (Call.ctx (.OMSetRenderTargets u.app.mRenderTargetView none) :: q)).ctx.dsv =
        none := by
    intro q hq
    rw [ownRun_ctx, ownRun_dsv q _ (fun c hc => hb1 c (hq.subset hc))]
    rfl
  refine ⟨?_, ?_, ?_⟩
  · intro p hp hpre hz
    obtain ⟨q, rfl, h | h⟩ := guardedView_prefix u.app body p hp hpre
    · have := key q h
      rw [hz.1] at this
      cases this
    · subst h
      obtain ⟨_, i, hi, hsrv⟩ := hz
      rw [ownRun_ctx, ownRun_append] at hsrv
      have := hb2 (u.ctxCall (.OMSetRenderTargets u.app.mRenderTargetView none)) i hi
      rw [show (State.ownRun [Call.ctx (.OMSetRenderTargets u.app.mRenderTargetView
        (some .GetDepthDSV))] (State.ownRun body (u.ctxCall (.OMSetRenderTargets
        u.app.mRenderTargetView none)))).ctx.psSRV i = (State.ownRun body (u.ctxCall
        (.OMSetRenderTargets u.app.mRenderTargetView none))).ctx.psSRV i from rfl, this] at hsrv
      cases hsrv
  · intro p hp hpre hne
    obtain ⟨q, rfl, h | h⟩ := guardedView_prefix u.app body p hp hpre
    · exact key q h
    · subst h
      exact absurd (by simp [guardedView]) hne
  · intro i hi
    rw [ownRun_ctx]
    exact hb2 _ i hi

theorem EmitsAll.all_trans {p : Call → Bool} {s t u : State W} (h1 : EmitsAll p s t)
    (h2 : EmitsAll p t u) : EmitsAll p s u := by
  obtain ⟨a, ha, hp⟩ := h1
  obtain ⟨b, hb, hq⟩ := h2
  exact ⟨a ++ b, by rw [hb, ha, List.append_assoc], by simp [hp, hq]⟩

theorem EmitsAll.all_enter {p : Call → Bool} {s t : State W} (c : Call)
    (hp : p c = true) (h : EmitsAll p s t) : EmitsAll p s (t.enter c) := by
  obtain ⟨calls, h1, h2⟩ := h
  exact ⟨calls ++ [c], by simp [h1], by simp [h2, hp]⟩

theorem EmitsAll.all_ctx {p : Call → Bool} {s t : State W} (c : CtxCall)
    (hp : p (Call.ctx c) = true) (h : EmitsAll p s t) : EmitsAll p s (t.ctxCall c) := by
  obtain ⟨calls, h1, h2⟩ := h
  exact ⟨calls ++ [Call.ctx c], by simp [h1], by simp [h2, hp]⟩

theorem EmitsAll.all_setApp {p : Call → Bool} {s t : State W}
    (f : DeferredShaderApp → DeferredShaderApp) (h : EmitsAll p s t) :
    EmitsAll p s (t.setApp f) := h

theorem guiCamera_all (E : Env W) (gui : GuiInput) (p : Call → Bool) (s s' : State W)
    (hcam : ∀ c, p (Call.camera c) = true)
    (h : DeferredShaderApp.guiCamera E gui s = .ok s') : EmitsAll p s s' := by
  cases hc : s.app.mCamera with
  | none => simp [DeferredShaderApp.guiCamera, deref, hc, bind, Except.bind] at h
  | some cam =>
    simp [DeferredShaderApp.guiCamera, deref, hc, bind, Except.bind, pure, Except.pure] at h
    subst h
    exact ((((EmitsAll.all_refl p s).ext E _ (hcam _)).ext E _ (hcam _)).ext E _
      (hcam _)).ext E _ (hcam _)

theorem guiSettings_all (E : Env W) (gui : GuiInput) (p : Call → Bool) (s s' : State W)
    (hcam : ∀ c, p (Call.camera c) = true) (hhost : ∀ c : HostCall, c ≠ .VisualizeGBuffer →
      c ≠ .VisualizeFullScreenGBufferTexture → p (Call.host c) = true)
    (h : DeferredShaderApp.guiSettings E gui s = .ok s') : EmitsAll p s s' := by
  simp only [DeferredShaderApp.guiSettings] at h
  have e1 : EmitsAll p s (((s.extCall E (.host .ImGuiSettingsWindow)).setApp
      (DeferredShaderApp.guiLights gui)).setApp
      (fun a => if gui.ambientOpen then DeferredShaderApp.guiAmbient gui a else a)) :=
    (((EmitsAll.all_refl p s).ext E _ (hhost _ (by simp) (by simp))).all_setApp _).all_setApp _
  split at h
  · rename_i t ht
    simp only [Except.ok.injEq] at h
    subst h
    apply EmitsAll.all_setApp
    by_cases hco : gui.cameraOpen = true
    · rw [if_pos hco] at ht
      exact e1.all_trans (guiCamera_all E gui p _ _ hcam ht)
    · rw [if_neg hco] at ht
      simp only [Except.ok.injEq] at ht
      subst ht
      exact e1
  · simp at h

theorem RenderGUI_all (E : Env W) (gui : GuiInput) (p : Call → Bool) (s s' : State W)
    (hcam : ∀ c, p (Call.camera c) = true) (hhost : ∀ c : HostCall, c ≠ .VisualizeGBuffer →
      c ≠ .VisualizeFullScreenGBufferTexture → p (Call.host c) = true)
    (h : DeferredShaderApp.RenderGUI E gui s = .ok s') : EmitsAll p s s' := by
  obtain ⟨A, hA, e1⟩ : ∃ A : State W,
      (if ((s.enter (.host .RenderGUI)).extCall E (.host .ImGuiNewFrame)).app.mShowRenderStats
          = true
        then ((s.enter (.host .RenderGUI)).extCall E (.host .ImGuiNewFrame)).extCall E
          (.host .ImGuiFramerateWindow)
        else (s.enter (.host .RenderGUI)).extCall E (.host .ImGuiNewFrame)) = A ∧
      EmitsAll p s A :=
    ⟨_, rfl, EmitsAll.ite_ext E _ _ (hhost _ (by simp) (by simp))
      (((EmitsAll.all_refl p s).all_enter _ (hhost _ (by simp) (by simp))).ext E _ (hhost _ (by simp) (by simp)))⟩
  simp only [DeferredShaderApp.RenderGUI, hA] at h
  split at h
  · rename_i t ht
    simp only [Except.ok.injEq] at h
    subst h
    have e2 : EmitsAll p s t := by
      by_cases h1 : A.app.mShowSettings = true
      · rw [if_pos h1] at ht
        exact e1.all_trans (guiSettings_all E gui p _ _ hcam hhost ht)
      · rw [if_neg h1] at ht
        simp only [Except.ok.injEq] at ht
        subst ht
        exact e1
    exact (e2.ext E _ (hhost _ (by simp) (by simp))).ext E _ (hhost _ (by simp) (by simp))
  · simp at h

theorem finishFrame_tail (E : Env W) (gui : GuiInput) (p : Option Handle) (n : Nat)
    (t s' : State W) (h : DeferredShaderApp.finishFrame E gui p n t = .ok s') :
    EmitsAll (fun c => !isBind c && !isViewEntry c) (DeferredShaderApp.debugViews E t) s' := by
  simp only [DeferredShaderApp.finishFrame, bind, Except.bind] at h
  split at h
  · simp at h
  · rename_i g hg
    simp only [pure, Except.pure, Except.ok.injEq] at h
    subst h
    have e1 : EmitsAll (fun c => !isBind c && !isViewEntry c) (DeferredShaderApp.debugViews E t)
        (((DeferredShaderApp.debugViews E t).ctxCall (.OMSetDepthStencilState p n)).enter
          (.host (.Release p))) :=
      ((EmitsAll.all_refl _ _).all_ctx _ rfl).all_enter _ rfl
    have e2 := RenderGUI_all E gui (fun c => !isBind c && !isViewEntry c) _ _
      (fun _ => rfl) (fun c h1 h2 => by
        cases c <;> first
          | rfl
          | exact absurd rfl h1
          | exact absurd rfl h2) hg
    exact ((e1.all_trans e2).all_ctx _ rfl).ext E _ rfl

theorem packAndLight_calls (E : Env W) (s : State W) (hi : Initialised s) :
    ∃ t pack, DeferredShaderApp.packAndLight E s = .ok t ∧ t.app = s.app ∧
      t.trace = s.trace ++ (pack ++ [Call.gbuffer .PostRender,
        Call.ctx (.OMSetRenderTargets s.app.mRenderTargetView (some .GetDepthReadOnlyDSV)),
        Call.gbuffer .PrepareForUnpack, Call.light .DoLighting]) ∧
      phases pack = [Phase.preRender, Phase.sceneRender] := by
  obtain ⟨hc, hsc, hm⟩ := hi
  obtain ⟨cam, hcam⟩ := Option.ne_none_iff_exists'.mp hc
  simp only [DeferredShaderApp.packAndLight, bind, Except.bind, deref, ctxCall_app, hcam,
    extCall_app]
  generalize hP : State.extCall E (Call.gbuffer GBufferCall.PreRender) _ = P
  have kP : P.app = s.app ∧ P.scene = s.scene := by subst hP; simp
  have eP : Emits s P [Phase.preRender] := by
    subst hP
    apply Emits.of_drop <;> simp [phase, isResizeCall, initSize, lensOf]
  obtain ⟨v, hv, av, sv, ev⟩ := SceneManager_Render_spec E P (kP.2 ▸ hsc) (kP.2 ▸ hm)
  simp only [hv]
  obtain ⟨pack, hb, hp, _⟩ := eP.trans ev
  refine ⟨_, pack, rfl, ?_, ?_, by simpa [phase] using hp⟩
  · simp [av, kP.1]
  · simp [hb, av, kP.1]

theorem phase_of_viewEntry (c : Call) (h : isViewEntry c = true) :
    phase c = some Phase.debug := by
  cases c with
  | host x => cases x <;> first | rfl | exact absurd h (by simp [isViewEntry])
  | ctx x => exact absurd h (by simp [isViewEntry])
  | light x => exact absurd h (by simp [isViewEntry])
  | gbuffer x => exact absurd h (by simp [isViewEntry])
  | camera x => exact absurd h (by simp [isViewEntry])
  | scene x => exact absurd h (by simp [isViewEntry])
  | device x => exact absurd h (by simp [isViewEntry])

/-- C14: the application's own calls in `Render` never leave the GBuffer depth surface bound as
the writable depth-stencil target and as a pixel-shader input in slots 0 to 3 at once.
`Render` returns; from the end of the pack phase to `DoLighting` its only own call binds the
read-only depth view; the calls before hold no entry into a GBuffer view; the calls after the
debug views bind neither a depth-stencil target nor shader resources and enter no view.  Inside
the debug views the two GBuffer views are reached only through `gbufferBlock` and
`fullScreenBlock`.  From every state `u`, each block is its list of calls run in order, and
after every non-empty initial part of that list there is no hazard, the depth-stencil target is
NULL until the last call, which binds `GetDepthDSV`, and slots 0 to 3 are NULL when the view
has returned. -/
theorem C14_no_depth_hazard (E : Env W) (gui : GuiInput) (n fuel : Nat) (s : State W)
    (hi : Initialised s) (hs : SchedulerRuns E n (DeferredShaderApp.storeStates s))
    (hf : n < fuel) :
    ∃ t s' pack post,
      DeferredShaderApp.renderToLighting E fuel s = .ok t ∧
      t.trace = s.trace ++ pack ++ [Call.gbuffer .PostRender,
        Call.ctx (.OMSetRenderTargets s.app.mRenderTargetView (some .GetDepthReadOnlyDSV)),
        Call.gbuffer .PrepareForUnpack, Call.light .DoLighting] ∧
      (∀ c ∈ pack, isViewEntry c = false) ∧
      DeferredShaderApp.Render E gui fuel s = .ok s' ∧
      s'.trace = (DeferredShaderApp.debugViews E t).trace ++ post ∧
      (∀ c ∈ post, isBind c = false ∧ isViewEntry c = false) ∧
      (∀ u : State W,
        DeferredShaderApp.debugViews E u =
          (let s1 := if u.app.mVisualizeLightVolume then u.extCall E (.light .DoDebugLightVolume)
            else u
          let s2 := if s1.app.mVisualizeGBuffer then DeferredShaderApp.gbufferBlock s1 else s1
          let s3 := if s2.app.mRenderState ≠ BACKBUFFERRT then
            DeferredShaderApp.fullScreenBlock s2 else s2
          let s4 := if s3.app.mVisualizeCascades && s3.app.mDirCastShadows then
            s3.extCall E (.light .DoDebugCascadedShadows) else s3
          if s4.app.mShowShadowMap then s4.extCall E (.light .VisualizeShadowMap) else s4) ∧
        DeferredShaderApp.gbufferBlock u =
          u.ownRun (guardedView u.app (gbufferViewCalls u.app)) ∧
        DeferredShaderApp.fullScreenBlock u =
          u.ownRun (guardedView u.app (fullScreenViewCalls u.app)) ∧
        ∀ body ∈ [gbufferViewCalls u.app, fullScreenViewCalls u.app],
          (∀ p, p ≠ [] → p <+: guardedView u.app body → ¬ Hazard (u.ownRun p).ctx) ∧
          (∀ p, p ≠ [] → p <+: guardedView u.app body → p ≠ guardedView u.app body →
            (u.ownRun p).ctx.dsv = none) ∧
          (u.ownRun (guardedView u.app body)).ctx.dsv = some .GetDepthDSV ∧
          (∀ i, i < 4 → (u.ownRun (Call.ctx (.OMSetRenderTargets u.app.mRenderTargetView
            none) :: body)).ctx.psSRV i = none)) := by
  obtain ⟨u0, _, g2, g3, g4, g5⟩ := generateShadowMaps_spec E n fuel s hs hf
  obtain ⟨r1', r2', r3', _, _⟩ := restoreStates_spec s.ctx.viewport s.ctx.rsState u0
  generalize hu : DeferredShaderApp.restoreStates s.ctx.viewport s.ctx.rsState u0 = u at *
  have hiu : Initialised u := by
    unfold Initialised
    rw [r1', r2', g3, g4]
    exact hi
  obtain ⟨t, pack, p1, p2, p4, p5⟩ := packAndLight_calls E u hiu
  have hct : t.app.mCamera ≠ none := by rw [p2, r1', g3]; exact hi.1
  obtain ⟨s', _, _, f1, _, _⟩ := finishFrame_spec E gui
    (DeferredShaderApp.savedDepthState E u).1 (DeferredShaderApp.savedDepthState E u).2 t hct
  obtain ⟨post, hpost, hall⟩ := finishFrame_tail E gui _ _ t s' f1
  have hua : u.app = s.app := by rw [r1', g3]
  refine ⟨t, s', [Call.ctx (.RSGetViewports s.ctx.viewport),
      Call.ctx (.RSGetState s.ctx.rsState)] ++ shadowCalls s.scene.mMeshes n ++
      restoreCalls s.ctx.viewport s.ctx.rsState ++ pack, post, ?_, ?_, ?_, ?_, hpost, ?_, ?_⟩
  · simp [DeferredShaderApp.renderToLighting, g2, p1, bind, Except.bind]
  · rw [p4, r3', g5, hua]
    simp only [List.append_assoc]
  · intro c hc
    by_contra hv
    have hv1 : isViewEntry c = true := by simpa using hv
    have := mem_phases_of_mem c _ _ hc (phase_of_viewEntry c hv1)
    simp [phases_shadowCalls, p5, restoreCalls, phase, List.mem_replicate] at this
  · rw [Render_split, g2]
    simp only [p1]
    exact f1
  · intro c hc
    have := List.all_eq_true.mp hall c hc
    simpa using this
  · intro v
    refine ⟨rfl, gbufferBlock_ownRun v, fullScreenBlock_ownRun v, ?_⟩
    intro body hb
    have hcases : body = gbufferViewCalls v.app ∨ body = fullScreenViewCalls v.app := by
      simpa using hb
    have hsafe : (∀ c ∈ body, ∀ r d, c ≠ Call.ctx (.OMSetRenderTargets r d)) ∧
        ∀ (w : State W) (i : Nat), i < 4 → (w.ownRun body).ctx.psSRV i = none := by
      rcases hcases with h | h
      · subst h
        exact ⟨gbufferViewCalls_noTarget _, fun w i hi => gbufferViewCalls_reset _ w i hi⟩
      · subst h
        exact ⟨fullScreenViewCalls_noTarget _, fun w i hi => fullScreenViewCalls_reset _ w i hi⟩
    obtain ⟨a1, a2, a3⟩ := guardedView_safe v body hsafe.1 hsafe.2
    refine ⟨a1, a2, ?_, a3⟩
    rw [guardedView, ownRun_append]
    rfl

/-- Witness of C14: the sample application with two shadow passes to come. -/
theorem C14_no_depth_hazard_witness :
    Initialised (sampleState 2) ∧
    SchedulerRuns sampleEnv 2 (DeferredShaderApp.storeStates (sampleState 2)) ∧ 2 < 3 ∧
    ∃ t s' pack post,
      DeferredShaderApp.renderToLighting sampleEnv 3 (sampleState 2) = .ok t ∧
      t.trace = (sampleState 2).trace ++ pack ++ [Call.gbuffer .PostRender,
        Call.ctx (.OMSetRenderTargets (sampleState 2).app.mRenderTargetView
          (some .GetDepthReadOnlyDSV)),
        Call.gbuffer .PrepareForUnpack, Call.light .DoLighting] ∧
      (∀ c ∈ pack, isViewEntry c = false) ∧
      DeferredShaderApp.Render sampleEnv idleGui 3 (sampleState 2) = .ok s' ∧
      s'.trace = (DeferredShaderApp.debugViews sampleEnv t).trace ++ post ∧
      (∀ c ∈ post, isBind c = false ∧ isViewEntry c = false) ∧
      (∀ u : State Nat,
        DeferredShaderApp.debugViews sampleEnv u =
          (let s1 := if u.app.mVisualizeLightVolume then
            u.extCall sampleEnv (.light .DoDebugLightVolume) else u
          let s2 := if s1.app.mVisualizeGBuffer then DeferredShaderApp.gbufferBlock s1 else s1
          let s3 := if s2.app.mRenderState ≠ BACKBUFFERRT then
            DeferredShaderApp.fullScreenBlock s2 else s2
          let s4 := if s3.app.mVisualizeCascades && s3.app.mDirCastShadows then
            s3.extCall sampleEnv (.light .DoDebugCascadedShadows) else s3
          if s4.app.mShowShadowMap then s4.extCall sampleEnv (.light .VisualizeShadowMap)
          else s4) ∧
        DeferredShaderApp.gbufferBlock u =
          u.ownRun (guardedView u.app (gbufferViewCalls u.app)) ∧
        DeferredShaderApp.fullScreenBlock u =
          u.ownRun (guardedView u.app (fullScreenViewCalls u.app)) ∧
        ∀ body ∈ [gbufferViewCalls u.app, fullScreenViewCalls u.app],
          (∀ p, p ≠ [] → p <+: guardedView u.app body → ¬ Hazard (u.ownRun p).ctx) ∧
          (∀ p, p ≠ [] → p <+: guardedView u.app body → p ≠ guardedView u.app body →
            (u.ownRun p).ctx.dsv = none) ∧
          (u.ownRun (guardedView u.app body)).ctx.dsv = some .GetDepthDSV ∧
          (∀ i, i < 4 → (u.ownRun (Call.ctx (.OMSetRenderTargets u.app.mRenderTargetView
            none) :: body)).ctx.psSRV i = none)) :=
  ⟨sampleState_initialised 2, sampleState_scheduler, by decide,
    C14_no_depth_hazard sampleEnv idleGui 2 3 (sampleState 2)
      (sampleState_initialised 2) sampleState_scheduler (by decide)⟩

/-! ## Claims on the mouse -/

/-- C15 (code defect): a middle-button drag along one axis does not rotate the light.  With the
middle button held, the right button not held and a cursor position that differs from the last
one in exactly one coordinate, `OnMouseMove` returns without a call, stores the new position and
leaves `mDirLightDir` as it was, because its condition asks for both coordinates to differ; so
whenever the rotated direction differs from the current one, the light does not have it. -/
theorem C15_axis_aligned_drag_ignored (E : Env W) (btnState : Nat) (x y : Int) (s : State W)
    (hr : btnState &&& MK_RBUTTON = 0) (_hm : btnState &&& MK_MBUTTON ≠ 0)
    (_hpos : (x, y) ≠ s.app.mLastMousePos)
    (hax : x = s.app.mLastMousePos.1 ∨ y = s.app.mLastMousePos.2) :
    ∃ s', DeferredShaderApp.OnMouseMove E btnState x y s = .ok s' ∧
      s'.app.mDirLightDir = s.app.mDirLightDir ∧
      s'.app.mLastMousePos = (x, y) ∧
      s'.trace = s.trace ∧
      (DeferredShaderApp.rotatedLightDir E x y s ≠ s.app.mDirLightDir →
        s'.app.mDirLightDir ≠ DeferredShaderApp.rotatedLightDir E x y s) := by
  have hcond : ¬ (btnState &&& MK_MBUTTON ≠ 0 ∧
      (x ≠ s.app.mLastMousePos.1 ∧ y ≠ s.app.mLastMousePos.2)) := by
    rintro ⟨_, h1, h2⟩
    rcases hax with h | h
    · exact h1 h
    · exact h2 h
  refine ⟨s.setApp (fun a => { a with mLastMousePos := (x, y) }), ?_, rfl, rfl, rfl,
    fun h => Ne.symm h⟩
  simp only [DeferredShaderApp.OnMouseMove]
  rw [if_neg (not_not.mpr hr), if_neg hcond]
  rfl

/-- Witness of C15: the sample application, the middle button held, the mouse moved five pixels
to the right of the last position `(0, 0)`; the rotated direction would be
`(-0.2, -0.4, -0.9)`, the light keeps `(-0.1, -0.4, -0.9)`. -/
theorem C15_axis_aligned_drag_ignored_witness :
    MK_MBUTTON &&& MK_RBUTTON = 0 ∧ MK_MBUTTON &&& MK_MBUTTON ≠ 0 ∧
    ((5, 0) : Int × Int) ≠ (sampleState 0).app.mLastMousePos ∧
    DeferredShaderApp.rotatedLightDir sampleEnv 5 0 (sampleState 0) = ⟨-0.2, -0.4, -0.9, 1⟩ ∧
    (sampleState 0).app.mDirLightDir = ⟨-0.1, -0.4, -0.9, 1⟩ ∧
    ∃ s', DeferredShaderApp.OnMouseMove sampleEnv MK_MBUTTON 5 0 (sampleState 0) = .ok s' ∧
      s'.app.mDirLightDir = (sampleState 0).app.mDirLightDir ∧
      s'.app.mLastMousePos = (5, 0) ∧
      s'.trace = (sampleState 0).trace ∧
      (DeferredShaderApp.rotatedLightDir sampleEnv 5 0 (sampleState 0) ≠
          (sampleState 0).app.mDirLightDir →
        s'.app.mDirLightDir ≠ DeferredShaderApp.rotatedLightDir sampleEnv 5 0 (sampleState 0)) :=
  ⟨by decide, by decide, by decide,
    by
      simp only [DeferredShaderApp.rotatedLightDir, sampleState, DeferredShaderApp.new,
        sampleEnv, XMVectorSet, XMLoadFloat3, XMVECTOR.sub, XMVECTOR.add, XMVECTOR.scale]
      norm_num,
    by
      simp only [sampleState, DeferredShaderApp.new, XMVectorSet]
      norm_num,
    C15_axis_aligned_drag_ignored sampleEnv MK_MBUTTON 5 0 (sampleState 0) (by decide)
      (by decide) (by decide) (Or.inr rfl)⟩

/-! ## Claims on tear-down -/

/-- The calls of `Mesh::Destroy` for the meshes a list still holds. -/
theorem releaseMeshes_spec (E : Env W) (rest done : List (Option Handle)) (s : State W)
    (h : s.scene.mMeshes = done ++ rest) :
    (SceneManager.releaseMeshes E rest.length done.length s).scene =
        { s.scene with mMeshes := done ++ List.replicate rest.length none } ∧
      (SceneManager.releaseMeshes E rest.length done.length s).app = s.app ∧
      (SceneManager.releaseMeshes E rest.length done.length s).trace = s.trace ++
        (rest.filterMap id).map (fun m => Call.scene (.MeshDestroy m)) := by
  induction rest generalizing done s with
  | nil =>
    refine ⟨?_, rfl, by simp [SceneManager.releaseMeshes]⟩
    rw [List.append_nil] at h
    simp only [List.length_nil, List.replicate_zero, List.append_nil,
      SceneManager.releaseMeshes]
    rw [← h]
  | cons x rest ih =>
    have hget : s.scene.mMeshes.getD done.length none = x := by
      rw [h, List.getD_append_right _ _ _ _ (le_refl _)]
      simp
    simp only [List.length_cons, SceneManager.releaseMeshes, hget]
    cases x with
    | none =>
      have := ih (done ++ [none]) s (by simp [h])
      simp only [List.length_append, List.length_singleton] at this
      obtain ⟨a1, a2, a3⟩ := this
      refine ⟨?_, a2, ?_⟩
      · rw [a1]
        simp [List.replicate_succ]
      · rw [a3]
        simp
    | some m =>
      have := ih (done ++ [none])
        ((s.extCall E (.scene (.MeshDestroy m))).setScene
          (fun sc => { sc with mMeshes := sc.mMeshes.set done.length none }))
        (by simp [State.setScene, State.extCall, h, List.set_append])
      simp only [List.length_append, List.length_singleton] at this
      obtain ⟨a1, a2, a3⟩ := this
      refine ⟨?_, a2, ?_⟩
      · rw [a1]
        simp [State.setScene, State.extCall, List.replicate_succ]
      · rw [a3]
        simp [State.setScene, State.extCall]

theorem mem_of_getD_some (l : List (Option Handle)) (i : Nat) (m : Handle)
    (h : l.getD i none = some m) : some m ∈ l := by
  rw [List.getD_eq_getElem?_getD] at h
  cases hx : l[i]? with
  | none => simp [hx] at h
  | some v =>
    simp [hx] at h
    subst h
    exact List.getElem?_mem hx

theorem releaseMeshes_none (E : Env W) (k i : Nat) (s : State W)
    (h : ∀ x ∈ s.scene.mMeshes, x = none) : SceneManager.releaseMeshes E k i s = s := by
  induction k generalizing i with
  | zero => rfl
  | succ k ih =>
    simp only [SceneManager.releaseMeshes]
    cases hx : s.scene.mMeshes.getD i none with
    | none => exact ih (i + 1)
    | some m => exact absurd (h _ (mem_of_getD_some _ _ _ hx)) (by simp)

theorem Release_loop (E : Env W) (s : State W) :
    (if s.scene.mMeshes.length > 0 then
      SceneManager.releaseMeshes E s.scene.mMeshes.length 0 s else s) =
      SceneManager.releaseMeshes E s.scene.mMeshes.length 0 s := by
  split_ifs with h
  · rfl
  · have : s.scene.mMeshes.length = 0 := by omega
    rw [this]
    rfl

theorem Release_spec (E : Env W) (s : State W) :
    (SceneManager.Release E s).app = s.app ∧
    (SceneManager.Release E s).scene =
      { mMeshes := List.replicate s.scene.mMeshes.length none
        mSceneVertexShaderCB := E.SAFE_RELEASE s.scene.mSceneVertexShaderCB
        mScenePixelShaderCB := E.SAFE_RELEASE s.scene.mScenePixelShaderCB
        mSceneVertexShader := E.SAFE_RELEASE s.scene.mSceneVertexShader
        mSceneVSLayout := E.SAFE_RELEASE s.scene.mSceneVSLayout
        mScenePixelShader := E.SAFE_RELEASE s.scene.mScenePixelShader
        mCamera := s.scene.mCamera } ∧
    (SceneManager.Release E s).trace = s.trace ++ (Call.scene .Release ::
      ((s.scene.mMeshes.filterMap id).map (fun m => Call.scene (.MeshDestroy m)) ++
      [Call.host (.Release s.scene.mSceneVertexShaderCB),
        Call.host (.Release s.scene.mScenePixelShaderCB),
        Call.host (.Release s.scene.mSceneVertexShader),
        Call.host (.Release s.scene.mSceneVSLayout),
        Call.host (.Release s.scene.mScenePixelShader)])) := by
  have key := releaseMeshes_spec E s.scene.mMeshes [] (s.enter (.scene .Release)) rfl
  have hl := Release_loop E (s.enter (.scene .Release))
  simp only [SceneManager.Release, hl]
  simp only [List.length_nil, List.nil_append, enter_app, enter_trace, enter_scene] at key ⊢
  generalize SceneManager.releaseMeshes E s.scene.mMeshes.length 0
    (s.enter (.scene .Release)) = r at key ⊢
  obtain ⟨a1, a2, a3⟩ := key
  refine ⟨?_, ?_, ?_⟩
  · simpa [State.setScene, State.enter] using a2
  · simp [State.setScene, State.enter, a1]
  · simp [State.setScene, State.enter, a1, a3]

theorem Release_cleared (E : Env W) (t : State W) (hnull : ∀ p, E.SAFE_RELEASE p = none)
    (hm : ∀ x ∈ t.scene.mMeshes, x = none)
    (h1 : t.scene.mSceneVertexShaderCB = none) (h2 : t.scene.mScenePixelShaderCB = none)
    (h3 : t.scene.mSceneVertexShader = none) (h4 : t.scene.mSceneVSLayout = none)
    (h5 : t.scene.mScenePixelShader = none) :
    SceneManager.Release E t = { t with trace := t.trace ++ [Call.scene .Release,
      Call.host (.Release none), Call.host (.Release none), Call.host (.Release none),
      Call.host (.Release none), Call.host (.Release none)] } := by
  have hl := Release_loop E (t.enter (.scene .Release))
  have hn := releaseMeshes_none E (t.enter (.scene .Release)).scene.mMeshes.length 0
    (t.enter (.scene .Release)) hm
  simp only [SceneManager.Release, hl, hn]
  obtain ⟨app, scene, ctx, world, trace⟩ := t
  obtain ⟨ms, p1, p2, p3, p4, p5, cam⟩ := scene
  simp only at h1 h2 h3 h4 h5
  subst h1 h2 h3 h4 h5
  simp [State.enter, State.setScene, hnull]

theorem count_destroys (l : List (Option Handle)) (m : Handle) :
    ((l.filterMap id).map (fun m => Call.scene (.MeshDestroy m))).count
      (Call.scene (.MeshDestroy m)) = l.count (some m) := by
  induction l with
  | nil => rfl
  | cons x l ih =>
    cases x with
    | none => simpa [List.count_cons] using ih
    | some a =>
      by_cases h : a = m
      · subst h
        simp [List.count_cons, ih]
      · simp [List.count_cons, ih, h]

theorem count_destroys_release (l : List (Option Handle)) :
    ((l.filterMap id).map (fun m => Call.scene (.MeshDestroy m))).count
      (Call.scene .Release) = 0 := by
  rw [List.count_eq_zero]
  simp

theorem releaseMembers_spec (E : Env W) (s : State W) :
    (DeferredShaderApp.releaseMembers E s).scene = s.scene ∧
    (DeferredShaderApp.releaseMembers E s).trace = s.trace ++
      [Call.host (.Release s.app.mSampLinear), Call.host (.Release s.app.mSampPoint),
        Call.host (.Release s.app.mGBufferVisVertexShader),
        Call.host (.Release s.app.mGBufferVisPixelShader),
        Call.host (.Release s.app.mTextureVisVS), Call.host (.Delete s.app.mCamera),
        Call.host (.Release s.app.mTextureVisDepthPS),
        Call.host (.Release s.app.mTextureVisCSpecPS),
        Call.host (.Release s.app.mTextureVisNormalPS),
        Call.host (.Release s.app.mTextureVisSpecPowPS)] := by
  simp [DeferredShaderApp.releaseMembers]

theorem destructor_trace (E : Env W) (s : State W) (hnull : ∀ p, E.SAFE_RELEASE p = none) :
    ∃ pre mid, (DeferredShaderApp.destructor E s).trace = s.trace ++ (pre ++
        (Call.scene .Release ::
          ((s.scene.mMeshes.filterMap id).map (fun m => Call.scene (.MeshDestroy m)) ++
            mid))) ∧
      pre.count (Call.scene .Release) = 0 ∧ mid.count (Call.scene .Release) = 1 ∧
      ∀ m, pre.count (Call.scene (.MeshDestroy m)) = 0 ∧
        mid.count (Call.scene (.MeshDestroy m)) = 0 := by
  obtain ⟨m1, m2⟩ := releaseMembers_spec E s
  simp only [DeferredShaderApp.destructor, SceneManager.destructor]
  generalize DeferredShaderApp.releaseMembers E s = A at m1 m2 ⊢
  obtain ⟨_, b2, b3⟩ := Release_spec E A
  generalize SceneManager.Release E A = B at b2 b3 ⊢
  have hc := Release_cleared E ((((B.extCall E (.light .Release)).extCall E
      (.gbuffer .Release)).extCall E (.gbuffer .Destructor)).extCall E (.light .Destructor))
    hnull (by simp [b2]) (by simp [b2, hnull]) (by simp [b2, hnull])
    (by simp [b2, hnull]) (by simp [b2, hnull]) (by simp [b2, hnull])
  rw [hc]
  refine ⟨[Call.host (.Release s.app.mSampLinear), Call.host (.Release s.app.mSampPoint),
      Call.host (.Release s.app.mGBufferVisVertexShader),
      Call.host (.Release s.app.mGBufferVisPixelShader),
      Call.host (.Release s.app.mTextureVisVS), Call.host (.Delete s.app.mCamera),
      Call.host (.Release s.app.mTextureVisDepthPS),
      Call.host (.Release s.app.mTextureVisCSpecPS),
      Call.host (.Release s.app.mTextureVisNormalPS),
      Call.host (.Release s.app.mTextureVisSpecPowPS)],
    [Call.host (.Release s.scene.mSceneVertexShaderCB),
      Call.host (.Release s.scene.mScenePixelShaderCB),
      Call.host (.Release s.scene.mSceneVertexShader),
      Call.host (.Release s.scene.mSceneVSLayout),
      Call.host (.Release s.scene.mScenePixelShader),
      Call.light .Release, Call.gbuffer .Release, Call.gbuffer .Destructor,
      Call.light .Destructor, Call.scene .Release,
      Call.host (.Release none), Call.host (.Release none), Call.host (.Release none),
      Call.host (.Release none), Call.host (.Release none),
      Call.host .BaseDestructor], ?_, ?_, ?_, ?_⟩
  · simp [b3, m2, m1]
  · simp [List.count_cons]
  · simp [List.count_cons]
  · intro m
    simp [List.count_cons]

/-- C16: `SceneManager::Release` is idempotent, for the macro `SAFE_RELEASE` that leaves NULL
in the pointer it is applied to.  From every state the first `Release` calls `Destroy` on the
meshes the list holds, in order; a second `Release` gives the state of the first except for the
calls it adds, which are its own entry and five `SAFE_RELEASE` of a NULL pointer: no `Destroy`
and no object to release.  The destructor of the application, whose body calls `Release` and
after which the destructor of the member `mSceneManager` calls it again, enters `Release` twice
and calls `Destroy` on each mesh as many times as the list holds it. -/
theorem C16_release_idempotent (E : Env W) (s : State W)
    (hnull : ∀ p, E.SAFE_RELEASE p = none) :
    (∃ marks, (SceneManager.Release E s).trace = s.trace ++ (Call.scene .Release ::
      ((s.scene.mMeshes.filterMap id).map (fun m => Call.scene (.MeshDestroy m)) ++ marks)) ∧
      ∀ m, marks.count (Call.scene (.MeshDestroy m)) = 0) ∧
    SceneManager.Release E (SceneManager.Release E s) =
      { SceneManager.Release E s with
        trace := (SceneManager.Release E s).trace ++ [Call.scene .Release,
          Call.host (.Release none), Call.host (.Release none), Call.host (.Release none),
          Call.host (.Release none), Call.host (.Release none)] } ∧
    (SceneManager.Release E (SceneManager.Release E s)).scene =
      (SceneManager.Release E s).scene ∧
    (∃ calls, (DeferredShaderApp.destructor E s).trace = s.trace ++ calls ∧
      calls.count (Call.scene .Release) = 2 ∧
      ∀ m, calls.count (Call.scene (.MeshDestroy m)) = s.scene.mMeshes.count (some m)) := by
  obtain ⟨_, b2, b3⟩ := Release_spec E s
  have hc := Release_cleared E (SceneManager.Release E s) hnull (by simp [b2])
    (by simp [b2, hnull]) (by simp [b2, hnull]) (by simp [b2, hnull])
    (by simp [b2, hnull]) (by simp [b2, hnull])
  obtain ⟨pre, mid, d1, d2, d3, d4⟩ := destructor_trace E s hnull
  refine ⟨⟨_, b3, fun m => by simp [List.count_cons]⟩, hc, by rw [hc], _, d1, ?_, ?_⟩
  · simp [List.count_append, List.count_cons, d2, d3, count_destroys_release]
  · intro m
    simp [List.count_append, List.count_cons, (d4 m).1, (d4 m).2, count_destroys]

/-- Witness of C16: a scene manager with the meshes 10 and 11 and all its D3D objects. -/
theorem C16_release_idempotent_witness :
    (∀ p, sampleEnv.SAFE_RELEASE p = none) ∧
    (SceneManager.Release sampleEnv loadedState).trace =
      [Call.scene .Release, Call.scene (.MeshDestroy 10), Call.scene (.MeshDestroy 11),
        Call.host (.Release (some 20)), Call.host (.Release (some 21)),
        Call.host (.Release (some 22)), Call.host (.Release (some 23)),
        Call.host (.Release (some 24))] ∧
    (∃ marks, (SceneManager.Release sampleEnv loadedState).trace = loadedState.trace ++
      (Call.scene .Release :: ((loadedState.scene.mMeshes.filterMap id).map
        (fun m => Call.scene (.MeshDestroy m)) ++ marks)) ∧
      ∀ m, marks.count (Call.scene (.MeshDestroy m)) = 0) ∧
    SceneManager.Release sampleEnv (SceneManager.Release sampleEnv loadedState) =
      { SceneManager.Release sampleEnv loadedState with
        trace := (SceneManager.Release sampleEnv loadedState).trace ++ [Call.scene .Release,
          Call.host (.Release none), Call.host (.Release none), Call.host (.Release none),
          Call.host (.Release none), Call.host (.Release none)] } ∧
    (SceneManager.Release sampleEnv (SceneManager.Release sampleEnv loadedState)).scene =
      (SceneManager.Release sampleEnv loadedState).scene ∧
    (∃ calls, (DeferredShaderApp.destructor sampleEnv loadedState).trace =
        loadedState.trace ++ calls ∧
      calls.count (Call.scene .Release) = 2 ∧
      ∀ m, calls.count (Call.scene (.MeshDestroy m)) =
        loadedState.scene.mMeshes.count (some m)) :=
  ⟨fun _ => rfl, rfl, C16_release_idempotent sampleEnv loadedState (fun _ => rfl)⟩

/-! ## Claims on the full-screen view -/

theorem ownRun_trace (cs : List Call) (u : State W) : (u.ownRun cs).trace = u.trace ++ cs := by
  induction cs generalizing u with
  | nil => simp [ownRun_nil]
  | cons c cs ih =>
    have h : u.ownRun (c :: cs) = (State.ownRun [c] u).ownRun cs := ownRun_append [c] cs u
    rw [h, ih]
    cases c <;> simp [State.ownRun]

theorem gbufferBlock_noEntry (t : State W) :
    EmitsAll (fun c => !isFullScreenEntry c) t (DeferredShaderApp.gbufferBlock t) := by
  refine ⟨guardedView t.app (gbufferViewCalls t.app), ?_, ?_⟩
  · rw [gbufferBlock_ownRun, ownRun_trace]
  · simp [guardedView, gbufferViewCalls, isFullScreenEntry]

theorem gbufferBlock_app (t : State W) : (DeferredShaderApp.gbufferBlock t).app = t.app := by
  rw [gbufferBlock_ownRun, ownRun_app]

theorem debugViews_noEntry (E : Env W) (u : State W)
    (h : u.app.mRenderState = BACKBUFFERRT) :
    EmitsAll (fun c => !isFullScreenEntry c) u (DeferredShaderApp.debugViews E u) := by
  have key : ∀ (t X : State W), t.app = u.app →
      EmitsAll (fun c => !isFullScreenEntry c) u t →
      EmitsAll (fun c => !isFullScreenEntry c) u
        (if t.app.mRenderState ≠ BACKBUFFERRT then X else t) := by
    intro t X ht he
    rw [if_neg (by rw [ht, h]; simp)]
    exact he
  have gb : ∀ t : State W, EmitsAll (fun c => !isFullScreenEntry c) u t →
      EmitsAll (fun c => !isFullScreenEntry c) u
        (if t.app.mVisualizeGBuffer = true then DeferredShaderApp.gbufferBlock t else t) := by
    intro t he
    split_ifs
    · exact he.all_trans (gbufferBlock_noEntry t)
    · exact he
  have e1 : EmitsAll (fun c => !isFullScreenEntry c) u
      (if u.app.mVisualizeLightVolume = true then u.extCall E (.light .DoDebugLightVolume)
        else u) :=
    EmitsAll.ite_ext E _ _ rfl (EmitsAll.all_refl _ u)
  have e2 := gb _ e1
  have e3 := key _ (DeferredShaderApp.fullScreenBlock
    (if (if u.app.mVisualizeLightVolume = true then u.extCall E (.light .DoDebugLightVolume)
        else u).app.mVisualizeGBuffer = true
      then DeferredShaderApp.gbufferBlock
        (if u.app.mVisualizeLightVolume = true then u.extCall E (.light .DoDebugLightVolume)
          else u)
      else (if u.app.mVisualizeLightVolume = true then u.extCall E (.light .DoDebugLightVolume)
        else u))) (by split_ifs <;> simp [gbufferBlock_app]) e2
  exact EmitsAll.ite_ext E _ _ rfl (EmitsAll.ite_ext E _ _ rfl e3)

theorem guiApp_renderState (gui : GuiInput) (a : DeferredShaderApp) :
    (DeferredShaderApp.guiApp gui a).mRenderState = a.mRenderState := by
  simp only [DeferredShaderApp.guiApp, DeferredShaderApp.guiFlags, DeferredShaderApp.guiLights]
  split_ifs <;> simp [DeferredShaderApp.guiAmbient, DeferredShaderApp.guiDirectional,
    DeferredShaderApp.guiPoint]

theorem finishFrame_renderState (E : Env W) (gui : GuiInput) (p : Option Handle) (n : Nat)
    (t s' : State W) (h : DeferredShaderApp.finishFrame E gui p n t = .ok s') :
    s'.app.mRenderState = t.app.mRenderState := by
  simp only [DeferredShaderApp.finishFrame, bind, Except.bind] at h
  split at h
  · simp at h
  · rename_i g hg
    simp only [pure, Except.pure, Except.ok.injEq] at h
    subst h
    have hq : (((DeferredShaderApp.debugViews E t).ctxCall
        (.OMSetDepthStencilState p n)).enter (.host (.Release p))).app = t.app := by
      simpa using (debugViews_app E t).1
    rcases RenderGUI_app E gui _ _ hg with h1 | h1
    · show g.app.mRenderState = _
      rw [h1, hq]
    · show g.app.mRenderState = _
      rw [h1, guiApp_renderState, hq]

theorem enum_ite_ext (E : Env W) {t : State W} (b : Prop) [Decidable b] (c : Call)
    (h : IsEnumerator t.app.mRenderState) :
    IsEnumerator (if b then t.extCall E c else t).app.mRenderState := by
  split_ifs
  · exact h
  · exact h

theorem enum_ite_app {t : State W} (b : Prop) [Decidable b]
    (f : DeferredShaderApp → DeferredShaderApp)
    (hf : ∀ a, IsEnumerator a.mRenderState → IsEnumerator (f a).mRenderState)
    (h : IsEnumerator t.app.mRenderState) :
    IsEnumerator (if b then t.setApp f else t).app.mRenderState := by
  split_ifs
  · exact hf _ h
  · exact h

theorem Update_enum (E : Env W) (keys : KeyInput) (dt : ℚ) (s s' : State W)
    (h : DeferredShaderApp.Update E keys dt s = .ok s')
    (he : IsEnumerator s.app.mRenderState) : IsEnumerator s'.app.mRenderState := by
  obtain ⟨cam, hc⟩ := Update_ok E keys dt s s' h
  have key : ∃ t, DeferredShaderApp.Update E keys dt s = .ok t ∧
      IsEnumerator t.app.mRenderState := by
    refine ⟨_, by simp [DeferredShaderApp.Update, deref, hc, bind, Except.bind, pure,
      Except.pure]; rfl, ?_⟩
    show IsEnumerator (State.app _).mRenderState
    refine enum_ite_app _ _ (fun _ _ => by simp [IsEnumerator]) ?_
    refine enum_ite_app _ _ (fun _ _ => by simp [IsEnumerator]) ?_
    refine enum_ite_app _ _ (fun _ _ => by simp [IsEnumerator]) ?_
    refine enum_ite_app _ _ (fun _ _ => by simp [IsEnumerator]) ?_
    refine enum_ite_app _ _ (fun _ _ => by simp [IsEnumerator]) ?_
    refine enum_ite_ext E _ _ ?_
    refine enum_ite_ext E _ _ ?_
    refine enum_ite_app _ _ (fun _ h => h) ?_
    refine enum_ite_ext E _ _ ?_
    refine enum_ite_app _ _ (fun _ h => h) ?_
    refine enum_ite_app _ _ (fun _ h => h) ?_
    exact he
  obtain ⟨t, h1, h2⟩ := key
  have e : t = s' := by simpa [h] using h1.symm
  exact e ▸ h2

theorem Update_noEntry (E : Env W) (keys : KeyInput) (dt : ℚ) (s s' : State W)
    (h : DeferredShaderApp.Update E keys dt s = .ok s') (calls : List Call)
    (hc : s'.trace = s.trace ++ calls) :
    Call.host .VisualizeFullScreenGBufferTexture ∉ calls := by
  obtain ⟨cam, hcam⟩ := Update_ok E keys dt s s' h
  obtain ⟨t, h1, _, mid, h3, h4⟩ := Update_spec E keys dt s cam hcam
  have e : t = s' := by simpa [h] using h1.symm
  subst e
  rw [h3] at hc
  have := List.append_cancel_left hc
  subst this
  intro hm
  simp only [List.mem_append, List.mem_cons, List.mem_singleton, List.not_mem_nil,
    or_false] at hm
  rcases hm with (hm | hm) | hm
  · rcases hm with hm | hm | hm <;> cases hm
  · have := List.all_eq_true.mp h4 _ hm
    cases this
  · cases hm

theorem OnMouseMove_entry (E : Env W) (btnState : Nat) (x y : Int) (s s' : State W)
    (h : DeferredShaderApp.OnMouseMove E btnState x y s = .ok s') :
    s'.app.mRenderState = s.app.mRenderState ∧
      ∀ calls, s'.trace = s.trace ++ calls →
        Call.host .VisualizeFullScreenGBufferTexture ∉ calls := by
  simp only [DeferredShaderApp.OnMouseMove] at h
  cases hc : s.app.mCamera with
  | none =>
    split_ifs at h <;> simp [deref, hc, bind, Except.bind, pure, Except.pure] at h
    subst h
    refine ⟨rfl, fun calls hcalls => ?_⟩
    have : [] = calls := @List.append_cancel_left _ s.trace [] calls (by simpa using hcalls)
    subst this
    simp
  | some cam =>
    split_ifs at h <;> simp [deref, hc, bind, Except.bind, pure, Except.pure] at h <;>
      subst h <;> refine ⟨rfl, fun calls hcalls => ?_⟩
    · simp only [setApp_trace, extCall_trace, List.append_assoc] at hcalls
      have := List.append_cancel_left hcalls
      subst this
      simp
    · simp only [setApp_trace, extCall_trace, List.append_assoc] at hcalls
      have := List.append_cancel_left hcalls
      subst this
      simp
    · have : [] = calls := @List.append_cancel_left _ s.trace [] calls (by simpa using hcalls)
      subst this
      simp

theorem Resize_entry (E : Env W) (w h : Int) (s s' : State W)
    (hr : DeferredShaderApp.OnResize E
      (s.setApp (fun a => { a with mClientWidth := w, mClientHeight := h })) = .ok s') :
    s'.app.mRenderState = s.app.mRenderState ∧
      ∀ calls, s'.trace = s.trace ++ calls →
        Call.host .VisualizeFullScreenGBufferTexture ∉ calls := by
  obtain ⟨cam, hcam⟩ := OnResize_ok E _ s' hr
  obtain ⟨t, h1, h2, _, h4⟩ := OnResize_spec E _ cam hcam
  have e : t = s' := by simpa [hr] using h1.symm
  subst e
  refine ⟨by rw [h2]; rfl, fun calls hcalls => ?_⟩
  rw [h4] at hcalls
  have := List.append_cancel_left hcalls
  subst this
  simp

theorem Render_entry (E : Env W) (gui : GuiInput) (fuel : Nat) (s s' : State W)
    (h : DeferredShaderApp.Render E gui fuel s = .ok s') :
    s'.app.mRenderState = s.app.mRenderState ∧
      ∀ calls, s'.trace = s.trace ++ calls →
        Call.host .VisualizeFullScreenGBufferTexture ∈ calls →
        s.app.mRenderState ≠ BACKBUFFERRT := by
  obtain ⟨hi, n, hf, hs⟩ := Render_ok E gui fuel s s' h
  obtain ⟨u0, _, g2, g3, g4, g5⟩ := generateShadowMaps_spec E n fuel s hs hf
  obtain ⟨r1', r2', r3', _, _⟩ := restoreStates_spec s.ctx.viewport s.ctx.rsState u0
  generalize hu : DeferredShaderApp.restoreStates s.ctx.viewport s.ctx.rsState u0 = u at *
  have hiu : Initialised u := by
    unfold Initialised
    rw [r1', r2', g3, g4]
    exact hi
  obtain ⟨t, pack, p1, p2, p4, p5⟩ := packAndLight_calls E u hiu
  have hta : t.app = s.app := by rw [p2, r1', g3]
  have hfin : DeferredShaderApp.finishFrame E gui (DeferredShaderApp.savedDepthState E u).1
      (DeferredShaderApp.savedDepthState E u).2 t = .ok s' := by
    rw [Render_split, g2] at h
    simpa only [p1] using h
  obtain ⟨post, hpost, hall⟩ := finishFrame_tail E gui _ _ t s' hfin
  refine ⟨by rw [finishFrame_renderState E gui _ _ t s' hfin, hta], ?_⟩
  intro calls hcalls hm hB
  obtain ⟨views, hv, hvall⟩ := debugViews_noEntry E t (by rw [hta]; exact hB)
  rw [hpost, hv, p4, r3', g5] at hcalls
  simp only [List.append_assoc] at hcalls
  have := List.append_cancel_left hcalls
  subst this
  simp only [List.mem_append, List.mem_cons, List.mem_singleton, List.not_mem_nil,
    or_false] at hm
  rcases hm with hm | hm | hm | hm | hm | hm | hm
  · rcases hm with hm | hm <;> cases hm
  · have := mem_phases_of_mem _ Phase.debug _ hm rfl
    simp [phases_shadowCalls, List.mem_replicate] at this
  · simp [restoreCalls] at hm
  · have := mem_phases_of_mem _ Phase.debug _ hm rfl
    simp [p5] at this
  · rcases hm with hm | hm | hm | hm <;> cases hm
  · have := List.all_eq_true.mp hvall _ hm
    simp [isFullScreenEntry] at this
  · have := List.all_eq_true.mp hall _ hm
    simp [isViewEntry] at this

theorem handle_entry (E : Env W) (fuel : Nat) (h : Handler) (s s' : State W)
    (hh : handle E fuel h s = .ok s') :
    (IsEnumerator s.app.mRenderState → IsEnumerator s'.app.mRenderState) ∧
      ∀ calls, s'.trace = s.trace ++ calls →
        Call.host .VisualizeFullScreenGBufferTexture ∈ calls →
        s.app.mRenderState ≠ BACKBUFFERRT := by
  cases h with
  | event e =>
    cases e with
    | Resize w h =>
      obtain ⟨a1, a2⟩ := Resize_entry E w h s s' hh
      exact ⟨fun he => a1 ▸ he, fun calls hc hm => absurd hm (a2 calls hc)⟩
    | Update keys dt =>
      exact ⟨Update_enum E keys dt s s' hh,
        fun calls hc hm => absurd hm (Update_noEntry E keys dt s s' hh calls hc)⟩
    | Render gui =>
      obtain ⟨a1, a2⟩ := Render_entry E gui fuel s s' hh
      exact ⟨fun he => a1 ▸ he, a2⟩
  | OnMouseDown x y =>
    simp only [handle, Except.ok.injEq] at hh
    subst hh
    refine ⟨fun he => he, fun calls hc hm => ?_⟩
    have : [] = calls := @List.append_cancel_left _ s.trace [] calls
      (by simpa [DeferredShaderApp.OnMouseDown] using hc)
    subst this
    simp at hm
  | OnMouseMove b x y =>
    obtain ⟨a1, a2⟩ := OnMouseMove_entry E b x y s s' hh
    exact ⟨fun he => a1 ▸ he, fun calls hc hm => absurd hm (a2 calls hc)⟩

theorem handleAll_enum (E : Env W) (fuel : Nat) (hs : List Handler) :
    ∀ s s' : State W, IsEnumerator s.app.mRenderState → handleAll E fuel hs s = .ok s' →
      IsEnumerator s'.app.mRenderState := by
  induction hs with
  | nil =>
    intro s s' he h
    simp only [handleAll, Except.ok.injEq] at h
    exact h ▸ he
  | cons x xs ih =>
    intro s s' he h
    simp only [handleAll] at h
    cases hst : handle E fuel x s with
    | error f => simp [hst] at h
    | ok t =>
      simp only [hst] at h
      exact ih t s' ((handle_entry E fuel x s t hst).1 he) h

theorem supported_of_enum (r : RENDER_STATE) (he : IsEnumerator r) (hb : r ≠ BACKBUFFERRT) :
    Supported r := by
  rcases he with h | h
  · exact absurd h hb
  · exact h

end DeferredShader
